import Mathlib

/-! # Field arithmetic kernels of fiat-crypto: `fesquare` and `fenz`

A shallow embedding of two generated kernels,

* `src/Specific/solinas32_2e480m2e240m1/fesquare.c`: squaring modulo
  `2^480 - 2^240 - 1` on sixteen 30-bit limbs, and
* `src/Specific/montgomery32_2e452m3/fenz.c`: the OR-reduction that tests a
  fifteen-limb element of the field modulo `2^452 - 3` for zero,

followed by the properties proved about them.

Conventions of the embedding.  Every C variable is an integer (`Int`).  A value
stored in a variable declared `uint64_t` or `uint32_t`, and every operation
carried out at such a type, is reduced modulo `2^64` resp. `2^32` (`u64`,
`u32`).  Variables declared `ℤ` and the operators `+ℤ`, `*ℤ`, `-ℤ` are
unbounded.  `>>` is `shr` and `&` is `band`.
-/

namespace FiatCrypto

/-- Conversion to `uint64_t`: reduction modulo `2^64`. -/
def u64 (x : Int) : Int := x % 2 ^ 64

/-- Conversion to `uint32_t`: reduction modulo `2^32`. -/
def u32 (x : Int) : Int := x % 2 ^ 32

/-- The operator `>>` with a constant shift count. -/
def shr (x : Int) (n : Nat) : Int := x >>> n

/-- The operator `&`. -/
def band (x y : Int) : Int := Int.land x y

/-- Modelled from the spec: the operator `Op (Syntax.IdWithAlt ...) (e1, e2)` of the
generated code, whose definition is not part of the C sources.  It pairs an
expression with an alternative way of computing the same total; its value is the
first expression. -/
def idWithAlt (value _alt : Int) : Int := value

namespace Fesquare

/-- The sixteen limb parameters of `fesquare`, in declaration order. -/
structure Args where
  x29 : Int
  x30 : Int
  x28 : Int
  x26 : Int
  x24 : Int
  x22 : Int
  x20 : Int
  x18 : Int
  x16 : Int
  x14 : Int
  x12 : Int
  x10 : Int
  x8 : Int
  x6 : Int
  x4 : Int
  x2 : Int

/-! ## Lines 20-49: the coefficients -/

/-- Source variable x31 (type ℤ, `IdWithAlt` pair). -/
def x31 (a : Args) : Int :=
  idWithAlt
    (((u64 (a.x16 + a.x29)) * (u64 (a.x16 + a.x29))) - (u64 (a.x16 * a.x16)))
    (((u64 (a.x16 * a.x29)) + (u64 (a.x29 * a.x16))) + (u64 (a.x29 * a.x29)))

/-- Source variable x32 (type ℤ, `IdWithAlt` pair). -/
def x32 (a : Args) : Int :=
  idWithAlt
    ((((u64 (a.x14 + a.x30)) * (u64 (a.x16 + a.x29))) + ((u64 (a.x16 + a.x29)) * (u64 (a.x14 + a.x30)))) - ((u64 (a.x14 * a.x16)) + (u64 (a.x16 * a.x14))))
    ((((u64 (a.x14 * a.x29)) + (u64 (a.x16 * a.x30))) + ((u64 (a.x30 * a.x16)) + (u64 (a.x29 * a.x14)))) + ((u64 (a.x30 * a.x29)) + (u64 (a.x29 * a.x30))))

/-- Source variable x33 (type ℤ, `IdWithAlt` pair). -/
def x33 (a : Args) : Int :=
  idWithAlt
    ((((u64 (a.x12 + a.x28)) * (u64 (a.x16 + a.x29))) + (((u64 (a.x14 + a.x30)) * (u64 (a.x14 + a.x30))) + ((u64 (a.x16 + a.x29)) * (u64 (a.x12 + a.x28))))) - ((u64 (a.x12 * a.x16)) + ((u64 (a.x14 * a.x14)) + (u64 (a.x16 * a.x12)))))
    ((((u64 (a.x12 * a.x29)) + ((u64 (a.x14 * a.x30)) + (u64 (a.x16 * a.x28)))) + ((u64 (a.x28 * a.x16)) + ((u64 (a.x30 * a.x14)) + (u64 (a.x29 * a.x12))))) + ((u64 (a.x28 * a.x29)) + ((u64 (a.x30 * a.x30)) + (u64 (a.x29 * a.x28)))))

/-- Source variable x34 (type ℤ, `IdWithAlt` pair). -/
def x34 (a : Args) : Int :=
  idWithAlt
    ((((u64 (a.x10 + a.x26)) * (u64 (a.x16 + a.x29))) + (((u64 (a.x12 + a.x28)) * (u64 (a.x14 + a.x30))) + (((u64 (a.x14 + a.x30)) * (u64 (a.x12 + a.x28))) + ((u64 (a.x16 + a.x29)) * (u64 (a.x10 + a.x26)))))) - ((u64 (a.x10 * a.x16)) + ((u64 (a.x12 * a.x14)) + ((u64 (a.x14 * a.x12)) + (u64 (a.x16 * a.x10))))))
    ((((u64 (a.x10 * a.x29)) + ((u64 (a.x12 * a.x30)) + ((u64 (a.x14 * a.x28)) + (u64 (a.x16 * a.x26))))) + ((u64 (a.x26 * a.x16)) + ((u64 (a.x28 * a.x14)) + ((u64 (a.x30 * a.x12)) + (u64 (a.x29 * a.x10)))))) + ((u64 (a.x26 * a.x29)) + ((u64 (a.x28 * a.x30)) + ((u64 (a.x30 * a.x28)) + (u64 (a.x29 * a.x26))))))

/-- Source variable x35 (type ℤ, `IdWithAlt` pair). -/
def x35 (a : Args) : Int :=
  idWithAlt
    ((((u64 (a.x8 + a.x24)) * (u64 (a.x16 + a.x29))) + (((u64 (a.x10 + a.x26)) * (u64 (a.x14 + a.x30))) + (((u64 (a.x12 + a.x28)) * (u64 (a.x12 + a.x28))) + (((u64 (a.x14 + a.x30)) * (u64 (a.x10 + a.x26))) + ((u64 (a.x16 + a.x29)) * (u64 (a.x8 + a.x24))))))) - ((u64 (a.x8 * a.x16)) + ((u64 (a.x10 * a.x14)) + ((u64 (a.x12 * a.x12)) + ((u64 (a.x14 * a.x10)) + (u64 (a.x16 * a.x8)))))))
    ((((u64 (a.x8 * a.x29)) + ((u64 (a.x10 * a.x30)) + ((u64 (a.x12 * a.x28)) + ((u64 (a.x14 * a.x26)) + (u64 (a.x16 * a.x24)))))) + ((u64 (a.x24 * a.x16)) + ((u64 (a.x26 * a.x14)) + ((u64 (a.x28 * a.x12)) + ((u64 (a.x30 * a.x10)) + (u64 (a.x29 * a.x8))))))) + ((u64 (a.x24 * a.x29)) + ((u64 (a.x26 * a.x30)) + ((u64 (a.x28 * a.x28)) + ((u64 (a.x30 * a.x26)) + (u64 (a.x29 * a.x24)))))))

/-- Source variable x36 (type ℤ, `IdWithAlt` pair). -/
def x36 (a : Args) : Int :=
  idWithAlt
    ((((u64 (a.x6 + a.x22)) * (u64 (a.x16 + a.x29))) + (((u64 (a.x8 + a.x24)) * (u64 (a.x14 + a.x30))) + (((u64 (a.x10 + a.x26)) * (u64 (a.x12 + a.x28))) + (((u64 (a.x12 + a.x28)) * (u64 (a.x10 + a.x26))) + (((u64 (a.x14 + a.x30)) * (u64 (a.x8 + a.x24))) + ((u64 (a.x16 + a.x29)) * (u64 (a.x6 + a.x22)))))))) - ((u64 (a.x6 * a.x16)) + ((u64 (a.x8 * a.x14)) + ((u64 (a.x10 * a.x12)) + ((u64 (a.x12 * a.x10)) + ((u64 (a.x14 * a.x8)) + (u64 (a.x16 * a.x6))))))))
    ((((u64 (a.x6 * a.x29)) + ((u64 (a.x8 * a.x30)) + ((u64 (a.x10 * a.x28)) + ((u64 (a.x12 * a.x26)) + ((u64 (a.x14 * a.x24)) + (u64 (a.x16 * a.x22))))))) + ((u64 (a.x22 * a.x16)) + ((u64 (a.x24 * a.x14)) + ((u64 (a.x26 * a.x12)) + ((u64 (a.x28 * a.x10)) + ((u64 (a.x30 * a.x8)) + (u64 (a.x29 * a.x6)))))))) + ((u64 (a.x22 * a.x29)) + ((u64 (a.x24 * a.x30)) + ((u64 (a.x26 * a.x28)) + ((u64 (a.x28 * a.x26)) + ((u64 (a.x30 * a.x24)) + (u64 (a.x29 * a.x22))))))))

/-- Source variable x37 (type ℤ, `IdWithAlt` pair). -/
def x37 (a : Args) : Int :=
  idWithAlt
    ((((u64 (a.x4 + a.x20)) * (u64 (a.x16 + a.x29))) + (((u64 (a.x6 + a.x22)) * (u64 (a.x14 + a.x30))) + (((u64 (a.x8 + a.x24)) * (u64 (a.x12 + a.x28))) + (((u64 (a.x10 + a.x26)) * (u64 (a.x10 + a.x26))) + (((u64 (a.x12 + a.x28)) * (u64 (a.x8 + a.x24))) + (((u64 (a.x14 + a.x30)) * (u64 (a.x6 + a.x22))) + ((u64 (a.x16 + a.x29)) * (u64 (a.x4 + a.x20))))))))) - ((u64 (a.x4 * a.x16)) + ((u64 (a.x6 * a.x14)) + ((u64 (a.x8 * a.x12)) + ((u64 (a.x10 * a.x10)) + ((u64 (a.x12 * a.x8)) + ((u64 (a.x14 * a.x6)) + (u64 (a.x16 * a.x4)))))))))
    ((((u64 (a.x4 * a.x29)) + ((u64 (a.x6 * a.x30)) + ((u64 (a.x8 * a.x28)) + ((u64 (a.x10 * a.x26)) + ((u64 (a.x12 * a.x24)) + ((u64 (a.x14 * a.x22)) + (u64 (a.x16 * a.x20)))))))) + ((u64 (a.x20 * a.x16)) + ((u64 (a.x22 * a.x14)) + ((u64 (a.x24 * a.x12)) + ((u64 (a.x26 * a.x10)) + ((u64 (a.x28 * a.x8)) + ((u64 (a.x30 * a.x6)) + (u64 (a.x29 * a.x4))))))))) + ((u64 (a.x20 * a.x29)) + ((u64 (a.x22 * a.x30)) + ((u64 (a.x24 * a.x28)) + ((u64 (a.x26 * a.x26)) + ((u64 (a.x28 * a.x24)) + ((u64 (a.x30 * a.x22)) + (u64 (a.x29 * a.x20)))))))))

/-- Source variable x38 (type ℤ, `IdWithAlt` pair). -/
def x38 (a : Args) : Int :=
  idWithAlt
    ((((u64 (a.x2 + a.x18)) * (u64 (a.x16 + a.x29))) + (((u64 (a.x4 + a.x20)) * (u64 (a.x14 + a.x30))) + (((u64 (a.x6 + a.x22)) * (u64 (a.x12 + a.x28))) + (((u64 (a.x8 + a.x24)) * (u64 (a.x10 + a.x26))) + (((u64 (a.x10 + a.x26)) * (u64 (a.x8 + a.x24))) + (((u64 (a.x12 + a.x28)) * (u64 (a.x6 + a.x22))) + (((u64 (a.x14 + a.x30)) * (u64 (a.x4 + a.x20))) + ((u64 (a.x16 + a.x29)) * (u64 (a.x2 + a.x18)))))))))) - ((u64 (a.x2 * a.x16)) + ((u64 (a.x4 * a.x14)) + ((u64 (a.x6 * a.x12)) + ((u64 (a.x8 * a.x10)) + ((u64 (a.x10 * a.x8)) + ((u64 (a.x12 * a.x6)) + ((u64 (a.x14 * a.x4)) + (u64 (a.x16 * a.x2))))))))))
    ((((u64 (a.x2 * a.x29)) + ((u64 (a.x4 * a.x30)) + ((u64 (a.x6 * a.x28)) + ((u64 (a.x8 * a.x26)) + ((u64 (a.x10 * a.x24)) + ((u64 (a.x12 * a.x22)) + ((u64 (a.x14 * a.x20)) + (u64 (a.x16 * a.x18))))))))) + ((u64 (a.x18 * a.x16)) + ((u64 (a.x20 * a.x14)) + ((u64 (a.x22 * a.x12)) + ((u64 (a.x24 * a.x10)) + ((u64 (a.x26 * a.x8)) + ((u64 (a.x28 * a.x6)) + ((u64 (a.x30 * a.x4)) + (u64 (a.x29 * a.x2)))))))))) + ((u64 (a.x18 * a.x29)) + ((u64 (a.x20 * a.x30)) + ((u64 (a.x22 * a.x28)) + ((u64 (a.x24 * a.x26)) + ((u64 (a.x26 * a.x24)) + ((u64 (a.x28 * a.x22)) + ((u64 (a.x30 * a.x20)) + (u64 (a.x29 * a.x18))))))))))

/-- Source variable x39 (type ℤ, `IdWithAlt` pair). -/
def x39 (a : Args) : Int :=
  idWithAlt
    ((((u64 (a.x2 + a.x18)) * (u64 (a.x14 + a.x30))) + (((u64 (a.x4 + a.x20)) * (u64 (a.x12 + a.x28))) + (((u64 (a.x6 + a.x22)) * (u64 (a.x10 + a.x26))) + (((u64 (a.x8 + a.x24)) * (u64 (a.x8 + a.x24))) + (((u64 (a.x10 + a.x26)) * (u64 (a.x6 + a.x22))) + (((u64 (a.x12 + a.x28)) * (u64 (a.x4 + a.x20))) + ((u64 (a.x14 + a.x30)) * (u64 (a.x2 + a.x18))))))))) - ((u64 (a.x2 * a.x14)) + ((u64 (a.x4 * a.x12)) + ((u64 (a.x6 * a.x10)) + ((u64 (a.x8 * a.x8)) + ((u64 (a.x10 * a.x6)) + ((u64 (a.x12 * a.x4)) + (u64 (a.x14 * a.x2)))))))))
    ((((u64 (a.x2 * a.x30)) + ((u64 (a.x4 * a.x28)) + ((u64 (a.x6 * a.x26)) + ((u64 (a.x8 * a.x24)) + ((u64 (a.x10 * a.x22)) + ((u64 (a.x12 * a.x20)) + (u64 (a.x14 * a.x18)))))))) + ((u64 (a.x18 * a.x14)) + ((u64 (a.x20 * a.x12)) + ((u64 (a.x22 * a.x10)) + ((u64 (a.x24 * a.x8)) + ((u64 (a.x26 * a.x6)) + ((u64 (a.x28 * a.x4)) + (u64 (a.x30 * a.x2))))))))) + ((u64 (a.x18 * a.x30)) + ((u64 (a.x20 * a.x28)) + ((u64 (a.x22 * a.x26)) + ((u64 (a.x24 * a.x24)) + ((u64 (a.x26 * a.x22)) + ((u64 (a.x28 * a.x20)) + (u64 (a.x30 * a.x18)))))))))

/-- Source variable x40 (type ℤ, `IdWithAlt` pair). -/
def x40 (a : Args) : Int :=
  idWithAlt
    ((((u64 (a.x2 + a.x18)) * (u64 (a.x12 + a.x28))) + (((u64 (a.x4 + a.x20)) * (u64 (a.x10 + a.x26))) + (((u64 (a.x6 + a.x22)) * (u64 (a.x8 + a.x24))) + (((u64 (a.x8 + a.x24)) * (u64 (a.x6 + a.x22))) + (((u64 (a.x10 + a.x26)) * (u64 (a.x4 + a.x20))) + ((u64 (a.x12 + a.x28)) * (u64 (a.x2 + a.x18)))))))) - ((u64 (a.x2 * a.x12)) + ((u64 (a.x4 * a.x10)) + ((u64 (a.x6 * a.x8)) + ((u64 (a.x8 * a.x6)) + ((u64 (a.x10 * a.x4)) + (u64 (a.x12 * a.x2))))))))
    ((((u64 (a.x2 * a.x28)) + ((u64 (a.x4 * a.x26)) + ((u64 (a.x6 * a.x24)) + ((u64 (a.x8 * a.x22)) + ((u64 (a.x10 * a.x20)) + (u64 (a.x12 * a.x18))))))) + ((u64 (a.x18 * a.x12)) + ((u64 (a.x20 * a.x10)) + ((u64 (a.x22 * a.x8)) + ((u64 (a.x24 * a.x6)) + ((u64 (a.x26 * a.x4)) + (u64 (a.x28 * a.x2)))))))) + ((u64 (a.x18 * a.x28)) + ((u64 (a.x20 * a.x26)) + ((u64 (a.x22 * a.x24)) + ((u64 (a.x24 * a.x22)) + ((u64 (a.x26 * a.x20)) + (u64 (a.x28 * a.x18))))))))

/-- Source variable x41 (type ℤ, `IdWithAlt` pair). -/
def x41 (a : Args) : Int :=
  idWithAlt
    ((((u64 (a.x2 + a.x18)) * (u64 (a.x10 + a.x26))) + (((u64 (a.x4 + a.x20)) * (u64 (a.x8 + a.x24))) + (((u64 (a.x6 + a.x22)) * (u64 (a.x6 + a.x22))) + (((u64 (a.x8 + a.x24)) * (u64 (a.x4 + a.x20))) + ((u64 (a.x10 + a.x26)) * (u64 (a.x2 + a.x18))))))) - ((u64 (a.x2 * a.x10)) + ((u64 (a.x4 * a.x8)) + ((u64 (a.x6 * a.x6)) + ((u64 (a.x8 * a.x4)) + (u64 (a.x10 * a.x2)))))))
    ((((u64 (a.x2 * a.x26)) + ((u64 (a.x4 * a.x24)) + ((u64 (a.x6 * a.x22)) + ((u64 (a.x8 * a.x20)) + (u64 (a.x10 * a.x18)))))) + ((u64 (a.x18 * a.x10)) + ((u64 (a.x20 * a.x8)) + ((u64 (a.x22 * a.x6)) + ((u64 (a.x24 * a.x4)) + (u64 (a.x26 * a.x2))))))) + ((u64 (a.x18 * a.x26)) + ((u64 (a.x20 * a.x24)) + ((u64 (a.x22 * a.x22)) + ((u64 (a.x24 * a.x20)) + (u64 (a.x26 * a.x18)))))))

/-- Source variable x42 (type ℤ, `IdWithAlt` pair). -/
def x42 (a : Args) : Int :=
  idWithAlt
    ((((u64 (a.x2 + a.x18)) * (u64 (a.x8 + a.x24))) + (((u64 (a.x4 + a.x20)) * (u64 (a.x6 + a.x22))) + (((u64 (a.x6 + a.x22)) * (u64 (a.x4 + a.x20))) + ((u64 (a.x8 + a.x24)) * (u64 (a.x2 + a.x18)))))) - ((u64 (a.x2 * a.x8)) + ((u64 (a.x4 * a.x6)) + ((u64 (a.x6 * a.x4)) + (u64 (a.x8 * a.x2))))))
    ((((u64 (a.x2 * a.x24)) + ((u64 (a.x4 * a.x22)) + ((u64 (a.x6 * a.x20)) + (u64 (a.x8 * a.x18))))) + ((u64 (a.x18 * a.x8)) + ((u64 (a.x20 * a.x6)) + ((u64 (a.x22 * a.x4)) + (u64 (a.x24 * a.x2)))))) + ((u64 (a.x18 * a.x24)) + ((u64 (a.x20 * a.x22)) + ((u64 (a.x22 * a.x20)) + (u64 (a.x24 * a.x18))))))

/-- Source variable x43 (type ℤ, `IdWithAlt` pair). -/
def x43 (a : Args) : Int :=
  idWithAlt
    ((((u64 (a.x2 + a.x18)) * (u64 (a.x6 + a.x22))) + (((u64 (a.x4 + a.x20)) * (u64 (a.x4 + a.x20))) + ((u64 (a.x6 + a.x22)) * (u64 (a.x2 + a.x18))))) - ((u64 (a.x2 * a.x6)) + ((u64 (a.x4 * a.x4)) + (u64 (a.x6 * a.x2)))))
    ((((u64 (a.x2 * a.x22)) + ((u64 (a.x4 * a.x20)) + (u64 (a.x6 * a.x18)))) + ((u64 (a.x18 * a.x6)) + ((u64 (a.x20 * a.x4)) + (u64 (a.x22 * a.x2))))) + ((u64 (a.x18 * a.x22)) + ((u64 (a.x20 * a.x20)) + (u64 (a.x22 * a.x18)))))

/-- Source variable x44 (type ℤ, `IdWithAlt` pair). -/
def x44 (a : Args) : Int :=
  idWithAlt
    ((((u64 (a.x2 + a.x18)) * (u64 (a.x4 + a.x20))) + ((u64 (a.x4 + a.x20)) * (u64 (a.x2 + a.x18)))) - ((u64 (a.x2 * a.x4)) + (u64 (a.x4 * a.x2))))
    ((((u64 (a.x2 * a.x20)) + (u64 (a.x4 * a.x18))) + ((u64 (a.x18 * a.x4)) + (u64 (a.x20 * a.x2)))) + ((u64 (a.x18 * a.x20)) + (u64 (a.x20 * a.x18))))

/-- Source variable x45 (type ℤ, `IdWithAlt` pair). -/
def x45 (a : Args) : Int :=
  idWithAlt
    (((u64 (a.x2 + a.x18)) * (u64 (a.x2 + a.x18))) - (u64 (a.x2 * a.x2)))
    (((u64 (a.x2 * a.x18)) + (u64 (a.x18 * a.x2))) + (u64 (a.x18 * a.x18)))

/-- Source variable x46 (type ℤ). -/
def x46 (a : Args) : Int :=
  ((((u64 (a.x16 * a.x16)) + (u64 (a.x29 * a.x29))) + (x39 a)) + (x31 a))

/-- Source variable x47 (type ℤ). -/
def x47 (a : Args) : Int :=
  (((((u64 (a.x14 * a.x16)) + (u64 (a.x16 * a.x14))) + ((u64 (a.x30 * a.x29)) + (u64 (a.x29 * a.x30)))) + (x40 a)) + (x32 a))

/-- Source variable x48 (type ℤ). -/
def x48 (a : Args) : Int :=
  (((((u64 (a.x12 * a.x16)) + ((u64 (a.x14 * a.x14)) + (u64 (a.x16 * a.x12)))) + ((u64 (a.x28 * a.x29)) + ((u64 (a.x30 * a.x30)) + (u64 (a.x29 * a.x28))))) + (x41 a)) + (x33 a))

/-- Source variable x49 (type ℤ). -/
def x49 (a : Args) : Int :=
  (((((u64 (a.x10 * a.x16)) + ((u64 (a.x12 * a.x14)) + ((u64 (a.x14 * a.x12)) + (u64 (a.x16 * a.x10))))) + ((u64 (a.x26 * a.x29)) + ((u64 (a.x28 * a.x30)) + ((u64 (a.x30 * a.x28)) + (u64 (a.x29 * a.x26)))))) + (x42 a)) + (x34 a))

/-- Source variable x50 (type ℤ). -/
def x50 (a : Args) : Int :=
  (((((u64 (a.x8 * a.x16)) + ((u64 (a.x10 * a.x14)) + ((u64 (a.x12 * a.x12)) + ((u64 (a.x14 * a.x10)) + (u64 (a.x16 * a.x8)))))) + ((u64 (a.x24 * a.x29)) + ((u64 (a.x26 * a.x30)) + ((u64 (a.x28 * a.x28)) + ((u64 (a.x30 * a.x26)) + (u64 (a.x29 * a.x24))))))) + (x43 a)) + (x35 a))

/-- Source variable x51 (type ℤ). -/
def x51 (a : Args) : Int :=
  (((((u64 (a.x6 * a.x16)) + ((u64 (a.x8 * a.x14)) + ((u64 (a.x10 * a.x12)) + ((u64 (a.x12 * a.x10)) + ((u64 (a.x14 * a.x8)) + (u64 (a.x16 * a.x6))))))) + ((u64 (a.x22 * a.x29)) + ((u64 (a.x24 * a.x30)) + ((u64 (a.x26 * a.x28)) + ((u64 (a.x28 * a.x26)) + ((u64 (a.x30 * a.x24)) + (u64 (a.x29 * a.x22)))))))) + (x44 a)) + (x36 a))

/-- Source variable x52 (type ℤ). -/
def x52 (a : Args) : Int :=
  (((((u64 (a.x4 * a.x16)) + ((u64 (a.x6 * a.x14)) + ((u64 (a.x8 * a.x12)) + ((u64 (a.x10 * a.x10)) + ((u64 (a.x12 * a.x8)) + ((u64 (a.x14 * a.x6)) + (u64 (a.x16 * a.x4)))))))) + ((u64 (a.x20 * a.x29)) + ((u64 (a.x22 * a.x30)) + ((u64 (a.x24 * a.x28)) + ((u64 (a.x26 * a.x26)) + ((u64 (a.x28 * a.x24)) + ((u64 (a.x30 * a.x22)) + (u64 (a.x29 * a.x20))))))))) + (x45 a)) + (x37 a))

/-- Source variable x53 (type ℤ). -/
def x53 (a : Args) : Int :=
  (((u64 (a.x2 * a.x16)) + ((u64 (a.x4 * a.x14)) + ((u64 (a.x6 * a.x12)) + ((u64 (a.x8 * a.x10)) + ((u64 (a.x10 * a.x8)) + ((u64 (a.x12 * a.x6)) + ((u64 (a.x14 * a.x4)) + (u64 (a.x16 * a.x2))))))))) + ((u64 (a.x18 * a.x29)) + ((u64 (a.x20 * a.x30)) + ((u64 (a.x22 * a.x28)) + ((u64 (a.x24 * a.x26)) + ((u64 (a.x26 * a.x24)) + ((u64 (a.x28 * a.x22)) + ((u64 (a.x30 * a.x20)) + (u64 (a.x29 * a.x18))))))))))

/-- Source variable x54 (type ℤ). -/
def x54 (a : Args) : Int :=
  ((((u64 (a.x2 * a.x14)) + ((u64 (a.x4 * a.x12)) + ((u64 (a.x6 * a.x10)) + ((u64 (a.x8 * a.x8)) + ((u64 (a.x10 * a.x6)) + ((u64 (a.x12 * a.x4)) + (u64 (a.x14 * a.x2)))))))) + ((u64 (a.x18 * a.x30)) + ((u64 (a.x20 * a.x28)) + ((u64 (a.x22 * a.x26)) + ((u64 (a.x24 * a.x24)) + ((u64 (a.x26 * a.x22)) + ((u64 (a.x28 * a.x20)) + (u64 (a.x30 * a.x18))))))))) + (x31 a))

/-- Source variable x55 (type ℤ). -/
def x55 (a : Args) : Int :=
  ((((u64 (a.x2 * a.x12)) + ((u64 (a.x4 * a.x10)) + ((u64 (a.x6 * a.x8)) + ((u64 (a.x8 * a.x6)) + ((u64 (a.x10 * a.x4)) + (u64 (a.x12 * a.x2))))))) + ((u64 (a.x18 * a.x28)) + ((u64 (a.x20 * a.x26)) + ((u64 (a.x22 * a.x24)) + ((u64 (a.x24 * a.x22)) + ((u64 (a.x26 * a.x20)) + (u64 (a.x28 * a.x18)))))))) + (x32 a))

/-- Source variable x56 (type ℤ). -/
def x56 (a : Args) : Int :=
  ((((u64 (a.x2 * a.x10)) + ((u64 (a.x4 * a.x8)) + ((u64 (a.x6 * a.x6)) + ((u64 (a.x8 * a.x4)) + (u64 (a.x10 * a.x2)))))) + ((u64 (a.x18 * a.x26)) + ((u64 (a.x20 * a.x24)) + ((u64 (a.x22 * a.x22)) + ((u64 (a.x24 * a.x20)) + (u64 (a.x26 * a.x18))))))) + (x33 a))

/-- Source variable x57 (type ℤ). -/
def x57 (a : Args) : Int :=
  ((((u64 (a.x2 * a.x8)) + ((u64 (a.x4 * a.x6)) + ((u64 (a.x6 * a.x4)) + (u64 (a.x8 * a.x2))))) + ((u64 (a.x18 * a.x24)) + ((u64 (a.x20 * a.x22)) + ((u64 (a.x22 * a.x20)) + (u64 (a.x24 * a.x18)))))) + (x34 a))

/-- Source variable x58 (type ℤ). -/
def x58 (a : Args) : Int :=
  ((((u64 (a.x2 * a.x6)) + ((u64 (a.x4 * a.x4)) + (u64 (a.x6 * a.x2)))) + ((u64 (a.x18 * a.x22)) + ((u64 (a.x20 * a.x20)) + (u64 (a.x22 * a.x18))))) + (x35 a))

/-- Source variable x59 (type ℤ). -/
def x59 (a : Args) : Int :=
  ((((u64 (a.x2 * a.x4)) + (u64 (a.x4 * a.x2))) + ((u64 (a.x18 * a.x20)) + (u64 (a.x20 * a.x18)))) + (x36 a))

/-- Source variable x60 (type ℤ). -/
def x60 (a : Args) : Int :=
  (((u64 (a.x2 * a.x2)) + (u64 (a.x18 * a.x18))) + (x37 a))

/-- The sixteen coefficients handed to the carry chain (lines 50-129), named as in
the source. -/
structure Coeffs where
  x38 : Int
  x46 : Int
  x47 : Int
  x48 : Int
  x49 : Int
  x50 : Int
  x51 : Int
  x52 : Int
  x53 : Int
  x54 : Int
  x55 : Int
  x56 : Int
  x57 : Int
  x58 : Int
  x59 : Int
  x60 : Int

/-- The coefficients computed by lines 20-49. -/
def coeffs (a : Args) : Coeffs where
  x38 := x38 a
  x46 := x46 a
  x47 := x47 a
  x48 := x48 a
  x49 := x49 a
  x50 := x50 a
  x51 := x51 a
  x52 := x52 a
  x53 := x53 a
  x54 := x54 a
  x55 := x55 a
  x56 := x56 a
  x57 := x57 a
  x58 := x58 a
  x59 := x59 a
  x60 := x60 a

/-! ## Lines 50-113: the carry chain -/

/-- Source variable x61 (type uint64_t). -/
def x61 (c : Coeffs) : Int :=
  u64 (shr c.x53 0x1e)

/-- Source variable x62 (type uint32_t). -/
def x62 (c : Coeffs) : Int :=
  u32 (band c.x53 0x3fffffff)

/-- Source variable x63 (type uint64_t). -/
def x63 (c : Coeffs) : Int :=
  u64 (shr c.x38 0x1e)

/-- Source variable x64 (type uint32_t). -/
def x64 (c : Coeffs) : Int :=
  u32 (band c.x38 0x3fffffff)

/-- Source variable x65 (type ℤ). -/
def x65 (c : Coeffs) : Int :=
  ((0x40000000 * (x63 c)) + (x64 c))

/-- Source variable x66 (type uint64_t). -/
def x66 (c : Coeffs) : Int :=
  u64 (shr (x65 c) 0x1e)

/-- Source variable x67 (type uint32_t). -/
def x67 (c : Coeffs) : Int :=
  u32 (band (x65 c) 0x3fffffff)

/-- Source variable x68 (type ℤ). -/
def x68 (c : Coeffs) : Int :=
  (((x61 c) + c.x52) + (x66 c))

/-- Source variable x69 (type uint64_t). -/
def x69 (c : Coeffs) : Int :=
  u64 (shr (x68 c) 0x1e)

/-- Source variable x70 (type uint32_t). -/
def x70 (c : Coeffs) : Int :=
  u32 (band (x68 c) 0x3fffffff)

/-- Source variable x71 (type ℤ). -/
def x71 (c : Coeffs) : Int :=
  (c.x60 + (x66 c))

/-- Source variable x72 (type uint64_t). -/
def x72 (c : Coeffs) : Int :=
  u64 (shr (x71 c) 0x1e)

/-- Source variable x73 (type uint32_t). -/
def x73 (c : Coeffs) : Int :=
  u32 (band (x71 c) 0x3fffffff)

/-- Source variable x74 (type ℤ). -/
def x74 (c : Coeffs) : Int :=
  ((x69 c) + c.x51)

/-- Source variable x75 (type uint64_t). -/
def x75 (c : Coeffs) : Int :=
  u64 (shr (x74 c) 0x1e)

/-- Source variable x76 (type uint32_t). -/
def x76 (c : Coeffs) : Int :=
  u32 (band (x74 c) 0x3fffffff)

/-- Source variable x77 (type ℤ). -/
def x77 (c : Coeffs) : Int :=
  ((x72 c) + c.x59)

/-- Source variable x78 (type uint64_t). -/
def x78 (c : Coeffs) : Int :=
  u64 (shr (x77 c) 0x1e)

/-- Source variable x79 (type uint32_t). -/
def x79 (c : Coeffs) : Int :=
  u32 (band (x77 c) 0x3fffffff)

/-- Source variable x80 (type ℤ). -/
def x80 (c : Coeffs) : Int :=
  ((x75 c) + c.x50)

/-- Source variable x81 (type uint64_t). -/
def x81 (c : Coeffs) : Int :=
  u64 (shr (x80 c) 0x1e)

/-- Source variable x82 (type uint32_t). -/
def x82 (c : Coeffs) : Int :=
  u32 (band (x80 c) 0x3fffffff)

/-- Source variable x83 (type ℤ). -/
def x83 (c : Coeffs) : Int :=
  ((x78 c) + c.x58)

/-- Source variable x84 (type uint64_t). -/
def x84 (c : Coeffs) : Int :=
  u64 (shr (x83 c) 0x1e)

/-- Source variable x85 (type uint32_t). -/
def x85 (c : Coeffs) : Int :=
  u32 (band (x83 c) 0x3fffffff)

/-- Source variable x86 (type ℤ). -/
def x86 (c : Coeffs) : Int :=
  ((x81 c) + c.x49)

/-- Source variable x87 (type uint64_t). -/
def x87 (c : Coeffs) : Int :=
  u64 (shr (x86 c) 0x1e)

/-- Source variable x88 (type uint32_t). -/
def x88 (c : Coeffs) : Int :=
  u32 (band (x86 c) 0x3fffffff)

/-- Source variable x89 (type ℤ). -/
def x89 (c : Coeffs) : Int :=
  ((x84 c) + c.x57)

/-- Source variable x90 (type uint64_t). -/
def x90 (c : Coeffs) : Int :=
  u64 (shr (x89 c) 0x1e)

/-- Source variable x91 (type uint32_t). -/
def x91 (c : Coeffs) : Int :=
  u32 (band (x89 c) 0x3fffffff)

/-- Source variable x92 (type ℤ). -/
def x92 (c : Coeffs) : Int :=
  ((x87 c) + c.x48)

/-- Source variable x93 (type uint64_t). -/
def x93 (c : Coeffs) : Int :=
  u64 (shr (x92 c) 0x1e)

/-- Source variable x94 (type uint32_t). -/
def x94 (c : Coeffs) : Int :=
  u32 (band (x92 c) 0x3fffffff)

/-- Source variable x95 (type ℤ). -/
def x95 (c : Coeffs) : Int :=
  ((x90 c) + c.x56)

/-- Source variable x96 (type uint64_t). -/
def x96 (c : Coeffs) : Int :=
  u64 (shr (x95 c) 0x1e)

/-- Source variable x97 (type uint32_t). -/
def x97 (c : Coeffs) : Int :=
  u32 (band (x95 c) 0x3fffffff)

/-- Source variable x98 (type ℤ). -/
def x98 (c : Coeffs) : Int :=
  ((x93 c) + c.x47)

/-- Source variable x99 (type uint64_t). -/
def x99 (c : Coeffs) : Int :=
  u64 (shr (x98 c) 0x1e)

/-- Source variable x100 (type uint32_t). -/
def x100 (c : Coeffs) : Int :=
  u32 (band (x98 c) 0x3fffffff)

/-- Source variable x101 (type ℤ). -/
def x101 (c : Coeffs) : Int :=
  ((x96 c) + c.x55)

/-- Source variable x102 (type uint64_t). -/
def x102 (c : Coeffs) : Int :=
  u64 (shr (x101 c) 0x1e)

/-- Source variable x103 (type uint32_t). -/
def x103 (c : Coeffs) : Int :=
  u32 (band (x101 c) 0x3fffffff)

/-- Source variable x104 (type ℤ). -/
def x104 (c : Coeffs) : Int :=
  ((x99 c) + c.x46)

/-- Source variable x105 (type uint64_t). -/
def x105 (c : Coeffs) : Int :=
  u64 (shr (x104 c) 0x1e)

/-- Source variable x106 (type uint32_t). -/
def x106 (c : Coeffs) : Int :=
  u32 (band (x104 c) 0x3fffffff)

/-- Source variable x107 (type ℤ). -/
def x107 (c : Coeffs) : Int :=
  ((x102 c) + c.x54)

/-- Source variable x108 (type uint64_t). -/
def x108 (c : Coeffs) : Int :=
  u64 (shr (x107 c) 0x1e)

/-- Source variable x109 (type uint32_t). -/
def x109 (c : Coeffs) : Int :=
  u32 (band (x107 c) 0x3fffffff)

/-- Source variable x110 (type uint64_t). -/
def x110 (c : Coeffs) : Int :=
  u64 ((x105 c) + (x67 c))

/-- Source variable x111 (type uint32_t). -/
def x111 (c : Coeffs) : Int :=
  u32 (u32 (shr (x110 c) 0x1e))

/-- Source variable x112 (type uint32_t). -/
def x112 (c : Coeffs) : Int :=
  u32 (band (u32 (x110 c)) 0x3fffffff)

/-- Source variable x113 (type uint64_t). -/
def x113 (c : Coeffs) : Int :=
  u64 ((x108 c) + (x62 c))

/-- Source variable x114 (type uint32_t). -/
def x114 (c : Coeffs) : Int :=
  u32 (u32 (shr (x113 c) 0x1e))

/-- Source variable x115 (type uint32_t). -/
def x115 (c : Coeffs) : Int :=
  u32 (band (u32 (x113 c)) 0x3fffffff)

/-- Source variable x116 (type uint64_t). -/
def x116 (c : Coeffs) : Int :=
  u64 ((u64 (0x40000000 * (x111 c))) + (x112 c))

/-- Source variable x117 (type uint32_t). -/
def x117 (c : Coeffs) : Int :=
  u32 (u32 (shr (x116 c) 0x1e))

/-- Source variable x118 (type uint32_t). -/
def x118 (c : Coeffs) : Int :=
  u32 (band (u32 (x116 c)) 0x3fffffff)

/-- Source variable x119 (type uint32_t). -/
def x119 (c : Coeffs) : Int :=
  u32 ((u32 ((x114 c) + (x70 c))) + (x117 c))

/-- Source variable x120 (type uint32_t). -/
def x120 (c : Coeffs) : Int :=
  u32 (shr (x119 c) 0x1e)

/-- Source variable x121 (type uint32_t). -/
def x121 (c : Coeffs) : Int :=
  u32 (band (x119 c) 0x3fffffff)

/-- Source variable x122 (type uint32_t). -/
def x122 (c : Coeffs) : Int :=
  u32 ((x73 c) + (x117 c))

/-- Source variable x123 (type uint32_t). -/
def x123 (c : Coeffs) : Int :=
  u32 (shr (x122 c) 0x1e)

/-- Source variable x124 (type uint32_t). -/
def x124 (c : Coeffs) : Int :=
  u32 (band (x122 c) 0x3fffffff)

/-- Lines 114-129: the output array `out[0], ..., out[15]`.  The two sums are
`uint32_t` additions. -/
def carryOut (c : Coeffs) : List Int :=
  [ x118 c, x106 c, x100 c, x94 c, x88 c, x82 c, u32 ((x120 c) + (x76 c)), x121 c,
    x115 c, x109 c, x103 c, x97 c, x91 c, x85 c, u32 ((x123 c) + (x79 c)), x124 c ]

/-- The kernel `fesquare`: the contents of `out` after the call. -/
def fesquare (a : Args) : List Int :=
  carryOut (coeffs a)

/-! ## Values, bounds and the schoolbook coefficients -/

/-- The limbs of an argument vector, least significant first: `x2` is limb 0, `x4`
limb 1, ..., `x16` limb 7, `x18` limb 8, ..., `x30` limb 14 and `x29` limb 15. -/
def limbs (a : Args) : List Int :=
  [a.x2, a.x4, a.x6, a.x8, a.x10, a.x12, a.x14, a.x16, a.x18, a.x20, a.x22, a.x24,
    a.x26, a.x28, a.x30, a.x29]

/-- Limb `i` of an argument vector (`0` beyond limb 15). -/
def limb (a : Args) : Nat → Int
  | 0 => a.x2 | 1 => a.x4 | 2 => a.x6 | 3 => a.x8 | 4 => a.x10 | 5 => a.x12 | 6 => a.x14
  | 7 => a.x16 | 8 => a.x18 | 9 => a.x20 | 10 => a.x22 | 11 => a.x24 | 12 => a.x26
  | 13 => a.x28 | 14 => a.x30 | 15 => a.x29 | _ => 0

/-- The number represented by limbs of `w` bits, least significant first: the sum
of `limb i * 2^(w*i)`. -/
def evalLimbs (w : Nat) : List Int → Int
  | [] => 0
  | x :: l => x + 2 ^ w * evalLimbs w l

/-- The value of an argument vector: the sum of `limb i * 2^(30*i)`. -/
def value (a : Args) : Int := evalLimbs 30 (limbs a)

/-- The value of an output array read with `out[15-i]` as limb `i`. -/
def outValue (out : List Int) : Int := evalLimbs 30 out.reverse

/-- The modulus `2^480 - 2^240 - 1`. -/
def p : Int := 2 ^ 480 - 2 ^ 240 - 1

/-- Every limb is a non-negative integer below `2^30`. -/
def LimbsLt30 (a : Args) : Prop := ∀ x ∈ limbs a, 0 ≤ x ∧ x < 2 ^ 30

/-- Every limb is a non-negative integer of at most `2^30`. -/
def LimbsLe30 (a : Args) : Prop := ∀ x ∈ limbs a, 0 ≤ x ∧ x ≤ 2 ^ 30

/-- Tight form: limbs below `2^30` representing a value in `[0, p)`. -/
def Tight (a : Args) : Prop := LimbsLt30 a ∧ value a < p

/-- The schoolbook coefficient `S_m`: the sum of `a_i * a_j` over `0 ≤ i, j ≤ 15`
with `i + j = m`. -/
def S (a : Args) (m : Nat) : Int :=
  ∑ i in Finset.range 16, ∑ j in Finset.range 16, if i + j = m then limb a i * limb a j else 0

/-- The coefficients in the order of the output array: `x38` (limb 15) first, `x60`
(limb 0) last. -/
def Coeffs.toList (c : Coeffs) : List Int :=
  [c.x38, c.x46, c.x47, c.x48, c.x49, c.x50, c.x51, c.x52, c.x53, c.x54, c.x55, c.x56,
    c.x57, c.x58, c.x59, c.x60]

/-- Every coefficient is a non-negative integer below `2^66`. -/
def CoeffsLt66 (c : Coeffs) : Prop := ∀ x ∈ c.toList, 0 ≤ x ∧ x < 2 ^ 66

/-- Every coefficient is a non-negative integer below `2^30`. -/
def CoeffsLt30 (c : Coeffs) : Prop := ∀ x ∈ c.toList, 0 ≤ x ∧ x < 2 ^ 30

/-- The multiple of `p` removed by folding the schoolbook square: the coefficients
`S_16, ..., S_30` at positions `16 + k` and `24 + k`, divided by `p`. -/
def foldQuot (a : Args) : Int :=
  evalLimbs 30
    [S a 16 + S a 24, S a 17 + S a 25, S a 18 + S a 26, S a 19 + S a 27, S a 20 + S a 28,
      S a 21 + S a 29, S a 22 + S a 30, S a 23, S a 24, S a 25, S a 26, S a 27, S a 28,
      S a 29, S a 30]

/-- The bound of `S_m` on limbs of at most `2^30`: `2^60` for every pair
`(i, m - i)` of limb indices. -/
def pairBound (m : Nat) : Int :=
  ∑ i in Finset.range 16, if i ≤ m ∧ m - i < 16 then 2 ^ 60 else 0

instance (a : Args) : Decidable (LimbsLt30 a) :=
  inferInstanceAs (Decidable (∀ x ∈ limbs a, 0 ≤ x ∧ x < 2 ^ 30))

instance (a : Args) : Decidable (LimbsLe30 a) :=
  inferInstanceAs (Decidable (∀ x ∈ limbs a, 0 ≤ x ∧ x ≤ 2 ^ 30))

instance (a : Args) : Decidable (Tight a) :=
  inferInstanceAs (Decidable (LimbsLt30 a ∧ value a < p))

/-- Coefficient `c_i` handed to the carry chain:
`(c_0, ..., c_15) = (x60, x59, ..., x54, x53, x52, ..., x46, x38)`. -/
def Coeffs.nth (c : Coeffs) : Nat → Int
  | 0 => c.x60 | 1 => c.x59 | 2 => c.x58 | 3 => c.x57 | 4 => c.x56 | 5 => c.x55
  | 6 => c.x54 | 7 => c.x53 | 8 => c.x52 | 9 => c.x51 | 10 => c.x50 | 11 => c.x49
  | 12 => c.x48 | 13 => c.x47 | 14 => c.x46 | 15 => c.x38 | _ => 0

/-- The accumulator values of a run of `fesquare`: the coefficient sums
`x31, ..., x60` and the carry sums `x65, x68, ..., x107` (the variables of type `ℤ`). -/
def accumulators (a : Args) : List Int :=
  [x31 a, x32 a, x33 a, x34 a, x35 a, x36 a, x37 a, x38 a, x39 a, x40 a, x41 a, x42 a,
    x43 a, x44 a, x45 a, x46 a, x47 a, x48 a, x49 a, x50 a, x51 a, x52 a, x53 a, x54 a,
    x55 a, x56 a, x57 a, x58 a, x59 a, x60 a,
    x65 (coeffs a), x68 (coeffs a), x71 (coeffs a), x74 (coeffs a), x77 (coeffs a),
    x80 (coeffs a), x83 (coeffs a), x86 (coeffs a), x89 (coeffs a), x92 (coeffs a),
    x95 (coeffs a), x98 (coeffs a), x101 (coeffs a), x104 (coeffs a), x107 (coeffs a)]

/-- The parameters of `fesquare` in declaration order. -/
def params (a : Args) : List Int :=
  [a.x29, a.x30, a.x28, a.x26, a.x24, a.x22, a.x20, a.x18, a.x16, a.x14, a.x12, a.x10,
    a.x8, a.x6, a.x4, a.x2]

/-- The number represented by limbs of `w` bits, most significant first. -/
def evalBE (w : Nat) (l : List Int) : Int := l.foldl (fun acc x => 2 ^ w * acc + x) 0

/-- The argument vector whose least significant limb `x2` is `v` and whose other
limbs are `0`. -/
def lowLimb (v : Int) : Args :=
  ⟨0, 0, 0, 0, 0, 0, 0, 0, 0, 0, 0, 0, 0, 0, 0, v⟩

/-- A tight input: every limb is `2^30 - 1` except limb 10 (`x22`), which is
`2^30 - 3`. -/
def nearMax : Args :=
  ⟨1073741823, 1073741823, 1073741823, 1073741823, 1073741823, 1073741821, 1073741823,
    1073741823, 1073741823, 1073741823, 1073741823, 1073741823, 1073741823, 1073741823,
    1073741823, 1073741823⟩

/-- The tight input of value `2^241 - 1`: limbs 0 to 7 are `2^30 - 1`, limb 8 is `1`. -/
def twoPow241Pred : Args :=
  ⟨0, 0, 0, 0, 0, 0, 0, 1, 1073741823, 1073741823, 1073741823, 1073741823, 1073741823,
    1073741823, 1073741823, 1073741823⟩

/-- The tight input of value `2^30`: limb 1 (`x4`) is `1`, the others are `0`. -/
def limbOne : Args :=
  ⟨0, 0, 0, 0, 0, 0, 0, 0, 0, 0, 0, 0, 0, 0, 1, 0⟩

/-- A tight input with mixed limbs, used to instantiate the general statements. -/
def sample : Args :=
  ⟨5, 1073741823, 0, 77, 123456789, 1, 2, 1000000007, 3, 1073741822, 42, 999, 65536, 7,
    536870912, 1073741823⟩

instance (c : Coeffs) : Decidable (CoeffsLt66 c) :=
  inferInstanceAs (Decidable (∀ x ∈ c.toList, 0 ≤ x ∧ x < 2 ^ 66))

instance (c : Coeffs) : Decidable (CoeffsLt30 c) :=
  inferInstanceAs (Decidable (∀ x ∈ c.toList, 0 ≤ x ∧ x < 2 ^ 30))

/-- The argument vector that passes an output array back to `fesquare`: `out[0]` as
`x29`, `out[1]` as `x30`, `out[2]` as `x28`, ..., `out[15]` as `x2`. -/
def ofOut (out : List Int) : Args :=
  ⟨out.getD 0 0, out.getD 1 0, out.getD 2 0, out.getD 3 0, out.getD 4 0, out.getD 5 0,
    out.getD 6 0, out.getD 7 0, out.getD 8 0, out.getD 9 0, out.getD 10 0, out.getD 11 0,
    out.getD 12 0, out.getD 13 0, out.getD 14 0, out.getD 15 0⟩

/-- A coefficient vector with entries close to `2^66`, used to instantiate the
statements about the carry chain. -/
def wideCoeffs : Coeffs :=
  ⟨73786976294838206463, 5, 73786976294838206463, 1073741824, 0, 36893488147419103232,
    73786976294838206463, 1, 73786976294838206463, 99, 73786976294838206463, 1073741823,
    2, 73786976294838206463, 4611686018427387904, 73786976294838206463⟩

/-- A tight coefficient vector, used to instantiate the idempotence statement. -/
def tightCoeffs : Coeffs :=
  ⟨1073741823, 0, 1, 2, 3, 1073741822, 5, 6, 1073741823, 8, 9, 536870912, 11, 12, 13,
    1073741823⟩

/-- The input whose sixteen limbs are all `2^30`. -/
def allPow30 : Args :=
  ⟨1073741824, 1073741824, 1073741824, 1073741824, 1073741824, 1073741824, 1073741824,
    1073741824, 1073741824, 1073741824, 1073741824, 1073741824, 1073741824, 1073741824,
    1073741824, 1073741824⟩

/-- The second component of the `IdWithAlt` pair of x31. -/
def x31Alt (a : Args) : Int :=
  (((u64 (a.x16 * a.x29)) + (u64 (a.x29 * a.x16))) + (u64 (a.x29 * a.x29)))

/-- The second component of the `IdWithAlt` pair of x32. -/
def x32Alt (a : Args) : Int :=
  ((((u64 (a.x14 * a.x29)) + (u64 (a.x16 * a.x30))) + ((u64 (a.x30 * a.x16)) + (u64 (a.x29 * a.x14)))) + ((u64 (a.x30 * a.x29)) + (u64 (a.x29 * a.x30))))

/-- The second component of the `IdWithAlt` pair of x33. -/
def x33Alt (a : Args) : Int :=
  ((((u64 (a.x12 * a.x29)) + ((u64 (a.x14 * a.x30)) + (u64 (a.x16 * a.x28)))) + ((u64 (a.x28 * a.x16)) + ((u64 (a.x30 * a.x14)) + (u64 (a.x29 * a.x12))))) + ((u64 (a.x28 * a.x29)) + ((u64 (a.x30 * a.x30)) + (u64 (a.x29 * a.x28)))))

/-- The second component of the `IdWithAlt` pair of x34. -/
def x34Alt (a : Args) : Int :=
  ((((u64 (a.x10 * a.x29)) + ((u64 (a.x12 * a.x30)) + ((u64 (a.x14 * a.x28)) + (u64 (a.x16 * a.x26))))) + ((u64 (a.x26 * a.x16)) + ((u64 (a.x28 * a.x14)) + ((u64 (a.x30 * a.x12)) + (u64 (a.x29 * a.x10)))))) + ((u64 (a.x26 * a.x29)) + ((u64 (a.x28 * a.x30)) + ((u64 (a.x30 * a.x28)) + (u64 (a.x29 * a.x26))))))

/-- The second component of the `IdWithAlt` pair of x35. -/
def x35Alt (a : Args) : Int :=
  ((((u64 (a.x8 * a.x29)) + ((u64 (a.x10 * a.x30)) + ((u64 (a.x12 * a.x28)) + ((u64 (a.x14 * a.x26)) + (u64 (a.x16 * a.x24)))))) + ((u64 (a.x24 * a.x16)) + ((u64 (a.x26 * a.x14)) + ((u64 (a.x28 * a.x12)) + ((u64 (a.x30 * a.x10)) + (u64 (a.x29 * a.x8))))))) + ((u64 (a.x24 * a.x29)) + ((u64 (a.x26 * a.x30)) + ((u64 (a.x28 * a.x28)) + ((u64 (a.x30 * a.x26)) + (u64 (a.x29 * a.x24)))))))

/-- The second component of the `IdWithAlt` pair of x36. -/
def x36Alt (a : Args) : Int :=
  ((((u64 (a.x6 * a.x29)) + ((u64 (a.x8 * a.x30)) + ((u64 (a.x10 * a.x28)) + ((u64 (a.x12 * a.x26)) + ((u64 (a.x14 * a.x24)) + (u64 (a.x16 * a.x22))))))) + ((u64 (a.x22 * a.x16)) + ((u64 (a.x24 * a.x14)) + ((u64 (a.x26 * a.x12)) + ((u64 (a.x28 * a.x10)) + ((u64 (a.x30 * a.x8)) + (u64 (a.x29 * a.x6)))))))) + ((u64 (a.x22 * a.x29)) + ((u64 (a.x24 * a.x30)) + ((u64 (a.x26 * a.x28)) + ((u64 (a.x28 * a.x26)) + ((u64 (a.x30 * a.x24)) + (u64 (a.x29 * a.x22))))))))

/-- The second component of the `IdWithAlt` pair of x37. -/
def x37Alt (a : Args) : Int :=
  ((((u64 (a.x4 * a.x29)) + ((u64 (a.x6 * a.x30)) + ((u64 (a.x8 * a.x28)) + ((u64 (a.x10 * a.x26)) + ((u64 (a.x12 * a.x24)) + ((u64 (a.x14 * a.x22)) + (u64 (a.x16 * a.x20)))))))) + ((u64 (a.x20 * a.x16)) + ((u64 (a.x22 * a.x14)) + ((u64 (a.x24 * a.x12)) + ((u64 (a.x26 * a.x10)) + ((u64 (a.x28 * a.x8)) + ((u64 (a.x30 * a.x6)) + (u64 (a.x29 * a.x4))))))))) + ((u64 (a.x20 * a.x29)) + ((u64 (a.x22 * a.x30)) + ((u64 (a.x24 * a.x28)) + ((u64 (a.x26 * a.x26)) + ((u64 (a.x28 * a.x24)) + ((u64 (a.x30 * a.x22)) + (u64 (a.x29 * a.x20)))))))))

/-- The second component of the `IdWithAlt` pair of x38. -/
def x38Alt (a : Args) : Int :=
  ((((u64 (a.x2 * a.x29)) + ((u64 (a.x4 * a.x30)) + ((u64 (a.x6 * a.x28)) + ((u64 (a.x8 * a.x26)) + ((u64 (a.x10 * a.x24)) + ((u64 (a.x12 * a.x22)) + ((u64 (a.x14 * a.x20)) + (u64 (a.x16 * a.x18))))))))) + ((u64 (a.x18 * a.x16)) + ((u64 (a.x20 * a.x14)) + ((u64 (a.x22 * a.x12)) + ((u64 (a.x24 * a.x10)) + ((u64 (a.x26 * a.x8)) + ((u64 (a.x28 * a.x6)) + ((u64 (a.x30 * a.x4)) + (u64 (a.x29 * a.x2)))))))))) + ((u64 (a.x18 * a.x29)) + ((u64 (a.x20 * a.x30)) + ((u64 (a.x22 * a.x28)) + ((u64 (a.x24 * a.x26)) + ((u64 (a.x26 * a.x24)) + ((u64 (a.x28 * a.x22)) + ((u64 (a.x30 * a.x20)) + (u64 (a.x29 * a.x18))))))))))

/-- The second component of the `IdWithAlt` pair of x39. -/
def x39Alt (a : Args) : Int :=
  ((((u64 (a.x2 * a.x30)) + ((u64 (a.x4 * a.x28)) + ((u64 (a.x6 * a.x26)) + ((u64 (a.x8 * a.x24)) + ((u64 (a.x10 * a.x22)) + ((u64 (a.x12 * a.x20)) + (u64 (a.x14 * a.x18)))))))) + ((u64 (a.x18 * a.x14)) + ((u64 (a.x20 * a.x12)) + ((u64 (a.x22 * a.x10)) + ((u64 (a.x24 * a.x8)) + ((u64 (a.x26 * a.x6)) + ((u64 (a.x28 * a.x4)) + (u64 (a.x30 * a.x2))))))))) + ((u64 (a.x18 * a.x30)) + ((u64 (a.x20 * a.x28)) + ((u64 (a.x22 * a.x26)) + ((u64 (a.x24 * a.x24)) + ((u64 (a.x26 * a.x22)) + ((u64 (a.x28 * a.x20)) + (u64 (a.x30 * a.x18)))))))))

/-- The second component of the `IdWithAlt` pair of x40. -/
def x40Alt (a : Args) : Int :=
  ((((u64 (a.x2 * a.x28)) + ((u64 (a.x4 * a.x26)) + ((u64 (a.x6 * a.x24)) + ((u64 (a.x8 * a.x22)) + ((u64 (a.x10 * a.x20)) + (u64 (a.x12 * a.x18))))))) + ((u64 (a.x18 * a.x12)) + ((u64 (a.x20 * a.x10)) + ((u64 (a.x22 * a.x8)) + ((u64 (a.x24 * a.x6)) + ((u64 (a.x26 * a.x4)) + (u64 (a.x28 * a.x2)))))))) + ((u64 (a.x18 * a.x28)) + ((u64 (a.x20 * a.x26)) + ((u64 (a.x22 * a.x24)) + ((u64 (a.x24 * a.x22)) + ((u64 (a.x26 * a.x20)) + (u64 (a.x28 * a.x18))))))))

/-- The second component of the `IdWithAlt` pair of x41. -/
def x41Alt (a : Args) : Int :=
  ((((u64 (a.x2 * a.x26)) + ((u64 (a.x4 * a.x24)) + ((u64 (a.x6 * a.x22)) + ((u64 (a.x8 * a.x20)) + (u64 (a.x10 * a.x18)))))) + ((u64 (a.x18 * a.x10)) + ((u64 (a.x20 * a.x8)) + ((u64 (a.x22 * a.x6)) + ((u64 (a.x24 * a.x4)) + (u64 (a.x26 * a.x2))))))) + ((u64 (a.x18 * a.x26)) + ((u64 (a.x20 * a.x24)) + ((u64 (a.x22 * a.x22)) + ((u64 (a.x24 * a.x20)) + (u64 (a.x26 * a.x18)))))))

/-- The second component of the `IdWithAlt` pair of x42. -/
def x42Alt (a : Args) : Int :=
  ((((u64 (a.x2 * a.x24)) + ((u64 (a.x4 * a.x22)) + ((u64 (a.x6 * a.x20)) + (u64 (a.x8 * a.x18))))) + ((u64 (a.x18 * a.x8)) + ((u64 (a.x20 * a.x6)) + ((u64 (a.x22 * a.x4)) + (u64 (a.x24 * a.x2)))))) + ((u64 (a.x18 * a.x24)) + ((u64 (a.x20 * a.x22)) + ((u64 (a.x22 * a.x20)) + (u64 (a.x24 * a.x18))))))

/-- The second component of the `IdWithAlt` pair of x43. -/
def x43Alt (a : Args) : Int :=
  ((((u64 (a.x2 * a.x22)) + ((u64 (a.x4 * a.x20)) + (u64 (a.x6 * a.x18)))) + ((u64 (a.x18 * a.x6)) + ((u64 (a.x20 * a.x4)) + (u64 (a.x22 * a.x2))))) + ((u64 (a.x18 * a.x22)) + ((u64 (a.x20 * a.x20)) + (u64 (a.x22 * a.x18)))))

/-- The second component of the `IdWithAlt` pair of x44. -/
def x44Alt (a : Args) : Int :=
  ((((u64 (a.x2 * a.x20)) + (u64 (a.x4 * a.x18))) + ((u64 (a.x18 * a.x4)) + (u64 (a.x20 * a.x2)))) + ((u64 (a.x18 * a.x20)) + (u64 (a.x20 * a.x18))))

/-- The second component of the `IdWithAlt` pair of x45. -/
def x45Alt (a : Args) : Int :=
  (((u64 (a.x2 * a.x18)) + (u64 (a.x18 * a.x2))) + (u64 (a.x18 * a.x18)))

/-- The fifteen `IdWithAlt` pairs of `fesquare`: the value of each first expression
(the value of the variable) with the value of its alternative. -/
def altPairs (a : Args) : List (Int × Int) :=
  [(x31 a, x31Alt a), (x32 a, x32Alt a), (x33 a, x33Alt a), (x34 a, x34Alt a), (x35 a, x35Alt a), (x36 a, x36Alt a), (x37 a, x37Alt a), (x38 a, x38Alt a), (x39 a, x39Alt a), (x40 a, x40Alt a), (x41 a, x41Alt a), (x42 a, x42Alt a), (x43 a, x43Alt a), (x44 a, x44Alt a), (x45 a, x45Alt a)]

/-- Every value stored in a `uint64_t` variable of the carry chain or produced by
a `uint64_t` operation, before its reduction modulo `2^64`. -/
def assigned64 (c : Coeffs) : List Int :=
  [shr c.x53 0x1e,
    shr c.x38 0x1e,
    shr (x65 c) 0x1e,
    shr (x68 c) 0x1e,
    shr (x71 c) 0x1e,
    shr (x74 c) 0x1e,
    shr (x77 c) 0x1e,
    shr (x80 c) 0x1e,
    shr (x83 c) 0x1e,
    shr (x86 c) 0x1e,
    shr (x89 c) 0x1e,
    shr (x92 c) 0x1e,
    shr (x95 c) 0x1e,
    shr (x98 c) 0x1e,
    shr (x101 c) 0x1e,
    shr (x104 c) 0x1e,
    shr (x107 c) 0x1e,
    (x105 c) + (x67 c),
    (x108 c) + (x62 c),
    0x40000000 * (x111 c),
    (u64 (0x40000000 * (x111 c))) + (x112 c)]

/-- Every value stored in a `uint32_t` variable of the carry chain or produced by a
`uint32_t` operation, before its reduction modulo `2^32`. -/
def assigned32 (c : Coeffs) : List Int :=
  [band c.x53 0x3fffffff,
    band c.x38 0x3fffffff,
    band (x65 c) 0x3fffffff,
    band (x68 c) 0x3fffffff,
    band (x71 c) 0x3fffffff,
    band (x74 c) 0x3fffffff,
    band (x77 c) 0x3fffffff,
    band (x80 c) 0x3fffffff,
    band (x83 c) 0x3fffffff,
    band (x86 c) 0x3fffffff,
    band (x89 c) 0x3fffffff,
    band (x92 c) 0x3fffffff,
    band (x95 c) 0x3fffffff,
    band (x98 c) 0x3fffffff,
    band (x101 c) 0x3fffffff,
    band (x104 c) 0x3fffffff,
    band (x107 c) 0x3fffffff,
    shr (x110 c) 0x1e,
    band (u32 (x110 c)) 0x3fffffff,
    shr (x113 c) 0x1e,
    band (u32 (x113 c)) 0x3fffffff,
    shr (x116 c) 0x1e,
    band (u32 (x116 c)) 0x3fffffff,
    (x114 c) + (x70 c),
    (u32 ((x114 c) + (x70 c))) + (x117 c),
    shr (x119 c) 0x1e,
    band (x119 c) 0x3fffffff,
    (x73 c) + (x117 c),
    shr (x122 c) 0x1e,
    band (x122 c) 0x3fffffff,
    (x120 c) + (x76 c),
    (x123 c) + (x79 c)]

/-! ## The kernel over unbounded integers

The same statements as above with every `(uint64_t)` and `(uint32_t)` cast removed and
every variable an integer. -/

namespace Unbounded

/-- Source variable x31, without casts. -/
def x31 (a : Args) : Int :=
  idWithAlt
    (((a.x16 + a.x29) * (a.x16 + a.x29)) - (a.x16 * a.x16))
    (((a.x16 * a.x29) + (a.x29 * a.x16)) + (a.x29 * a.x29))

/-- Source variable x32, without casts. -/
def x32 (a : Args) : Int :=
  idWithAlt
    ((((a.x14 + a.x30) * (a.x16 + a.x29)) + ((a.x16 + a.x29) * (a.x14 + a.x30))) - ((a.x14 * a.x16) + (a.x16 * a.x14)))
    ((((a.x14 * a.x29) + (a.x16 * a.x30)) + ((a.x30 * a.x16) + (a.x29 * a.x14))) + ((a.x30 * a.x29) + (a.x29 * a.x30)))

/-- Source variable x33, without casts. -/
def x33 (a : Args) : Int :=
  idWithAlt
    ((((a.x12 + a.x28) * (a.x16 + a.x29)) + (((a.x14 + a.x30) * (a.x14 + a.x30)) + ((a.x16 + a.x29) * (a.x12 + a.x28)))) - ((a.x12 * a.x16) + ((a.x14 * a.x14) + (a.x16 * a.x12))))
    ((((a.x12 * a.x29) + ((a.x14 * a.x30) + (a.x16 * a.x28))) + ((a.x28 * a.x16) + ((a.x30 * a.x14) + (a.x29 * a.x12)))) + ((a.x28 * a.x29) + ((a.x30 * a.x30) + (a.x29 * a.x28))))

/-- Source variable x34, without casts. -/
def x34 (a : Args) : Int :=
  idWithAlt
    ((((a.x10 + a.x26) * (a.x16 + a.x29)) + (((a.x12 + a.x28) * (a.x14 + a.x30)) + (((a.x14 + a.x30) * (a.x12 + a.x28)) + ((a.x16 + a.x29) * (a.x10 + a.x26))))) - ((a.x10 * a.x16) + ((a.x12 * a.x14) + ((a.x14 * a.x12) + (a.x16 * a.x10)))))
    ((((a.x10 * a.x29) + ((a.x12 * a.x30) + ((a.x14 * a.x28) + (a.x16 * a.x26)))) + ((a.x26 * a.x16) + ((a.x28 * a.x14) + ((a.x30 * a.x12) + (a.x29 * a.x10))))) + ((a.x26 * a.x29) + ((a.x28 * a.x30) + ((a.x30 * a.x28) + (a.x29 * a.x26)))))

/-- Source variable x35, without casts. -/
def x35 (a : Args) : Int :=
  idWithAlt
    ((((a.x8 + a.x24) * (a.x16 + a.x29)) + (((a.x10 + a.x26) * (a.x14 + a.x30)) + (((a.x12 + a.x28) * (a.x12 + a.x28)) + (((a.x14 + a.x30) * (a.x10 + a.x26)) + ((a.x16 + a.x29) * (a.x8 + a.x24)))))) - ((a.x8 * a.x16) + ((a.x10 * a.x14) + ((a.x12 * a.x12) + ((a.x14 * a.x10) + (a.x16 * a.x8))))))
    ((((a.x8 * a.x29) + ((a.x10 * a.x30) + ((a.x12 * a.x28) + ((a.x14 * a.x26) + (a.x16 * a.x24))))) + ((a.x24 * a.x16) + ((a.x26 * a.x14) + ((a.x28 * a.x12) + ((a.x30 * a.x10) + (a.x29 * a.x8)))))) + ((a.x24 * a.x29) + ((a.x26 * a.x30) + ((a.x28 * a.x28) + ((a.x30 * a.x26) + (a.x29 * a.x24))))))

/-- Source variable x36, without casts. -/
def x36 (a : Args) : Int :=
  idWithAlt
    ((((a.x6 + a.x22) * (a.x16 + a.x29)) + (((a.x8 + a.x24) * (a.x14 + a.x30)) + (((a.x10 + a.x26) * (a.x12 + a.x28)) + (((a.x12 + a.x28) * (a.x10 + a.x26)) + (((a.x14 + a.x30) * (a.x8 + a.x24)) + ((a.x16 + a.x29) * (a.x6 + a.x22))))))) - ((a.x6 * a.x16) + ((a.x8 * a.x14) + ((a.x10 * a.x12) + ((a.x12 * a.x10) + ((a.x14 * a.x8) + (a.x16 * a.x6)))))))
    ((((a.x6 * a.x29) + ((a.x8 * a.x30) + ((a.x10 * a.x28) + ((a.x12 * a.x26) + ((a.x14 * a.x24) + (a.x16 * a.x22)))))) + ((a.x22 * a.x16) + ((a.x24 * a.x14) + ((a.x26 * a.x12) + ((a.x28 * a.x10) + ((a.x30 * a.x8) + (a.x29 * a.x6))))))) + ((a.x22 * a.x29) + ((a.x24 * a.x30) + ((a.x26 * a.x28) + ((a.x28 * a.x26) + ((a.x30 * a.x24) + (a.x29 * a.x22)))))))

/-- Source variable x37, without casts. -/
def x37 (a : Args) : Int :=
  idWithAlt
    ((((a.x4 + a.x20) * (a.x16 + a.x29)) + (((a.x6 + a.x22) * (a.x14 + a.x30)) + (((a.x8 + a.x24) * (a.x12 + a.x28)) + (((a.x10 + a.x26) * (a.x10 + a.x26)) + (((a.x12 + a.x28) * (a.x8 + a.x24)) + (((a.x14 + a.x30) * (a.x6 + a.x22)) + ((a.x16 + a.x29) * (a.x4 + a.x20)))))))) - ((a.x4 * a.x16) + ((a.x6 * a.x14) + ((a.x8 * a.x12) + ((a.x10 * a.x10) + ((a.x12 * a.x8) + ((a.x14 * a.x6) + (a.x16 * a.x4))))))))
    ((((a.x4 * a.x29) + ((a.x6 * a.x30) + ((a.x8 * a.x28) + ((a.x10 * a.x26) + ((a.x12 * a.x24) + ((a.x14 * a.x22) + (a.x16 * a.x20))))))) + ((a.x20 * a.x16) + ((a.x22 * a.x14) + ((a.x24 * a.x12) + ((a.x26 * a.x10) + ((a.x28 * a.x8) + ((a.x30 * a.x6) + (a.x29 * a.x4)))))))) + ((a.x20 * a.x29) + ((a.x22 * a.x30) + ((a.x24 * a.x28) + ((a.x26 * a.x26) + ((a.x28 * a.x24) + ((a.x30 * a.x22) + (a.x29 * a.x20))))))))

/-- Source variable x38, without casts. -/
def x38 (a : Args) : Int :=
  idWithAlt
    ((((a.x2 + a.x18) * (a.x16 + a.x29)) + (((a.x4 + a.x20) * (a.x14 + a.x30)) + (((a.x6 + a.x22) * (a.x12 + a.x28)) + (((a.x8 + a.x24) * (a.x10 + a.x26)) + (((a.x10 + a.x26) * (a.x8 + a.x24)) + (((a.x12 + a.x28) * (a.x6 + a.x22)) + (((a.x14 + a.x30) * (a.x4 + a.x20)) + ((a.x16 + a.x29) * (a.x2 + a.x18))))))))) - ((a.x2 * a.x16) + ((a.x4 * a.x14) + ((a.x6 * a.x12) + ((a.x8 * a.x10) + ((a.x10 * a.x8) + ((a.x12 * a.x6) + ((a.x14 * a.x4) + (a.x16 * a.x2)))))))))
    ((((a.x2 * a.x29) + ((a.x4 * a.x30) + ((a.x6 * a.x28) + ((a.x8 * a.x26) + ((a.x10 * a.x24) + ((a.x12 * a.x22) + ((a.x14 * a.x20) + (a.x16 * a.x18)))))))) + ((a.x18 * a.x16) + ((a.x20 * a.x14) + ((a.x22 * a.x12) + ((a.x24 * a.x10) + ((a.x26 * a.x8) + ((a.x28 * a.x6) + ((a.x30 * a.x4) + (a.x29 * a.x2))))))))) + ((a.x18 * a.x29) + ((a.x20 * a.x30) + ((a.x22 * a.x28) + ((a.x24 * a.x26) + ((a.x26 * a.x24) + ((a.x28 * a.x22) + ((a.x30 * a.x20) + (a.x29 * a.x18)))))))))

/-- Source variable x39, without casts. -/
def x39 (a : Args) : Int :=
  idWithAlt
    ((((a.x2 + a.x18) * (a.x14 + a.x30)) + (((a.x4 + a.x20) * (a.x12 + a.x28)) + (((a.x6 + a.x22) * (a.x10 + a.x26)) + (((a.x8 + a.x24) * (a.x8 + a.x24)) + (((a.x10 + a.x26) * (a.x6 + a.x22)) + (((a.x12 + a.x28) * (a.x4 + a.x20)) + ((a.x14 + a.x30) * (a.x2 + a.x18)))))))) - ((a.x2 * a.x14) + ((a.x4 * a.x12) + ((a.x6 * a.x10) + ((a.x8 * a.x8) + ((a.x10 * a.x6) + ((a.x12 * a.x4) + (a.x14 * a.x2))))))))
    ((((a.x2 * a.x30) + ((a.x4 * a.x28) + ((a.x6 * a.x26) + ((a.x8 * a.x24) + ((a.x10 * a.x22) + ((a.x12 * a.x20) + (a.x14 * a.x18))))))) + ((a.x18 * a.x14) + ((a.x20 * a.x12) + ((a.x22 * a.x10) + ((a.x24 * a.x8) + ((a.x26 * a.x6) + ((a.x28 * a.x4) + (a.x30 * a.x2)))))))) + ((a.x18 * a.x30) + ((a.x20 * a.x28) + ((a.x22 * a.x26) + ((a.x24 * a.x24) + ((a.x26 * a.x22) + ((a.x28 * a.x20) + (a.x30 * a.x18))))))))

/-- Source variable x40, without casts. -/
def x40 (a : Args) : Int :=
  idWithAlt
    ((((a.x2 + a.x18) * (a.x12 + a.x28)) + (((a.x4 + a.x20) * (a.x10 + a.x26)) + (((a.x6 + a.x22) * (a.x8 + a.x24)) + (((a.x8 + a.x24) * (a.x6 + a.x22)) + (((a.x10 + a.x26) * (a.x4 + a.x20)) + ((a.x12 + a.x28) * (a.x2 + a.x18))))))) - ((a.x2 * a.x12) + ((a.x4 * a.x10) + ((a.x6 * a.x8) + ((a.x8 * a.x6) + ((a.x10 * a.x4) + (a.x12 * a.x2)))))))
    ((((a.x2 * a.x28) + ((a.x4 * a.x26) + ((a.x6 * a.x24) + ((a.x8 * a.x22) + ((a.x10 * a.x20) + (a.x12 * a.x18)))))) + ((a.x18 * a.x12) + ((a.x20 * a.x10) + ((a.x22 * a.x8) + ((a.x24 * a.x6) + ((a.x26 * a.x4) + (a.x28 * a.x2))))))) + ((a.x18 * a.x28) + ((a.x20 * a.x26) + ((a.x22 * a.x24) + ((a.x24 * a.x22) + ((a.x26 * a.x20) + (a.x28 * a.x18)))))))

/-- Source variable x41, without casts. -/
def x41 (a : Args) : Int :=
  idWithAlt
    ((((a.x2 + a.x18) * (a.x10 + a.x26)) + (((a.x4 + a.x20) * (a.x8 + a.x24)) + (((a.x6 + a.x22) * (a.x6 + a.x22)) + (((a.x8 + a.x24) * (a.x4 + a.x20)) + ((a.x10 + a.x26) * (a.x2 + a.x18)))))) - ((a.x2 * a.x10) + ((a.x4 * a.x8) + ((a.x6 * a.x6) + ((a.x8 * a.x4) + (a.x10 * a.x2))))))
    ((((a.x2 * a.x26) + ((a.x4 * a.x24) + ((a.x6 * a.x22) + ((a.x8 * a.x20) + (a.x10 * a.x18))))) + ((a.x18 * a.x10) + ((a.x20 * a.x8) + ((a.x22 * a.x6) + ((a.x24 * a.x4) + (a.x26 * a.x2)))))) + ((a.x18 * a.x26) + ((a.x20 * a.x24) + ((a.x22 * a.x22) + ((a.x24 * a.x20) + (a.x26 * a.x18))))))

/-- Source variable x42, without casts. -/
def x42 (a : Args) : Int :=
  idWithAlt
    ((((a.x2 + a.x18) * (a.x8 + a.x24)) + (((a.x4 + a.x20) * (a.x6 + a.x22)) + (((a.x6 + a.x22) * (a.x4 + a.x20)) + ((a.x8 + a.x24) * (a.x2 + a.x18))))) - ((a.x2 * a.x8) + ((a.x4 * a.x6) + ((a.x6 * a.x4) + (a.x8 * a.x2)))))
    ((((a.x2 * a.x24) + ((a.x4 * a.x22) + ((a.x6 * a.x20) + (a.x8 * a.x18)))) + ((a.x18 * a.x8) + ((a.x20 * a.x6) + ((a.x22 * a.x4) + (a.x24 * a.x2))))) + ((a.x18 * a.x24) + ((a.x20 * a.x22) + ((a.x22 * a.x20) + (a.x24 * a.x18)))))

/-- Source variable x43, without casts. -/
def x43 (a : Args) : Int :=
  idWithAlt
    ((((a.x2 + a.x18) * (a.x6 + a.x22)) + (((a.x4 + a.x20) * (a.x4 + a.x20)) + ((a.x6 + a.x22) * (a.x2 + a.x18)))) - ((a.x2 * a.x6) + ((a.x4 * a.x4) + (a.x6 * a.x2))))
    ((((a.x2 * a.x22) + ((a.x4 * a.x20) + (a.x6 * a.x18))) + ((a.x18 * a.x6) + ((a.x20 * a.x4) + (a.x22 * a.x2)))) + ((a.x18 * a.x22) + ((a.x20 * a.x20) + (a.x22 * a.x18))))

/-- Source variable x44, without casts. -/
def x44 (a : Args) : Int :=
  idWithAlt
    ((((a.x2 + a.x18) * (a.x4 + a.x20)) + ((a.x4 + a.x20) * (a.x2 + a.x18))) - ((a.x2 * a.x4) + (a.x4 * a.x2)))
    ((((a.x2 * a.x20) + (a.x4 * a.x18)) + ((a.x18 * a.x4) + (a.x20 * a.x2))) + ((a.x18 * a.x20) + (a.x20 * a.x18)))

/-- Source variable x45, without casts. -/
def x45 (a : Args) : Int :=
  idWithAlt
    (((a.x2 + a.x18) * (a.x2 + a.x18)) - (a.x2 * a.x2))
    (((a.x2 * a.x18) + (a.x18 * a.x2)) + (a.x18 * a.x18))

/-- Source variable x46, without casts. -/
def x46 (a : Args) : Int :=
  ((((a.x16 * a.x16) + (a.x29 * a.x29)) + (x39 a)) + (x31 a))

/-- Source variable x47, without casts. -/
def x47 (a : Args) : Int :=
  (((((a.x14 * a.x16) + (a.x16 * a.x14)) + ((a.x30 * a.x29) + (a.x29 * a.x30))) + (x40 a)) + (x32 a))

/-- Source variable x48, without casts. -/
def x48 (a : Args) : Int :=
  (((((a.x12 * a.x16) + ((a.x14 * a.x14) + (a.x16 * a.x12))) + ((a.x28 * a.x29) + ((a.x30 * a.x30) + (a.x29 * a.x28)))) + (x41 a)) + (x33 a))

/-- Source variable x49, without casts. -/
def x49 (a : Args) : Int :=
  (((((a.x10 * a.x16) + ((a.x12 * a.x14) + ((a.x14 * a.x12) + (a.x16 * a.x10)))) + ((a.x26 * a.x29) + ((a.x28 * a.x30) + ((a.x30 * a.x28) + (a.x29 * a.x26))))) + (x42 a)) + (x34 a))

/-- Source variable x50, without casts. -/
def x50 (a : Args) : Int :=
  (((((a.x8 * a.x16) + ((a.x10 * a.x14) + ((a.x12 * a.x12) + ((a.x14 * a.x10) + (a.x16 * a.x8))))) + ((a.x24 * a.x29) + ((a.x26 * a.x30) + ((a.x28 * a.x28) + ((a.x30 * a.x26) + (a.x29 * a.x24)))))) + (x43 a)) + (x35 a))

/-- Source variable x51, without casts. -/
def x51 (a : Args) : Int :=
  (((((a.x6 * a.x16) + ((a.x8 * a.x14) + ((a.x10 * a.x12) + ((a.x12 * a.x10) + ((a.x14 * a.x8) + (a.x16 * a.x6)))))) + ((a.x22 * a.x29) + ((a.x24 * a.x30) + ((a.x26 * a.x28) + ((a.x28 * a.x26) + ((a.x30 * a.x24) + (a.x29 * a.x22))))))) + (x44 a)) + (x36 a))

/-- Source variable x52, without casts. -/
def x52 (a : Args) : Int :=
  (((((a.x4 * a.x16) + ((a.x6 * a.x14) + ((a.x8 * a.x12) + ((a.x10 * a.x10) + ((a.x12 * a.x8) + ((a.x14 * a.x6) + (a.x16 * a.x4))))))) + ((a.x20 * a.x29) + ((a.x22 * a.x30) + ((a.x24 * a.x28) + ((a.x26 * a.x26) + ((a.x28 * a.x24) + ((a.x30 * a.x22) + (a.x29 * a.x20)))))))) + (x45 a)) + (x37 a))

/-- Source variable x53, without casts. -/
def x53 (a : Args) : Int :=
  (((a.x2 * a.x16) + ((a.x4 * a.x14) + ((a.x6 * a.x12) + ((a.x8 * a.x10) + ((a.x10 * a.x8) + ((a.x12 * a.x6) + ((a.x14 * a.x4) + (a.x16 * a.x2)))))))) + ((a.x18 * a.x29) + ((a.x20 * a.x30) + ((a.x22 * a.x28) + ((a.x24 * a.x26) + ((a.x26 * a.x24) + ((a.x28 * a.x22) + ((a.x30 * a.x20) + (a.x29 * a.x18)))))))))

/-- Source variable x54, without casts. -/
def x54 (a : Args) : Int :=
  ((((a.x2 * a.x14) + ((a.x4 * a.x12) + ((a.x6 * a.x10) + ((a.x8 * a.x8) + ((a.x10 * a.x6) + ((a.x12 * a.x4) + (a.x14 * a.x2))))))) + ((a.x18 * a.x30) + ((a.x20 * a.x28) + ((a.x22 * a.x26) + ((a.x24 * a.x24) + ((a.x26 * a.x22) + ((a.x28 * a.x20) + (a.x30 * a.x18)))))))) + (x31 a))

/-- Source variable x55, without casts. -/
def x55 (a : Args) : Int :=
  ((((a.x2 * a.x12) + ((a.x4 * a.x10) + ((a.x6 * a.x8) + ((a.x8 * a.x6) + ((a.x10 * a.x4) + (a.x12 * a.x2)))))) + ((a.x18 * a.x28) + ((a.x20 * a.x26) + ((a.x22 * a.x24) + ((a.x24 * a.x22) + ((a.x26 * a.x20) + (a.x28 * a.x18))))))) + (x32 a))

/-- Source variable x56, without casts. -/
def x56 (a : Args) : Int :=
  ((((a.x2 * a.x10) + ((a.x4 * a.x8) + ((a.x6 * a.x6) + ((a.x8 * a.x4) + (a.x10 * a.x2))))) + ((a.x18 * a.x26) + ((a.x20 * a.x24) + ((a.x22 * a.x22) + ((a.x24 * a.x20) + (a.x26 * a.x18)))))) + (x33 a))

/-- Source variable x57, without casts. -/
def x57 (a : Args) : Int :=
  ((((a.x2 * a.x8) + ((a.x4 * a.x6) + ((a.x6 * a.x4) + (a.x8 * a.x2)))) + ((a.x18 * a.x24) + ((a.x20 * a.x22) + ((a.x22 * a.x20) + (a.x24 * a.x18))))) + (x34 a))

/-- Source variable x58, without casts. -/
def x58 (a : Args) : Int :=
  ((((a.x2 * a.x6) + ((a.x4 * a.x4) + (a.x6 * a.x2))) + ((a.x18 * a.x22) + ((a.x20 * a.x20) + (a.x22 * a.x18)))) + (x35 a))

/-- Source variable x59, without casts. -/
def x59 (a : Args) : Int :=
  ((((a.x2 * a.x4) + (a.x4 * a.x2)) + ((a.x18 * a.x20) + (a.x20 * a.x18))) + (x36 a))

/-- Source variable x60, without casts. -/
def x60 (a : Args) : Int :=
  (((a.x2 * a.x2) + (a.x18 * a.x18)) + (x37 a))

/-- The coefficients computed by lines 20-49, without casts. -/
def coeffs (a : Args) : Coeffs where
  x38 := x38 a
  x46 := x46 a
  x47 := x47 a
  x48 := x48 a
  x49 := x49 a
  x50 := x50 a
  x51 := x51 a
  x52 := x52 a
  x53 := x53 a
  x54 := x54 a
  x55 := x55 a
  x56 := x56 a
  x57 := x57 a
  x58 := x58 a
  x59 := x59 a
  x60 := x60 a

/-- Source variable x61, computed over the integers. -/
def x61 (c : Coeffs) : Int :=
  (shr c.x53 0x1e)

/-- Source variable x62, computed over the integers. -/
def x62 (c : Coeffs) : Int :=
  (band c.x53 0x3fffffff)

/-- Source variable x63, computed over the integers. -/
def x63 (c : Coeffs) : Int :=
  (shr c.x38 0x1e)

/-- Source variable x64, computed over the integers. -/
def x64 (c : Coeffs) : Int :=
  (band c.x38 0x3fffffff)

/-- Source variable x65, computed over the integers. -/
def x65 (c : Coeffs) : Int :=
  ((0x40000000 * (x63 c)) + (x64 c))

/-- Source variable x66, computed over the integers. -/
def x66 (c : Coeffs) : Int :=
  (shr (x65 c) 0x1e)

/-- Source variable x67, computed over the integers. -/
def x67 (c : Coeffs) : Int :=
  (band (x65 c) 0x3fffffff)

/-- Source variable x68, computed over the integers. -/
def x68 (c : Coeffs) : Int :=
  (((x61 c) + c.x52) + (x66 c))

/-- Source variable x69, computed over the integers. -/
def x69 (c : Coeffs) : Int :=
  (shr (x68 c) 0x1e)

/-- Source variable x70, computed over the integers. -/
def x70 (c : Coeffs) : Int :=
  (band (x68 c) 0x3fffffff)

/-- Source variable x71, computed over the integers. -/
def x71 (c : Coeffs) : Int :=
  (c.x60 + (x66 c))

/-- Source variable x72, computed over the integers. -/
def x72 (c : Coeffs) : Int :=
  (shr (x71 c) 0x1e)

/-- Source variable x73, computed over the integers. -/
def x73 (c : Coeffs) : Int :=
  (band (x71 c) 0x3fffffff)

/-- Source variable x74, computed over the integers. -/
def x74 (c : Coeffs) : Int :=
  ((x69 c) + c.x51)

/-- Source variable x75, computed over the integers. -/
def x75 (c : Coeffs) : Int :=
  (shr (x74 c) 0x1e)

/-- Source variable x76, computed over the integers. -/
def x76 (c : Coeffs) : Int :=
  (band (x74 c) 0x3fffffff)

/-- Source variable x77, computed over the integers. -/
def x77 (c : Coeffs) : Int :=
  ((x72 c) + c.x59)

/-- Source variable x78, computed over the integers. -/
def x78 (c : Coeffs) : Int :=
  (shr (x77 c) 0x1e)

/-- Source variable x79, computed over the integers. -/
def x79 (c : Coeffs) : Int :=
  (band (x77 c) 0x3fffffff)

/-- Source variable x80, computed over the integers. -/
def x80 (c : Coeffs) : Int :=
  ((x75 c) + c.x50)

/-- Source variable x81, computed over the integers. -/
def x81 (c : Coeffs) : Int :=
  (shr (x80 c) 0x1e)

/-- Source variable x82, computed over the integers. -/
def x82 (c : Coeffs) : Int :=
  (band (x80 c) 0x3fffffff)

/-- Source variable x83, computed over the integers. -/
def x83 (c : Coeffs) : Int :=
  ((x78 c) + c.x58)

/-- Source variable x84, computed over the integers. -/
def x84 (c : Coeffs) : Int :=
  (shr (x83 c) 0x1e)

/-- Source variable x85, computed over the integers. -/
def x85 (c : Coeffs) : Int :=
  (band (x83 c) 0x3fffffff)

/-- Source variable x86, computed over the integers. -/
def x86 (c : Coeffs) : Int :=
  ((x81 c) + c.x49)

/-- Source variable x87, computed over the integers. -/
def x87 (c : Coeffs) : Int :=
  (shr (x86 c) 0x1e)

/-- Source variable x88, computed over the integers. -/
def x88 (c : Coeffs) : Int :=
  (band (x86 c) 0x3fffffff)

/-- Source variable x89, computed over the integers. -/
def x89 (c : Coeffs) : Int :=
  ((x84 c) + c.x57)

/-- Source variable x90, computed over the integers. -/
def x90 (c : Coeffs) : Int :=
  (shr (x89 c) 0x1e)

/-- Source variable x91, computed over the integers. -/
def x91 (c : Coeffs) : Int :=
  (band (x89 c) 0x3fffffff)

/-- Source variable x92, computed over the integers. -/
def x92 (c : Coeffs) : Int :=
  ((x87 c) + c.x48)

/-- Source variable x93, computed over the integers. -/
def x93 (c : Coeffs) : Int :=
  (shr (x92 c) 0x1e)

/-- Source variable x94, computed over the integers. -/
def x94 (c : Coeffs) : Int :=
  (band (x92 c) 0x3fffffff)

/-- Source variable x95, computed over the integers. -/
def x95 (c : Coeffs) : Int :=
  ((x90 c) + c.x56)

/-- Source variable x96, computed over the integers. -/
def x96 (c : Coeffs) : Int :=
  (shr (x95 c) 0x1e)

/-- Source variable x97, computed over the integers. -/
def x97 (c : Coeffs) : Int :=
  (band (x95 c) 0x3fffffff)

/-- Source variable x98, computed over the integers. -/
def x98 (c : Coeffs) : Int :=
  ((x93 c) + c.x47)

/-- Source variable x99, computed over the integers. -/
def x99 (c : Coeffs) : Int :=
  (shr (x98 c) 0x1e)

/-- Source variable x100, computed over the integers. -/
def x100 (c : Coeffs) : Int :=
  (band (x98 c) 0x3fffffff)

/-- Source variable x101, computed over the integers. -/
def x101 (c : Coeffs) : Int :=
  ((x96 c) + c.x55)

/-- Source variable x102, computed over the integers. -/
def x102 (c : Coeffs) : Int :=
  (shr (x101 c) 0x1e)

/-- Source variable x103, computed over the integers. -/
def x103 (c : Coeffs) : Int :=
  (band (x101 c) 0x3fffffff)

/-- Source variable x104, computed over the integers. -/
def x104 (c : Coeffs) : Int :=
  ((x99 c) + c.x46)

/-- Source variable x105, computed over the integers. -/
def x105 (c : Coeffs) : Int :=
  (shr (x104 c) 0x1e)

/-- Source variable x106, computed over the integers. -/
def x106 (c : Coeffs) : Int :=
  (band (x104 c) 0x3fffffff)

/-- Source variable x107, computed over the integers. -/
def x107 (c : Coeffs) : Int :=
  ((x102 c) + c.x54)

/-- Source variable x108, computed over the integers. -/
def x108 (c : Coeffs) : Int :=
  (shr (x107 c) 0x1e)

/-- Source variable x109, computed over the integers. -/
def x109 (c : Coeffs) : Int :=
  (band (x107 c) 0x3fffffff)

/-- Source variable x110, computed over the integers. -/
def x110 (c : Coeffs) : Int :=
  ((x105 c) + (x67 c))

/-- Source variable x111, computed over the integers. -/
def x111 (c : Coeffs) : Int :=
  (shr (x110 c) 0x1e)

/-- Source variable x112, computed over the integers. -/
def x112 (c : Coeffs) : Int :=
  (band (x110 c) 0x3fffffff)

/-- Source variable x113, computed over the integers. -/
def x113 (c : Coeffs) : Int :=
  ((x108 c) + (x62 c))

/-- Source variable x114, computed over the integers. -/
def x114 (c : Coeffs) : Int :=
  (shr (x113 c) 0x1e)

/-- Source variable x115, computed over the integers. -/
def x115 (c : Coeffs) : Int :=
  (band (x113 c) 0x3fffffff)

/-- Source variable x116, computed over the integers. -/
def x116 (c : Coeffs) : Int :=
  ((0x40000000 * (x111 c)) + (x112 c))

/-- Source variable x117, computed over the integers. -/
def x117 (c : Coeffs) : Int :=
  (shr (x116 c) 0x1e)

/-- Source variable x118, computed over the integers. -/
def x118 (c : Coeffs) : Int :=
  (band (x116 c) 0x3fffffff)

/-- Source variable x119, computed over the integers. -/
def x119 (c : Coeffs) : Int :=
  (((x114 c) + (x70 c)) + (x117 c))

/-- Source variable x120, computed over the integers. -/
def x120 (c : Coeffs) : Int :=
  (shr (x119 c) 0x1e)

/-- Source variable x121, computed over the integers. -/
def x121 (c : Coeffs) : Int :=
  (band (x119 c) 0x3fffffff)

/-- Source variable x122, computed over the integers. -/
def x122 (c : Coeffs) : Int :=
  ((x73 c) + (x117 c))

/-- Source variable x123, computed over the integers. -/
def x123 (c : Coeffs) : Int :=
  (shr (x122 c) 0x1e)

/-- Source variable x124, computed over the integers. -/
def x124 (c : Coeffs) : Int :=
  (band (x122 c) 0x3fffffff)

/-- Lines 114-129 over the integers. -/
def carryOut (c : Coeffs) : List Int :=
  [ x118 c, x106 c, x100 c, x94 c, x88 c, x82 c, (x120 c) + (x76 c), x121 c,
    x115 c, x109 c, x103 c, x97 c, x91 c, x85 c, (x123 c) + (x79 c), x124 c ]

/-- The kernel `fesquare` computed over unbounded integers: every cast and every
declared width is dropped. -/
def fesquare (a : Args) : List Int :=
  carryOut (coeffs a)

end Unbounded

end Fesquare

namespace Fenz

/-- The fifteen limb parameters of `fenz`, in declaration order. -/
structure Args where
  x27 : Nat
  x28 : Nat
  x26 : Nat
  x24 : Nat
  x22 : Nat
  x20 : Nat
  x18 : Nat
  x16 : Nat
  x14 : Nat
  x12 : Nat
  x10 : Nat
  x8 : Nat
  x6 : Nat
  x4 : Nat
  x2 : Nat

/-- Conversion of a word to `uint32_t`. -/
def w32 (x : Nat) : Nat := x % 2 ^ 32

/-- The kernel `fenz`: the value stored in `out[0]`.  Each `|` is evaluated on
`uint64_t` operands and its result stored in a `uint32_t` variable. -/
def fenz (a : Args) : Nat :=
  let x29 := w32 (a.x28 ||| a.x27)
  let x30 := w32 (a.x26 ||| x29)
  let x31 := w32 (a.x24 ||| x30)
  let x32 := w32 (a.x22 ||| x31)
  let x33 := w32 (a.x20 ||| x32)
  let x34 := w32 (a.x18 ||| x33)
  let x35 := w32 (a.x16 ||| x34)
  let x36 := w32 (a.x14 ||| x35)
  let x37 := w32 (a.x12 ||| x36)
  let x38 := w32 (a.x10 ||| x37)
  let x39 := w32 (a.x8 ||| x38)
  let x40 := w32 (a.x6 ||| x39)
  let x41 := w32 (a.x4 ||| x40)
  let x42 := w32 (a.x2 ||| x41)
  x42

/-! ## Values, tight form and the instruction path of `fenz` -/

/-- The limbs of an argument vector, least significant first: `x2` is limb 0,
`x4` limb 1, ..., `x28` limb 13 and `x27` limb 14. -/
def limbs (a : Args) : List Nat :=
  [a.x2, a.x4, a.x6, a.x8, a.x10, a.x12, a.x14, a.x16, a.x18, a.x20, a.x22, a.x24,
    a.x26, a.x28, a.x27]

/-- The number represented by limbs of `w` bits, least significant first. -/
def evalLimbs (w : Nat) : List Nat → Nat
  | [] => 0
  | x :: l => x + 2 ^ w * evalLimbs w l

/-- The represented value: the sum of `limb i * 2^(32*i)`. -/
def value (a : Args) : Nat := evalLimbs 32 (limbs a)

/-- The modulus of the `montgomery32_2e452m3` field. -/
def p : Nat := 2 ^ 452 - 3

/-- Every limb fits in 32 bits. -/
def LimbsLt32 (a : Args) : Prop := ∀ x ∈ limbs a, x < 2 ^ 32

instance (a : Args) : Decidable (LimbsLt32 a) :=
  inferInstanceAs (Decidable (∀ x ∈ limbs a, x < 2 ^ 32))

/-- Tight form: 32-bit limbs representing a value in `[0, p)`. -/
def Tight (a : Args) : Prop := LimbsLt32 a ∧ value a < p

instance (a : Args) : Decidable (Tight a) :=
  inferInstanceAs (Decidable (LimbsLt32 a ∧ value a < p))

/-- The bitwise OR of a list of words. -/
def orAll (l : List Nat) : Nat := l.foldl (fun acc x => acc ||| x) 0

/-- The argument vector whose limb `i` is `f i`. -/
def ofLimbs (f : Nat → Nat) : Args :=
  ⟨f 14, f 13, f 12, f 11, f 10, f 9, f 8, f 7, f 6, f 5, f 4, f 3, f 2, f 1, f 0⟩

/-- The argument vector whose limb `k` is `0x1` and whose other limbs are `0`. -/
def unitAt (k : Nat) : Args := ofLimbs (fun i => if i = k then 0x1 else 0)

/-- The all-zero argument vector. -/
def zero : Args := ofLimbs (fun _ => 0)

/-- Statements of straight-line C code over word variables `x<n>`, together with a
conditional jump, so that programs with a data-dependent path are expressible. -/
inductive Instr where
  /-- The statement `uint32_t x<dst> = (x<src1> | x<src2>);`. -/
  | or32 (dst src1 src2 : Nat)
  /-- The statement `out[0] = x<src>;`. -/
  | store (src : Nat)
  /-- The statement `if (x<src> == 0) goto target;`. -/
  | jz (src target : Nat)

/-- Machine state: the variables, `out[0]`, the program counter and the
instruction path taken so far (most recent first). -/
structure State where
  var : Nat → Nat
  out : Nat
  pc : Nat
  path : List Nat

/-- One step: execute the instruction at `pc`; `none` once `pc` is past the end. -/
def step (prog : List Instr) (s : State) : Option State :=
  match prog.get? s.pc with
  | none => none
  | some (Instr.or32 dst src1 src2) =>
      some { s with
        var := fun r => if r = dst then w32 (s.var src1 ||| s.var src2) else s.var r
        pc := s.pc + 1
        path := s.pc :: s.path }
  | some (Instr.store src) =>
      some { s with out := s.var src, pc := s.pc + 1, path := s.pc :: s.path }
  | some (Instr.jz src target) =>
      some { s with
        pc := if s.var src = 0 then target else s.pc + 1
        path := s.pc :: s.path }

/-- Run until the program counter leaves the program or the fuel is used up. -/
def run (prog : List Instr) : Nat → State → State
  | 0, s => s
  | fuel + 1, s =>
    match step prog s with
    | none => s
    | some t => run prog fuel t

/-- The body of `fenz`, statement by statement. -/
def fenzProg : List Instr :=
  [ Instr.or32 29 28 27, Instr.or32 30 26 29, Instr.or32 31 24 30, Instr.or32 32 22 31,
    Instr.or32 33 20 32, Instr.or32 34 18 33, Instr.or32 35 16 34, Instr.or32 36 14 35,
    Instr.or32 37 12 36, Instr.or32 38 10 37, Instr.or32 39 8 38, Instr.or32 40 6 39,
    Instr.or32 41 4 40, Instr.or32 42 2 41, Instr.store 42 ]

/-- The state on entry to `fenz`: the parameters hold the argument limbs. -/
def entry (a : Args) : State where
  var := fun r =>
    match r with
    | 27 => a.x27 | 28 => a.x28 | 26 => a.x26 | 24 => a.x24 | 22 => a.x22
    | 20 => a.x20 | 18 => a.x18 | 16 => a.x16 | 14 => a.x14 | 12 => a.x12
    | 10 => a.x10 | 8 => a.x8 | 6 => a.x6 | 4 => a.x4 | 2 => a.x2
    | _ => 0
  out := 0
  pc := 0
  path := []

/-- The instruction path of a run of `fenz`, in execution order. -/
def fenzPath (a : Args) : List Nat := (run fenzProg fenzProg.length (entry a)).path.reverse

/-- Whether an instruction is a jump. -/
def Instr.isJump : Instr → Bool
  | Instr.jz _ _ => true
  | _ => false

/-- Whether an instruction is an OR. -/
def Instr.isOr : Instr → Bool
  | Instr.or32 _ _ _ => true
  | _ => false

/-- A zero test with an early exit, for contrast: it skips the store when `x2` is
zero. -/
def earlyExitProg : List Instr := [ Instr.jz 2 2, Instr.store 2 ]

/-- The argument vector with every word reduced to its low 32 bits. -/
def truncate (a : Args) : Args :=
  ⟨w32 a.x27, w32 a.x28, w32 a.x26, w32 a.x24, w32 a.x22, w32 a.x20, w32 a.x18, w32 a.x16,
    w32 a.x14, w32 a.x12, w32 a.x10, w32 a.x8, w32 a.x6, w32 a.x4, w32 a.x2⟩

/-- The argument vector whose limb `k` is `2^32` and whose other limbs are `0`. -/
def highBitAt (k : Nat) : Args := ofLimbs (fun i => if i = k then 2 ^ 32 else 0)

/-- The fifteen-limb encoding of `p = 2^452 - 3` itself: limb 0 is `2^32 - 3`,
limbs 1 to 13 are `2^32 - 1` and limb 14 is `2^4 - 1`. -/
def modulusLimbs : Args :=
  ⟨15, 4294967295, 4294967295, 4294967295, 4294967295, 4294967295, 4294967295, 4294967295,
    4294967295, 4294967295, 4294967295, 4294967295, 4294967295, 4294967295, 4294967293⟩

end Fenz

set_option maxRecDepth 100000
set_option exponentiation.threshold 1024

/-! # Properties of `fenz` -/

namespace Fenz

theorem or_eq_zero_iff (x y : Nat) : x ||| y = 0 ↔ x = 0 ∧ y = 0 := by
  constructor
  · intro h
    have hb : ∀ i, (x.testBit i || y.testBit i) = false := by
      intro i
      rw [← Nat.testBit_or, h, Nat.zero_testBit]
    constructor
    · apply Nat.eq_of_testBit_eq
      intro i
      have := hb i
      rw [Bool.or_eq_false_iff] at this
      rw [this.1, Nat.zero_testBit]
    · apply Nat.eq_of_testBit_eq
      intro i
      have := hb i
      rw [Bool.or_eq_false_iff] at this
      rw [this.2, Nat.zero_testBit]
  · rintro ⟨rfl, rfl⟩
    rfl

theorem w32_or (x y : Nat) (hx : x < 2 ^ 32) (hy : y < 2 ^ 32) :
    w32 (x ||| y) = x ||| y ∧ x ||| y < 2 ^ 32 :=
  ⟨Nat.mod_eq_of_lt (Nat.or_lt_two_pow hx hy), Nat.or_lt_two_pow hx hy⟩

theorem fenz_eq_chain (a : Args) (h : LimbsLt32 a) :
    fenz a = a.x2 ||| (a.x4 ||| (a.x6 ||| (a.x8 ||| (a.x10 ||| (a.x12 ||| (a.x14 |||
      (a.x16 ||| (a.x18 ||| (a.x20 ||| (a.x22 ||| (a.x24 ||| (a.x26 |||
      (a.x28 ||| a.x27))))))))))))) := by
  simp only [LimbsLt32, limbs, List.forall_mem_cons, List.mem_singleton, forall_eq,
    List.not_mem_nil, false_imp_iff, implies_true, and_true] at h
  obtain ⟨h2, h4, h6, h8, h10, h12, h14, h16, h18, h20, h22, h24, h26, h28, h27⟩ := h
  have e29 := w32_or _ _ h28 h27
  have e30 := w32_or _ _ h26 e29.2
  have e31 := w32_or _ _ h24 e30.2
  have e32 := w32_or _ _ h22 e31.2
  have e33 := w32_or _ _ h20 e32.2
  have e34 := w32_or _ _ h18 e33.2
  have e35 := w32_or _ _ h16 e34.2
  have e36 := w32_or _ _ h14 e35.2
  have e37 := w32_or _ _ h12 e36.2
  have e38 := w32_or _ _ h10 e37.2
  have e39 := w32_or _ _ h8 e38.2
  have e40 := w32_or _ _ h6 e39.2
  have e41 := w32_or _ _ h4 e40.2
  have e42 := w32_or _ _ h2 e41.2
  simp only [fenz, e29.1, e30.1, e31.1, e32.1, e33.1, e34.1, e35.1, e36.1, e37.1, e38.1,
    e39.1, e40.1, e41.1, e42.1]

theorem fenz_eq_orAll (a : Args) (h : LimbsLt32 a) : fenz a = orAll (limbs a) := by
  rw [fenz_eq_chain a h]
  simp only [orAll, limbs, List.foldl, Nat.zero_or]
  ac_rfl

theorem chain_eq_zero_iff (a : Args) :
    a.x2 ||| (a.x4 ||| (a.x6 ||| (a.x8 ||| (a.x10 ||| (a.x12 ||| (a.x14 |||
      (a.x16 ||| (a.x18 ||| (a.x20 ||| (a.x22 ||| (a.x24 ||| (a.x26 |||
      (a.x28 ||| a.x27))))))))))))) = 0 ↔ value a = 0 := by
  simp only [or_eq_zero_iff, value, limbs, evalLimbs]
  constructor
  · rintro ⟨h2, h4, h6, h8, h10, h12, h14, h16, h18, h20, h22, h24, h26, h28, h27⟩
    simp [h2, h4, h6, h8, h10, h12, h14, h16, h18, h20, h22, h24, h26, h28, h27]
  · intro h
    simp only [Nat.add_eq_zero_iff, mul_eq_zero, pow_eq_zero_iff, OfNat.ofNat_ne_zero,
      false_and, false_or, ne_eq, not_false_eq_true, and_true] at h
    tauto

theorem fenzProg_run (a : Args) :
    (run fenzProg fenzProg.length (entry a)).out = fenz a ∧
    (run fenzProg fenzProg.length (entry a)).pc = fenzProg.length ∧
    fenzPath a = List.range 15 := by
  refine ⟨rfl, rfl, rfl⟩

theorem earlyExit_path_differs :
    (run earlyExitProg 2 (entry zero)).path ≠ (run earlyExitProg 2 (entry (unitAt 0))).path := by
  decide

/-- Claim C2: zero detection for the `2^452 - 3` field.  For every input of `fenz` in
tight form (limbs below `2^32`, value in `[0, p)`), the accumulator `out[0]` is `0`
exactly when the represented value is `0`, that is, exactly when it is the zero
residue modulo `p`. -/
theorem fenz_zero_iff (a : Args) (h : Tight a) :
    (fenz a = 0 ↔ value a = 0) ∧ (fenz a = 0 ↔ value a % p = 0) := by
  have h1 : fenz a = 0 ↔ value a = 0 := by
    rw [fenz_eq_chain a h.1]
    exact chain_eq_zero_iff a
  refine ⟨h1, ?_⟩
  rw [h1, Nat.mod_eq_of_lt h.2]

/-- Witness of claim C2 at the tight input whose limb 7 is `1`. -/
theorem fenz_zero_iff_witness :
    Tight (unitAt 7) ∧
      ((fenz (unitAt 7) = 0 ↔ value (unitAt 7) = 0) ∧
        (fenz (unitAt 7) = 0 ↔ value (unitAt 7) % p = 0)) :=
  ⟨by decide, fenz_zero_iff (unitAt 7) (by decide)⟩

/-- Claim C3: for every input of `fenz` whose fifteen limbs are below `2^32`, `out[0]`
is the bitwise OR of all fifteen limbs. -/
theorem fenz_eq_or_of_limbs (a : Args) (h : LimbsLt32 a) : fenz a = orAll (limbs a) :=
  fenz_eq_orAll a h

/-- Witness of claim C3 at the input whose limb 7 is `1`. -/
theorem fenz_eq_or_of_limbs_witness :
    LimbsLt32 (unitAt 7) ∧ fenz (unitAt 7) = orAll (limbs (unitAt 7)) :=
  ⟨by decide, fenz_eq_or_of_limbs (unitAt 7) (by decide)⟩

/-- Claim C7: the input whose limb 7 alone holds `0x1` gives the accumulator `0x1`, the
all-zero input gives `0`, and for every limb position `k` of `fenz` the input whose
limb `k` is `0x1` and whose other limbs are `0` gives the accumulator `0x1`. -/
theorem fenz_unit_limb :
    fenz (unitAt 7) = 0x1 ∧ fenz zero = 0 ∧ ∀ k : Fin 15, fenz (unitAt k) = 0x1 := by
  decide

/-- Claim C9: `fenz` is constant-time.  The instruction path of a run is the same for
every two inputs; it is the fifteen statements of the body in order, fourteen of
them ORs and none a jump; the run ends past the last statement with the value of
`fenz` in `out[0]`. -/
theorem fenz_constant_path (a b : Args) :
    fenzPath a = fenzPath b ∧
    fenzPath a = List.range 15 ∧
    (fenzProg.filter Instr.isOr).length = 14 ∧
    fenzProg.all (fun i => !i.isJump) = true ∧
    (run fenzProg fenzProg.length (entry a)).pc = fenzProg.length ∧
    (run fenzProg fenzProg.length (entry a)).out = fenz a := by
  refine ⟨?_, ?_, by decide, by decide, ?_, ?_⟩
  · rw [(fenzProg_run a).2.2, (fenzProg_run b).2.2]
  · exact (fenzProg_run a).2.2
  · exact (fenzProg_run a).2.1
  · exact (fenzProg_run a).1

theorem w32_or_w32 (x y : Nat) : w32 (w32 x ||| w32 y) = w32 (x ||| y) := by
  unfold w32
  apply Nat.eq_of_testBit_eq
  intro i
  simp only [Nat.testBit_mod_two_pow, Nat.testBit_or]
  by_cases h : i < 32 <;> simp [h]

theorem w32_idem (x : Nat) : w32 (w32 x) = w32 x := by
  unfold w32
  exact Nat.mod_mod _ _

theorem w32_or_right (x y : Nat) : w32 (x ||| w32 y) = w32 (x ||| y) := by
  rw [← w32_or_w32 x (w32 y), w32_idem, w32_or_w32]

theorem w32_or_left (x y : Nat) : w32 (w32 x ||| y) = w32 (x ||| y) := by
  rw [← w32_or_w32 (w32 x) y, w32_idem, w32_or_w32]

theorem fenz_eq_w32_chain (a : Args) :
    fenz a = w32 (a.x2 ||| (a.x4 ||| (a.x6 ||| (a.x8 ||| (a.x10 ||| (a.x12 ||| (a.x14 |||
      (a.x16 ||| (a.x18 ||| (a.x20 ||| (a.x22 ||| (a.x24 ||| (a.x26 |||
      (a.x28 ||| a.x27)))))))))))))) := by
  simp only [fenz, w32_or_right]

/-- Claim C17: `fenz` truncates to 32 bits.  For every input, `out[0]` is the bitwise
OR of all fifteen words modulo `2^32`; so `out[0]` is below `2^32`, bits 32 and above
of every limb are ignored, and the input with one limb equal to `2^32` and the rest
`0` gives the accumulator `0`. -/
theorem fenz_truncates (a : Args) :
    fenz a = orAll (limbs a) % 2 ^ 32 ∧ fenz a < 2 ^ 32 ∧ fenz a = fenz (truncate a) ∧
      ∀ k : Fin 15, fenz (highBitAt k) = 0 := by
  have e : fenz a = orAll (limbs a) % 2 ^ 32 := by
    rw [fenz_eq_w32_chain]
    simp only [orAll, limbs, List.foldl, Nat.zero_or, w32]
    congr 1
    ac_rfl
  refine ⟨e, ?_, ?_, by decide⟩
  · rw [e]
    exact Nat.mod_lt _ (by norm_num)
  · rw [fenz_eq_w32_chain, fenz_eq_w32_chain]
    simp only [truncate, w32]
    apply Nat.eq_of_testBit_eq
    intro i
    simp only [Nat.testBit_mod_two_pow, Nat.testBit_or]
    by_cases h : i < 32 <;> simp [h]

/-- Claim C18: `fenz` tests the limbs, not the residue.  The fifteen-limb encoding of
`p = 2^452 - 3` itself has every limb below `2^32` and a value congruent to `0`
modulo `p`, and `fenz` returns a nonzero accumulator on it; the encoding is not in
tight form, and zero detection fails on it. -/
theorem fenz_modulus_nonzero :
    LimbsLt32 modulusLimbs ∧ value modulusLimbs = p ∧ value modulusLimbs % p = 0 ∧
      fenz modulusLimbs = 4294967295 ∧ fenz modulusLimbs ≠ 0 ∧ ¬ Tight modulusLimbs ∧
      ¬ (fenz modulusLimbs = 0 ↔ value modulusLimbs % p = 0) := by
  decide

end Fenz

/-! # Properties of `fesquare` -/

namespace Fesquare

theorem shr30 (t : Int) : shr t 0x1e = t / 2 ^ 30 := by
  unfold shr
  rw [Int.shiftRight_eq_div_pow]
  norm_num

theorem band30 (t : Int) (h : 0 ≤ t) : band t 0x3fffffff = t % 2 ^ 30 := by
  obtain ⟨n, rfl⟩ := Int.eq_ofNat_of_zero_le h
  show ((n &&& 0x3fffffff : Nat) : Int) = _
  have e : (0x3fffffff : Nat) = 2 ^ 30 - 1 := by norm_num
  rw [e, Nat.and_pow_two_sub_one_eq_mod]
  norm_cast

theorem u32_nonneg (t : Int) : 0 ≤ u32 t := by
  unfold u32
  omega

theorem coeffsLt66_iff (c : Coeffs) : CoeffsLt66 c ↔
    ((0 ≤ c.x38 ∧ c.x38 < 2 ^ 66) ∧ (0 ≤ c.x46 ∧ c.x46 < 2 ^ 66) ∧
    (0 ≤ c.x47 ∧ c.x47 < 2 ^ 66) ∧ (0 ≤ c.x48 ∧ c.x48 < 2 ^ 66) ∧
    (0 ≤ c.x49 ∧ c.x49 < 2 ^ 66) ∧ (0 ≤ c.x50 ∧ c.x50 < 2 ^ 66) ∧
    (0 ≤ c.x51 ∧ c.x51 < 2 ^ 66) ∧ (0 ≤ c.x52 ∧ c.x52 < 2 ^ 66) ∧
    (0 ≤ c.x53 ∧ c.x53 < 2 ^ 66) ∧ (0 ≤ c.x54 ∧ c.x54 < 2 ^ 66) ∧
    (0 ≤ c.x55 ∧ c.x55 < 2 ^ 66) ∧ (0 ≤ c.x56 ∧ c.x56 < 2 ^ 66) ∧
    (0 ≤ c.x57 ∧ c.x57 < 2 ^ 66) ∧ (0 ≤ c.x58 ∧ c.x58 < 2 ^ 66) ∧
    (0 ≤ c.x59 ∧ c.x59 < 2 ^ 66) ∧ (0 ≤ c.x60 ∧ c.x60 < 2 ^ 66)) := by
  simp only [CoeffsLt66, Coeffs.toList, List.forall_mem_cons, List.mem_singleton, forall_eq,
    List.not_mem_nil, false_imp_iff, implies_true, and_true]

theorem x61_spec (c : Coeffs) (h : CoeffsLt66 c) :
    x61 c = c.x53 / 2 ^ 30 ∧ 0 ≤ x61 c ∧ x61 c ≤ 68719476735 := by
  obtain ⟨h38, h46, h47, h48, h49, h50, h51, h52, h53, h54, h55, h56, h57, h58, h59, h60⟩ :=
    (coeffsLt66_iff c).1 h
  simp only [x61, u64, u32, shr30]
  omega

theorem x62_spec (c : Coeffs) (h : CoeffsLt66 c) :
    x62 c = c.x53 % 2 ^ 30 ∧ 0 ≤ x62 c ∧ x62 c ≤ 1073741823 := by
  obtain ⟨h38, h46, h47, h48, h49, h50, h51, h52, h53, h54, h55, h56, h57, h58, h59, h60⟩ :=
    (coeffsLt66_iff c).1 h
  unfold x62
  rw [band30 _ h53.1]
  simp only [u32]
  omega

theorem x63_spec (c : Coeffs) (h : CoeffsLt66 c) :
    x63 c = c.x38 / 2 ^ 30 ∧ 0 ≤ x63 c ∧ x63 c ≤ 68719476735 := by
  obtain ⟨h38, h46, h47, h48, h49, h50, h51, h52, h53, h54, h55, h56, h57, h58, h59, h60⟩ :=
    (coeffsLt66_iff c).1 h
  simp only [x63, u64, u32, shr30]
  omega

theorem x64_spec (c : Coeffs) (h : CoeffsLt66 c) :
    x64 c = c.x38 % 2 ^ 30 ∧ 0 ≤ x64 c ∧ x64 c ≤ 1073741823 := by
  obtain ⟨h38, h46, h47, h48, h49, h50, h51, h52, h53, h54, h55, h56, h57, h58, h59, h60⟩ :=
    (coeffsLt66_iff c).1 h
  unfold x64
  rw [band30 _ h38.1]
  simp only [u32]
  omega

theorem x65_spec (c : Coeffs) (h : CoeffsLt66 c) :
    x65 c = 2 ^ 30 * (x63 c) + x64 c ∧ 0 ≤ x65 c ∧ x65 c ≤ 73786976294838206463 := by
  have s63 := x63_spec c h
  have s64 := x64_spec c h
  unfold x65
  omega

theorem x66_spec (c : Coeffs) (h : CoeffsLt66 c) :
    x66 c = x65 c / 2 ^ 30 ∧ 0 ≤ x66 c ∧ x66 c ≤ 68719476735 := by
  have s65 := x65_spec c h
  simp only [x66, u64, u32, shr30]
  omega

theorem x67_spec (c : Coeffs) (h : CoeffsLt66 c) :
    x67 c = x65 c % 2 ^ 30 ∧ 0 ≤ x67 c ∧ x67 c ≤ 1073741823 := by
  have s65 := x65_spec c h
  unfold x67
  rw [band30 _ (s65).2.1]
  simp only [u32]
  omega

theorem x68_spec (c : Coeffs) (h : CoeffsLt66 c) :
    x68 c = x61 c + c.x52 + x66 c ∧ 0 ≤ x68 c ∧ x68 c ≤ 73786976432277159933 := by
  obtain ⟨h38, h46, h47, h48, h49, h50, h51, h52, h53, h54, h55, h56, h57, h58, h59, h60⟩ :=
    (coeffsLt66_iff c).1 h
  have s61 := x61_spec c h
  have s66 := x66_spec c h
  unfold x68
  omega

theorem x69_spec (c : Coeffs) (h : CoeffsLt66 c) :
    x69 c = x68 c / 2 ^ 30 ∧ 0 ≤ x69 c ∧ x69 c ≤ 68719476863 := by
  have s68 := x68_spec c h
  simp only [x69, u64, u32, shr30]
  omega

theorem x70_spec (c : Coeffs) (h : CoeffsLt66 c) :
    x70 c = x68 c % 2 ^ 30 ∧ 0 ≤ x70 c ∧ x70 c ≤ 1073741823 := by
  have s68 := x68_spec c h
  unfold x70
  rw [band30 _ (s68).2.1]
  simp only [u32]
  omega

theorem x71_spec (c : Coeffs) (h : CoeffsLt66 c) :
    x71 c = c.x60 + x66 c ∧ 0 ≤ x71 c ∧ x71 c ≤ 73786976363557683198 := by
  obtain ⟨h38, h46, h47, h48, h49, h50, h51, h52, h53, h54, h55, h56, h57, h58, h59, h60⟩ :=
    (coeffsLt66_iff c).1 h
  have s66 := x66_spec c h
  unfold x71
  omega

theorem x72_spec (c : Coeffs) (h : CoeffsLt66 c) :
    x72 c = x71 c / 2 ^ 30 ∧ 0 ≤ x72 c ∧ x72 c ≤ 68719476799 := by
  have s71 := x71_spec c h
  simp only [x72, u64, u32, shr30]
  omega

theorem x73_spec (c : Coeffs) (h : CoeffsLt66 c) :
    x73 c = x71 c % 2 ^ 30 ∧ 0 ≤ x73 c ∧ x73 c ≤ 1073741823 := by
  have s71 := x71_spec c h
  unfold x73
  rw [band30 _ (s71).2.1]
  simp only [u32]
  omega

theorem x74_spec (c : Coeffs) (h : CoeffsLt66 c) :
    x74 c = x69 c + c.x51 ∧ 0 ≤ x74 c ∧ x74 c ≤ 73786976363557683326 := by
  obtain ⟨h38, h46, h47, h48, h49, h50, h51, h52, h53, h54, h55, h56, h57, h58, h59, h60⟩ :=
    (coeffsLt66_iff c).1 h
  have s69 := x69_spec c h
  unfold x74
  omega

theorem x75_spec (c : Coeffs) (h : CoeffsLt66 c) :
    x75 c = x74 c / 2 ^ 30 ∧ 0 ≤ x75 c ∧ x75 c ≤ 68719476800 := by
  have s74 := x74_spec c h
  simp only [x75, u64, u32, shr30]
  omega

theorem x76_spec (c : Coeffs) (h : CoeffsLt66 c) :
    x76 c = x74 c % 2 ^ 30 ∧ 0 ≤ x76 c ∧ x76 c ≤ 1073741823 := by
  have s74 := x74_spec c h
  unfold x76
  rw [band30 _ (s74).2.1]
  simp only [u32]
  omega

theorem x77_spec (c : Coeffs) (h : CoeffsLt66 c) :
    x77 c = x72 c + c.x59 ∧ 0 ≤ x77 c ∧ x77 c ≤ 73786976363557683262 := by
  obtain ⟨h38, h46, h47, h48, h49, h50, h51, h52, h53, h54, h55, h56, h57, h58, h59, h60⟩ :=
    (coeffsLt66_iff c).1 h
  have s72 := x72_spec c h
  unfold x77
  omega

theorem x78_spec (c : Coeffs) (h : CoeffsLt66 c) :
    x78 c = x77 c / 2 ^ 30 ∧ 0 ≤ x78 c ∧ x78 c ≤ 68719476800 := by
  have s77 := x77_spec c h
  simp only [x78, u64, u32, shr30]
  omega

theorem x79_spec (c : Coeffs) (h : CoeffsLt66 c) :
    x79 c = x77 c % 2 ^ 30 ∧ 0 ≤ x79 c ∧ x79 c ≤ 1073741823 := by
  have s77 := x77_spec c h
  unfold x79
  rw [band30 _ (s77).2.1]
  simp only [u32]
  omega

theorem x80_spec (c : Coeffs) (h : CoeffsLt66 c) :
    x80 c = x75 c + c.x50 ∧ 0 ≤ x80 c ∧ x80 c ≤ 73786976363557683263 := by
  obtain ⟨h38, h46, h47, h48, h49, h50, h51, h52, h53, h54, h55, h56, h57, h58, h59, h60⟩ :=
    (coeffsLt66_iff c).1 h
  have s75 := x75_spec c h
  unfold x80
  omega

theorem x81_spec (c : Coeffs) (h : CoeffsLt66 c) :
    x81 c = x80 c / 2 ^ 30 ∧ 0 ≤ x81 c ∧ x81 c ≤ 68719476800 := by
  have s80 := x80_spec c h
  simp only [x81, u64, u32, shr30]
  omega

theorem x82_spec (c : Coeffs) (h : CoeffsLt66 c) :
    x82 c = x80 c % 2 ^ 30 ∧ 0 ≤ x82 c ∧ x82 c ≤ 1073741823 := by
  have s80 := x80_spec c h
  unfold x82
  rw [band30 _ (s80).2.1]
  simp only [u32]
  omega

theorem x83_spec (c : Coeffs) (h : CoeffsLt66 c) :
    x83 c = x78 c + c.x58 ∧ 0 ≤ x83 c ∧ x83 c ≤ 73786976363557683263 := by
  obtain ⟨h38, h46, h47, h48, h49, h50, h51, h52, h53, h54, h55, h56, h57, h58, h59, h60⟩ :=
    (coeffsLt66_iff c).1 h
  have s78 := x78_spec c h
  unfold x83
  omega

theorem x84_spec (c : Coeffs) (h : CoeffsLt66 c) :
    x84 c = x83 c / 2 ^ 30 ∧ 0 ≤ x84 c ∧ x84 c ≤ 68719476800 := by
  have s83 := x83_spec c h
  simp only [x84, u64, u32, shr30]
  omega

theorem x85_spec (c : Coeffs) (h : CoeffsLt66 c) :
    x85 c = x83 c % 2 ^ 30 ∧ 0 ≤ x85 c ∧ x85 c ≤ 1073741823 := by
  have s83 := x83_spec c h
  unfold x85
  rw [band30 _ (s83).2.1]
  simp only [u32]
  omega

theorem x86_spec (c : Coeffs) (h : CoeffsLt66 c) :
    x86 c = x81 c + c.x49 ∧ 0 ≤ x86 c ∧ x86 c ≤ 73786976363557683263 := by
  obtain ⟨h38, h46, h47, h48, h49, h50, h51, h52, h53, h54, h55, h56, h57, h58, h59, h60⟩ :=
    (coeffsLt66_iff c).1 h
  have s81 := x81_spec c h
  unfold x86
  omega

theorem x87_spec (c : Coeffs) (h : CoeffsLt66 c) :
    x87 c = x86 c / 2 ^ 30 ∧ 0 ≤ x87 c ∧ x87 c ≤ 68719476800 := by
  have s86 := x86_spec c h
  simp only [x87, u64, u32, shr30]
  omega

theorem x88_spec (c : Coeffs) (h : CoeffsLt66 c) :
    x88 c = x86 c % 2 ^ 30 ∧ 0 ≤ x88 c ∧ x88 c ≤ 1073741823 := by
  have s86 := x86_spec c h
  unfold x88
  rw [band30 _ (s86).2.1]
  simp only [u32]
  omega

theorem x89_spec (c : Coeffs) (h : CoeffsLt66 c) :
    x89 c = x84 c + c.x57 ∧ 0 ≤ x89 c ∧ x89 c ≤ 73786976363557683263 := by
  obtain ⟨h38, h46, h47, h48, h49, h50, h51, h52, h53, h54, h55, h56, h57, h58, h59, h60⟩ :=
    (coeffsLt66_iff c).1 h
  have s84 := x84_spec c h
  unfold x89
  omega

theorem x90_spec (c : Coeffs) (h : CoeffsLt66 c) :
    x90 c = x89 c / 2 ^ 30 ∧ 0 ≤ x90 c ∧ x90 c ≤ 68719476800 := by
  have s89 := x89_spec c h
  simp only [x90, u64, u32, shr30]
  omega

theorem x91_spec (c : Coeffs) (h : CoeffsLt66 c) :
    x91 c = x89 c % 2 ^ 30 ∧ 0 ≤ x91 c ∧ x91 c ≤ 1073741823 := by
  have s89 := x89_spec c h
  unfold x91
  rw [band30 _ (s89).2.1]
  simp only [u32]
  omega

theorem x92_spec (c : Coeffs) (h : CoeffsLt66 c) :
    x92 c = x87 c + c.x48 ∧ 0 ≤ x92 c ∧ x92 c ≤ 73786976363557683263 := by
  obtain ⟨h38, h46, h47, h48, h49, h50, h51, h52, h53, h54, h55, h56, h57, h58, h59, h60⟩ :=
    (coeffsLt66_iff c).1 h
  have s87 := x87_spec c h
  unfold x92
  omega

theorem x93_spec (c : Coeffs) (h : CoeffsLt66 c) :
    x93 c = x92 c / 2 ^ 30 ∧ 0 ≤ x93 c ∧ x93 c ≤ 68719476800 := by
  have s92 := x92_spec c h
  simp only [x93, u64, u32, shr30]
  omega

theorem x94_spec (c : Coeffs) (h : CoeffsLt66 c) :
    x94 c = x92 c % 2 ^ 30 ∧ 0 ≤ x94 c ∧ x94 c ≤ 1073741823 := by
  have s92 := x92_spec c h
  unfold x94
  rw [band30 _ (s92).2.1]
  simp only [u32]
  omega

theorem x95_spec (c : Coeffs) (h : CoeffsLt66 c) :
    x95 c = x90 c + c.x56 ∧ 0 ≤ x95 c ∧ x95 c ≤ 73786976363557683263 := by
  obtain ⟨h38, h46, h47, h48, h49, h50, h51, h52, h53, h54, h55, h56, h57, h58, h59, h60⟩ :=
    (coeffsLt66_iff c).1 h
  have s90 := x90_spec c h
  unfold x95
  omega

theorem x96_spec (c : Coeffs) (h : CoeffsLt66 c) :
    x96 c = x95 c / 2 ^ 30 ∧ 0 ≤ x96 c ∧ x96 c ≤ 68719476800 := by
  have s95 := x95_spec c h
  simp only [x96, u64, u32, shr30]
  omega

theorem x97_spec (c : Coeffs) (h : CoeffsLt66 c) :
    x97 c = x95 c % 2 ^ 30 ∧ 0 ≤ x97 c ∧ x97 c ≤ 1073741823 := by
  have s95 := x95_spec c h
  unfold x97
  rw [band30 _ (s95).2.1]
  simp only [u32]
  omega

theorem x98_spec (c : Coeffs) (h : CoeffsLt66 c) :
    x98 c = x93 c + c.x47 ∧ 0 ≤ x98 c ∧ x98 c ≤ 73786976363557683263 := by
  obtain ⟨h38, h46, h47, h48, h49, h50, h51, h52, h53, h54, h55, h56, h57, h58, h59, h60⟩ :=
    (coeffsLt66_iff c).1 h
  have s93 := x93_spec c h
  unfold x98
  omega

theorem x99_spec (c : Coeffs) (h : CoeffsLt66 c) :
    x99 c = x98 c / 2 ^ 30 ∧ 0 ≤ x99 c ∧ x99 c ≤ 68719476800 := by
  have s98 := x98_spec c h
  simp only [x99, u64, u32, shr30]
  omega

theorem x100_spec (c : Coeffs) (h : CoeffsLt66 c) :
    x100 c = x98 c % 2 ^ 30 ∧ 0 ≤ x100 c ∧ x100 c ≤ 1073741823 := by
  have s98 := x98_spec c h
  unfold x100
  rw [band30 _ (s98).2.1]
  simp only [u32]
  omega

theorem x101_spec (c : Coeffs) (h : CoeffsLt66 c) :
    x101 c = x96 c + c.x55 ∧ 0 ≤ x101 c ∧ x101 c ≤ 73786976363557683263 := by
  obtain ⟨h38, h46, h47, h48, h49, h50, h51, h52, h53, h54, h55, h56, h57, h58, h59, h60⟩ :=
    (coeffsLt66_iff c).1 h
  have s96 := x96_spec c h
  unfold x101
  omega

theorem x102_spec (c : Coeffs) (h : CoeffsLt66 c) :
    x102 c = x101 c / 2 ^ 30 ∧ 0 ≤ x102 c ∧ x102 c ≤ 68719476800 := by
  have s101 := x101_spec c h
  simp only [x102, u64, u32, shr30]
  omega

theorem x103_spec (c : Coeffs) (h : CoeffsLt66 c) :
    x103 c = x101 c % 2 ^ 30 ∧ 0 ≤ x103 c ∧ x103 c ≤ 1073741823 := by
  have s101 := x101_spec c h
  unfold x103
  rw [band30 _ (s101).2.1]
  simp only [u32]
  omega

theorem x104_spec (c : Coeffs) (h : CoeffsLt66 c) :
    x104 c = x99 c + c.x46 ∧ 0 ≤ x104 c ∧ x104 c ≤ 73786976363557683263 := by
  obtain ⟨h38, h46, h47, h48, h49, h50, h51, h52, h53, h54, h55, h56, h57, h58, h59, h60⟩ :=
    (coeffsLt66_iff c).1 h
  have s99 := x99_spec c h
  unfold x104
  omega

theorem x105_spec (c : Coeffs) (h : CoeffsLt66 c) :
    x105 c = x104 c / 2 ^ 30 ∧ 0 ≤ x105 c ∧ x105 c ≤ 68719476800 := by
  have s104 := x104_spec c h
  simp only [x105, u64, u32, shr30]
  omega

theorem x106_spec (c : Coeffs) (h : CoeffsLt66 c) :
    x106 c = x104 c % 2 ^ 30 ∧ 0 ≤ x106 c ∧ x106 c ≤ 1073741823 := by
  have s104 := x104_spec c h
  unfold x106
  rw [band30 _ (s104).2.1]
  simp only [u32]
  omega

theorem x107_spec (c : Coeffs) (h : CoeffsLt66 c) :
    x107 c = x102 c + c.x54 ∧ 0 ≤ x107 c ∧ x107 c ≤ 73786976363557683263 := by
  obtain ⟨h38, h46, h47, h48, h49, h50, h51, h52, h53, h54, h55, h56, h57, h58, h59, h60⟩ :=
    (coeffsLt66_iff c).1 h
  have s102 := x102_spec c h
  unfold x107
  omega

theorem x108_spec (c : Coeffs) (h : CoeffsLt66 c) :
    x108 c = x107 c / 2 ^ 30 ∧ 0 ≤ x108 c ∧ x108 c ≤ 68719476800 := by
  have s107 := x107_spec c h
  simp only [x108, u64, u32, shr30]
  omega

theorem x109_spec (c : Coeffs) (h : CoeffsLt66 c) :
    x109 c = x107 c % 2 ^ 30 ∧ 0 ≤ x109 c ∧ x109 c ≤ 1073741823 := by
  have s107 := x107_spec c h
  unfold x109
  rw [band30 _ (s107).2.1]
  simp only [u32]
  omega

theorem x110_spec (c : Coeffs) (h : CoeffsLt66 c) :
    x110 c = x105 c + x67 c ∧ 0 ≤ x110 c ∧ x110 c ≤ 69793218623 := by
  have s105 := x105_spec c h
  have s67 := x67_spec c h
  simp only [x110, u64, u32]
  omega

theorem x111_spec (c : Coeffs) (h : CoeffsLt66 c) :
    x111 c = x110 c / 2 ^ 30 ∧ 0 ≤ x111 c ∧ x111 c ≤ 65 := by
  have s110 := x110_spec c h
  simp only [x111, u64, u32, shr30]
  omega

theorem x112_spec (c : Coeffs) (h : CoeffsLt66 c) :
    x112 c = x110 c % 2 ^ 30 ∧ 0 ≤ x112 c ∧ x112 c ≤ 1073741823 := by
  have s110 := x110_spec c h
  unfold x112
  rw [band30 _ (u32_nonneg _)]
  simp only [u32]
  omega

theorem x113_spec (c : Coeffs) (h : CoeffsLt66 c) :
    x113 c = x108 c + x62 c ∧ 0 ≤ x113 c ∧ x113 c ≤ 69793218623 := by
  have s108 := x108_spec c h
  have s62 := x62_spec c h
  simp only [x113, u64, u32]
  omega

theorem x114_spec (c : Coeffs) (h : CoeffsLt66 c) :
    x114 c = x113 c / 2 ^ 30 ∧ 0 ≤ x114 c ∧ x114 c ≤ 65 := by
  have s113 := x113_spec c h
  simp only [x114, u64, u32, shr30]
  omega

theorem x115_spec (c : Coeffs) (h : CoeffsLt66 c) :
    x115 c = x113 c % 2 ^ 30 ∧ 0 ≤ x115 c ∧ x115 c ≤ 1073741823 := by
  have s113 := x113_spec c h
  unfold x115
  rw [band30 _ (u32_nonneg _)]
  simp only [u32]
  omega

theorem x116_spec (c : Coeffs) (h : CoeffsLt66 c) :
    x116 c = 2 ^ 30 * (x111 c) + x112 c ∧ 0 ≤ x116 c ∧ x116 c ≤ 70866960383 := by
  have s111 := x111_spec c h
  have s112 := x112_spec c h
  simp only [x116, u64, u32]
  omega

theorem x117_spec (c : Coeffs) (h : CoeffsLt66 c) :
    x117 c = x116 c / 2 ^ 30 ∧ 0 ≤ x117 c ∧ x117 c ≤ 65 := by
  have s116 := x116_spec c h
  simp only [x117, u64, u32, shr30]
  omega

theorem x118_spec (c : Coeffs) (h : CoeffsLt66 c) :
    x118 c = x116 c % 2 ^ 30 ∧ 0 ≤ x118 c ∧ x118 c ≤ 1073741823 := by
  have s116 := x116_spec c h
  unfold x118
  rw [band30 _ (u32_nonneg _)]
  simp only [u32]
  omega

theorem x119_spec (c : Coeffs) (h : CoeffsLt66 c) :
    x119 c = x114 c + x70 c + x117 c ∧ 0 ≤ x119 c ∧ x119 c ≤ 1073741953 := by
  have s114 := x114_spec c h
  have s70 := x70_spec c h
  have s117 := x117_spec c h
  simp only [x119, u64, u32]
  omega

theorem x120_spec (c : Coeffs) (h : CoeffsLt66 c) :
    x120 c = x119 c / 2 ^ 30 ∧ 0 ≤ x120 c ∧ x120 c ≤ 1 := by
  have s119 := x119_spec c h
  simp only [x120, u64, u32, shr30]
  omega

theorem x121_spec (c : Coeffs) (h : CoeffsLt66 c) :
    x121 c = x119 c % 2 ^ 30 ∧ 0 ≤ x121 c ∧ x121 c ≤ 1073741823 := by
  have s119 := x119_spec c h
  unfold x121
  rw [band30 _ (s119).2.1]
  simp only [u32]
  omega

theorem x122_spec (c : Coeffs) (h : CoeffsLt66 c) :
    x122 c = x73 c + x117 c ∧ 0 ≤ x122 c ∧ x122 c ≤ 1073741888 := by
  have s73 := x73_spec c h
  have s117 := x117_spec c h
  simp only [x122, u64, u32]
  omega

theorem x123_spec (c : Coeffs) (h : CoeffsLt66 c) :
    x123 c = x122 c / 2 ^ 30 ∧ 0 ≤ x123 c ∧ x123 c ≤ 1 := by
  have s122 := x122_spec c h
  simp only [x123, u64, u32, shr30]
  omega

theorem x124_spec (c : Coeffs) (h : CoeffsLt66 c) :
    x124 c = x122 c % 2 ^ 30 ∧ 0 ≤ x124 c ∧ x124 c ≤ 1073741823 := by
  have s122 := x122_spec c h
  unfold x124
  rw [band30 _ (s122).2.1]
  simp only [u32]
  omega

theorem x53_split (c : Coeffs) (h : CoeffsLt66 c) :
    c.x53 = 2 ^ 30 * x61 c + x62 c := by
  have s61 := x61_spec c h
  have s62 := x62_spec c h
  omega

theorem x38_split (c : Coeffs) (h : CoeffsLt66 c) :
    c.x38 = 2 ^ 30 * x63 c + x64 c := by
  have s63 := x63_spec c h
  have s64 := x64_spec c h
  omega

theorem x65_split (c : Coeffs) (h : CoeffsLt66 c) :
    x65 c = 2 ^ 30 * x66 c + x67 c := by
  have s65 := x65_spec c h
  have s66 := x66_spec c h
  have s67 := x67_spec c h
  omega

theorem x68_split (c : Coeffs) (h : CoeffsLt66 c) :
    x68 c = 2 ^ 30 * x69 c + x70 c := by
  have s68 := x68_spec c h
  have s69 := x69_spec c h
  have s70 := x70_spec c h
  omega

theorem x71_split (c : Coeffs) (h : CoeffsLt66 c) :
    x71 c = 2 ^ 30 * x72 c + x73 c := by
  have s71 := x71_spec c h
  have s72 := x72_spec c h
  have s73 := x73_spec c h
  omega

theorem x74_split (c : Coeffs) (h : CoeffsLt66 c) :
    x74 c = 2 ^ 30 * x75 c + x76 c := by
  have s74 := x74_spec c h
  have s75 := x75_spec c h
  have s76 := x76_spec c h
  omega

theorem x77_split (c : Coeffs) (h : CoeffsLt66 c) :
    x77 c = 2 ^ 30 * x78 c + x79 c := by
  have s77 := x77_spec c h
  have s78 := x78_spec c h
  have s79 := x79_spec c h
  omega

theorem x80_split (c : Coeffs) (h : CoeffsLt66 c) :
    x80 c = 2 ^ 30 * x81 c + x82 c := by
  have s80 := x80_spec c h
  have s81 := x81_spec c h
  have s82 := x82_spec c h
  omega

theorem x83_split (c : Coeffs) (h : CoeffsLt66 c) :
    x83 c = 2 ^ 30 * x84 c + x85 c := by
  have s83 := x83_spec c h
  have s84 := x84_spec c h
  have s85 := x85_spec c h
  omega

theorem x86_split (c : Coeffs) (h : CoeffsLt66 c) :
    x86 c = 2 ^ 30 * x87 c + x88 c := by
  have s86 := x86_spec c h
  have s87 := x87_spec c h
  have s88 := x88_spec c h
  omega

theorem x89_split (c : Coeffs) (h : CoeffsLt66 c) :
    x89 c = 2 ^ 30 * x90 c + x91 c := by
  have s89 := x89_spec c h
  have s90 := x90_spec c h
  have s91 := x91_spec c h
  omega

theorem x92_split (c : Coeffs) (h : CoeffsLt66 c) :
    x92 c = 2 ^ 30 * x93 c + x94 c := by
  have s92 := x92_spec c h
  have s93 := x93_spec c h
  have s94 := x94_spec c h
  omega

theorem x95_split (c : Coeffs) (h : CoeffsLt66 c) :
    x95 c = 2 ^ 30 * x96 c + x97 c := by
  have s95 := x95_spec c h
  have s96 := x96_spec c h
  have s97 := x97_spec c h
  omega

theorem x98_split (c : Coeffs) (h : CoeffsLt66 c) :
    x98 c = 2 ^ 30 * x99 c + x100 c := by
  have s98 := x98_spec c h
  have s99 := x99_spec c h
  have s100 := x100_spec c h
  omega

theorem x101_split (c : Coeffs) (h : CoeffsLt66 c) :
    x101 c = 2 ^ 30 * x102 c + x103 c := by
  have s101 := x101_spec c h
  have s102 := x102_spec c h
  have s103 := x103_spec c h
  omega

theorem x104_split (c : Coeffs) (h : CoeffsLt66 c) :
    x104 c = 2 ^ 30 * x105 c + x106 c := by
  have s104 := x104_spec c h
  have s105 := x105_spec c h
  have s106 := x106_spec c h
  omega

theorem x107_split (c : Coeffs) (h : CoeffsLt66 c) :
    x107 c = 2 ^ 30 * x108 c + x109 c := by
  have s107 := x107_spec c h
  have s108 := x108_spec c h
  have s109 := x109_spec c h
  omega

theorem x110_split (c : Coeffs) (h : CoeffsLt66 c) :
    x110 c = 2 ^ 30 * x111 c + x112 c := by
  have s110 := x110_spec c h
  have s111 := x111_spec c h
  have s112 := x112_spec c h
  omega

theorem x113_split (c : Coeffs) (h : CoeffsLt66 c) :
    x113 c = 2 ^ 30 * x114 c + x115 c := by
  have s113 := x113_spec c h
  have s114 := x114_spec c h
  have s115 := x115_spec c h
  omega

theorem x116_split (c : Coeffs) (h : CoeffsLt66 c) :
    x116 c = 2 ^ 30 * x117 c + x118 c := by
  have s116 := x116_spec c h
  have s117 := x117_spec c h
  have s118 := x118_spec c h
  omega

theorem x119_split (c : Coeffs) (h : CoeffsLt66 c) :
    x119 c = 2 ^ 30 * x120 c + x121 c := by
  have s119 := x119_spec c h
  have s120 := x120_spec c h
  have s121 := x121_spec c h
  omega

theorem x122_split (c : Coeffs) (h : CoeffsLt66 c) :
    x122 c = 2 ^ 30 * x123 c + x124 c := by
  have s122 := x122_spec c h
  have s123 := x123_spec c h
  have s124 := x124_spec c h
  omega

theorem out6_eq (c : Coeffs) (h : CoeffsLt66 c) : u32 (x120 c + x76 c) = x120 c + x76 c := by
  have s120 := x120_spec c h
  have s76 := x76_spec c h
  unfold u32
  omega

theorem out14_eq (c : Coeffs) (h : CoeffsLt66 c) : u32 (x123 c + x79 c) = x123 c + x79 c := by
  have s123 := x123_spec c h
  have s79 := x79_spec c h
  unfold u32
  omega

theorem carry_value (c : Coeffs) (h : CoeffsLt66 c) :
    outValue (carryOut c) = evalLimbs 30 c.toList.reverse - (x66 c + x117 c) * p := by
  have e53 := x53_split c h
  have e38 := x38_split c h
  have e65 := x65_split c h
  have e68 := x68_split c h
  have e71 := x71_split c h
  have e74 := x74_split c h
  have e77 := x77_split c h
  have e80 := x80_split c h
  have e83 := x83_split c h
  have e86 := x86_split c h
  have e89 := x89_split c h
  have e92 := x92_split c h
  have e95 := x95_split c h
  have e98 := x98_split c h
  have e101 := x101_split c h
  have e104 := x104_split c h
  have e107 := x107_split c h
  have e110 := x110_split c h
  have e113 := x113_split c h
  have e116 := x116_split c h
  have e119 := x119_split c h
  have e122 := x122_split c h
  have d65 := (x65_spec c h).1
  have d68 := (x68_spec c h).1
  have d71 := (x71_spec c h).1
  have d74 := (x74_spec c h).1
  have d77 := (x77_spec c h).1
  have d80 := (x80_spec c h).1
  have d83 := (x83_spec c h).1
  have d86 := (x86_spec c h).1
  have d89 := (x89_spec c h).1
  have d92 := (x92_spec c h).1
  have d95 := (x95_spec c h).1
  have d98 := (x98_spec c h).1
  have d101 := (x101_spec c h).1
  have d104 := (x104_spec c h).1
  have d107 := (x107_spec c h).1
  have d110 := (x110_spec c h).1
  have d113 := (x113_spec c h).1
  have d116 := (x116_spec c h).1
  have d119 := (x119_spec c h).1
  have d122 := (x122_spec c h).1
  simp only [outValue, carryOut, Coeffs.toList, List.reverse, List.reverseAux, evalLimbs, p,
    out6_eq c h, out14_eq c h]
  omega

theorem coeffsLt30_iff (c : Coeffs) : CoeffsLt30 c ↔
    ((0 ≤ c.x38 ∧ c.x38 < 2 ^ 30) ∧ (0 ≤ c.x46 ∧ c.x46 < 2 ^ 30) ∧
    (0 ≤ c.x47 ∧ c.x47 < 2 ^ 30) ∧ (0 ≤ c.x48 ∧ c.x48 < 2 ^ 30) ∧
    (0 ≤ c.x49 ∧ c.x49 < 2 ^ 30) ∧ (0 ≤ c.x50 ∧ c.x50 < 2 ^ 30) ∧
    (0 ≤ c.x51 ∧ c.x51 < 2 ^ 30) ∧ (0 ≤ c.x52 ∧ c.x52 < 2 ^ 30) ∧
    (0 ≤ c.x53 ∧ c.x53 < 2 ^ 30) ∧ (0 ≤ c.x54 ∧ c.x54 < 2 ^ 30) ∧
    (0 ≤ c.x55 ∧ c.x55 < 2 ^ 30) ∧ (0 ≤ c.x56 ∧ c.x56 < 2 ^ 30) ∧
    (0 ≤ c.x57 ∧ c.x57 < 2 ^ 30) ∧ (0 ≤ c.x58 ∧ c.x58 < 2 ^ 30) ∧
    (0 ≤ c.x59 ∧ c.x59 < 2 ^ 30) ∧ (0 ≤ c.x60 ∧ c.x60 < 2 ^ 30)) := by
  simp only [CoeffsLt30, Coeffs.toList, List.forall_mem_cons, List.mem_singleton, forall_eq,
    List.not_mem_nil, false_imp_iff, implies_true, and_true]

theorem coeffsLt66_of_lt30 (c : Coeffs) (ht : CoeffsLt30 c) : CoeffsLt66 c :=
  fun x hx => ⟨(ht x hx).1, lt_trans (ht x hx).2 (by norm_num)⟩

theorem x61_tight (c : Coeffs) (ht : CoeffsLt30 c) : x61 c = 0 := by
  obtain ⟨h38, h46, h47, h48, h49, h50, h51, h52, h53, h54, h55, h56, h57, h58, h59, h60⟩ :=
    (coeffsLt30_iff c).1 ht
  have s := (x61_spec c (coeffsLt66_of_lt30 c ht)).1
  omega

theorem x62_tight (c : Coeffs) (ht : CoeffsLt30 c) : x62 c = c.x53 := by
  obtain ⟨h38, h46, h47, h48, h49, h50, h51, h52, h53, h54, h55, h56, h57, h58, h59, h60⟩ :=
    (coeffsLt30_iff c).1 ht
  have s := (x62_spec c (coeffsLt66_of_lt30 c ht)).1
  omega

theorem x63_tight (c : Coeffs) (ht : CoeffsLt30 c) : x63 c = 0 := by
  obtain ⟨h38, h46, h47, h48, h49, h50, h51, h52, h53, h54, h55, h56, h57, h58, h59, h60⟩ :=
    (coeffsLt30_iff c).1 ht
  have s := (x63_spec c (coeffsLt66_of_lt30 c ht)).1
  omega

theorem x64_tight (c : Coeffs) (ht : CoeffsLt30 c) : x64 c = c.x38 := by
  obtain ⟨h38, h46, h47, h48, h49, h50, h51, h52, h53, h54, h55, h56, h57, h58, h59, h60⟩ :=
    (coeffsLt30_iff c).1 ht
  have s := (x64_spec c (coeffsLt66_of_lt30 c ht)).1
  omega

theorem x65_tight (c : Coeffs) (ht : CoeffsLt30 c) : x65 c = c.x38 := by
  obtain ⟨h38, h46, h47, h48, h49, h50, h51, h52, h53, h54, h55, h56, h57, h58, h59, h60⟩ :=
    (coeffsLt30_iff c).1 ht
  have s := (x65_spec c (coeffsLt66_of_lt30 c ht)).1
  have t63 := x63_tight c ht
  have t64 := x64_tight c ht
  omega

theorem x66_tight (c : Coeffs) (ht : CoeffsLt30 c) : x66 c = 0 := by
  obtain ⟨h38, h46, h47, h48, h49, h50, h51, h52, h53, h54, h55, h56, h57, h58, h59, h60⟩ :=
    (coeffsLt30_iff c).1 ht
  have s := (x66_spec c (coeffsLt66_of_lt30 c ht)).1
  have t65 := x65_tight c ht
  omega

theorem x67_tight (c : Coeffs) (ht : CoeffsLt30 c) : x67 c = c.x38 := by
  obtain ⟨h38, h46, h47, h48, h49, h50, h51, h52, h53, h54, h55, h56, h57, h58, h59, h60⟩ :=
    (coeffsLt30_iff c).1 ht
  have s := (x67_spec c (coeffsLt66_of_lt30 c ht)).1
  have t65 := x65_tight c ht
  omega

theorem x68_tight (c : Coeffs) (ht : CoeffsLt30 c) : x68 c = c.x52 := by
  obtain ⟨h38, h46, h47, h48, h49, h50, h51, h52, h53, h54, h55, h56, h57, h58, h59, h60⟩ :=
    (coeffsLt30_iff c).1 ht
  have s := (x68_spec c (coeffsLt66_of_lt30 c ht)).1
  have t61 := x61_tight c ht
  have t66 := x66_tight c ht
  omega

theorem x69_tight (c : Coeffs) (ht : CoeffsLt30 c) : x69 c = 0 := by
  obtain ⟨h38, h46, h47, h48, h49, h50, h51, h52, h53, h54, h55, h56, h57, h58, h59, h60⟩ :=
    (coeffsLt30_iff c).1 ht
  have s := (x69_spec c (coeffsLt66_of_lt30 c ht)).1
  have t68 := x68_tight c ht
  omega

theorem x70_tight (c : Coeffs) (ht : CoeffsLt30 c) : x70 c = c.x52 := by
  obtain ⟨h38, h46, h47, h48, h49, h50, h51, h52, h53, h54, h55, h56, h57, h58, h59, h60⟩ :=
    (coeffsLt30_iff c).1 ht
  have s := (x70_spec c (coeffsLt66_of_lt30 c ht)).1
  have t68 := x68_tight c ht
  omega

theorem x71_tight (c : Coeffs) (ht : CoeffsLt30 c) : x71 c = c.x60 := by
  obtain ⟨h38, h46, h47, h48, h49, h50, h51, h52, h53, h54, h55, h56, h57, h58, h59, h60⟩ :=
    (coeffsLt30_iff c).1 ht
  have s := (x71_spec c (coeffsLt66_of_lt30 c ht)).1
  have t66 := x66_tight c ht
  omega

theorem x72_tight (c : Coeffs) (ht : CoeffsLt30 c) : x72 c = 0 := by
  obtain ⟨h38, h46, h47, h48, h49, h50, h51, h52, h53, h54, h55, h56, h57, h58, h59, h60⟩ :=
    (coeffsLt30_iff c).1 ht
  have s := (x72_spec c (coeffsLt66_of_lt30 c ht)).1
  have t71 := x71_tight c ht
  omega

theorem x73_tight (c : Coeffs) (ht : CoeffsLt30 c) : x73 c = c.x60 := by
  obtain ⟨h38, h46, h47, h48, h49, h50, h51, h52, h53, h54, h55, h56, h57, h58, h59, h60⟩ :=
    (coeffsLt30_iff c).1 ht
  have s := (x73_spec c (coeffsLt66_of_lt30 c ht)).1
  have t71 := x71_tight c ht
  omega

theorem x74_tight (c : Coeffs) (ht : CoeffsLt30 c) : x74 c = c.x51 := by
  obtain ⟨h38, h46, h47, h48, h49, h50, h51, h52, h53, h54, h55, h56, h57, h58, h59, h60⟩ :=
    (coeffsLt30_iff c).1 ht
  have s := (x74_spec c (coeffsLt66_of_lt30 c ht)).1
  have t69 := x69_tight c ht
  omega

theorem x75_tight (c : Coeffs) (ht : CoeffsLt30 c) : x75 c = 0 := by
  obtain ⟨h38, h46, h47, h48, h49, h50, h51, h52, h53, h54, h55, h56, h57, h58, h59, h60⟩ :=
    (coeffsLt30_iff c).1 ht
  have s := (x75_spec c (coeffsLt66_of_lt30 c ht)).1
  have t74 := x74_tight c ht
  omega

theorem x76_tight (c : Coeffs) (ht : CoeffsLt30 c) : x76 c = c.x51 := by
  obtain ⟨h38, h46, h47, h48, h49, h50, h51, h52, h53, h54, h55, h56, h57, h58, h59, h60⟩ :=
    (coeffsLt30_iff c).1 ht
  have s := (x76_spec c (coeffsLt66_of_lt30 c ht)).1
  have t74 := x74_tight c ht
  omega

theorem x77_tight (c : Coeffs) (ht : CoeffsLt30 c) : x77 c = c.x59 := by
  obtain ⟨h38, h46, h47, h48, h49, h50, h51, h52, h53, h54, h55, h56, h57, h58, h59, h60⟩ :=
    (coeffsLt30_iff c).1 ht
  have s := (x77_spec c (coeffsLt66_of_lt30 c ht)).1
  have t72 := x72_tight c ht
  omega

theorem x78_tight (c : Coeffs) (ht : CoeffsLt30 c) : x78 c = 0 := by
  obtain ⟨h38, h46, h47, h48, h49, h50, h51, h52, h53, h54, h55, h56, h57, h58, h59, h60⟩ :=
    (coeffsLt30_iff c).1 ht
  have s := (x78_spec c (coeffsLt66_of_lt30 c ht)).1
  have t77 := x77_tight c ht
  omega

theorem x79_tight (c : Coeffs) (ht : CoeffsLt30 c) : x79 c = c.x59 := by
  obtain ⟨h38, h46, h47, h48, h49, h50, h51, h52, h53, h54, h55, h56, h57, h58, h59, h60⟩ :=
    (coeffsLt30_iff c).1 ht
  have s := (x79_spec c (coeffsLt66_of_lt30 c ht)).1
  have t77 := x77_tight c ht
  omega

theorem x80_tight (c : Coeffs) (ht : CoeffsLt30 c) : x80 c = c.x50 := by
  obtain ⟨h38, h46, h47, h48, h49, h50, h51, h52, h53, h54, h55, h56, h57, h58, h59, h60⟩ :=
    (coeffsLt30_iff c).1 ht
  have s := (x80_spec c (coeffsLt66_of_lt30 c ht)).1
  have t75 := x75_tight c ht
  omega

theorem x81_tight (c : Coeffs) (ht : CoeffsLt30 c) : x81 c = 0 := by
  obtain ⟨h38, h46, h47, h48, h49, h50, h51, h52, h53, h54, h55, h56, h57, h58, h59, h60⟩ :=
    (coeffsLt30_iff c).1 ht
  have s := (x81_spec c (coeffsLt66_of_lt30 c ht)).1
  have t80 := x80_tight c ht
  omega

theorem x82_tight (c : Coeffs) (ht : CoeffsLt30 c) : x82 c = c.x50 := by
  obtain ⟨h38, h46, h47, h48, h49, h50, h51, h52, h53, h54, h55, h56, h57, h58, h59, h60⟩ :=
    (coeffsLt30_iff c).1 ht
  have s := (x82_spec c (coeffsLt66_of_lt30 c ht)).1
  have t80 := x80_tight c ht
  omega

theorem x83_tight (c : Coeffs) (ht : CoeffsLt30 c) : x83 c = c.x58 := by
  obtain ⟨h38, h46, h47, h48, h49, h50, h51, h52, h53, h54, h55, h56, h57, h58, h59, h60⟩ :=
    (coeffsLt30_iff c).1 ht
  have s := (x83_spec c (coeffsLt66_of_lt30 c ht)).1
  have t78 := x78_tight c ht
  omega

theorem x84_tight (c : Coeffs) (ht : CoeffsLt30 c) : x84 c = 0 := by
  obtain ⟨h38, h46, h47, h48, h49, h50, h51, h52, h53, h54, h55, h56, h57, h58, h59, h60⟩ :=
    (coeffsLt30_iff c).1 ht
  have s := (x84_spec c (coeffsLt66_of_lt30 c ht)).1
  have t83 := x83_tight c ht
  omega

theorem x85_tight (c : Coeffs) (ht : CoeffsLt30 c) : x85 c = c.x58 := by
  obtain ⟨h38, h46, h47, h48, h49, h50, h51, h52, h53, h54, h55, h56, h57, h58, h59, h60⟩ :=
    (coeffsLt30_iff c).1 ht
  have s := (x85_spec c (coeffsLt66_of_lt30 c ht)).1
  have t83 := x83_tight c ht
  omega

theorem x86_tight (c : Coeffs) (ht : CoeffsLt30 c) : x86 c = c.x49 := by
  obtain ⟨h38, h46, h47, h48, h49, h50, h51, h52, h53, h54, h55, h56, h57, h58, h59, h60⟩ :=
    (coeffsLt30_iff c).1 ht
  have s := (x86_spec c (coeffsLt66_of_lt30 c ht)).1
  have t81 := x81_tight c ht
  omega

theorem x87_tight (c : Coeffs) (ht : CoeffsLt30 c) : x87 c = 0 := by
  obtain ⟨h38, h46, h47, h48, h49, h50, h51, h52, h53, h54, h55, h56, h57, h58, h59, h60⟩ :=
    (coeffsLt30_iff c).1 ht
  have s := (x87_spec c (coeffsLt66_of_lt30 c ht)).1
  have t86 := x86_tight c ht
  omega

theorem x88_tight (c : Coeffs) (ht : CoeffsLt30 c) : x88 c = c.x49 := by
  obtain ⟨h38, h46, h47, h48, h49, h50, h51, h52, h53, h54, h55, h56, h57, h58, h59, h60⟩ :=
    (coeffsLt30_iff c).1 ht
  have s := (x88_spec c (coeffsLt66_of_lt30 c ht)).1
  have t86 := x86_tight c ht
  omega

theorem x89_tight (c : Coeffs) (ht : CoeffsLt30 c) : x89 c = c.x57 := by
  obtain ⟨h38, h46, h47, h48, h49, h50, h51, h52, h53, h54, h55, h56, h57, h58, h59, h60⟩ :=
    (coeffsLt30_iff c).1 ht
  have s := (x89_spec c (coeffsLt66_of_lt30 c ht)).1
  have t84 := x84_tight c ht
  omega

theorem x90_tight (c : Coeffs) (ht : CoeffsLt30 c) : x90 c = 0 := by
  obtain ⟨h38, h46, h47, h48, h49, h50, h51, h52, h53, h54, h55, h56, h57, h58, h59, h60⟩ :=
    (coeffsLt30_iff c).1 ht
  have s := (x90_spec c (coeffsLt66_of_lt30 c ht)).1
  have t89 := x89_tight c ht
  omega

theorem x91_tight (c : Coeffs) (ht : CoeffsLt30 c) : x91 c = c.x57 := by
  obtain ⟨h38, h46, h47, h48, h49, h50, h51, h52, h53, h54, h55, h56, h57, h58, h59, h60⟩ :=
    (coeffsLt30_iff c).1 ht
  have s := (x91_spec c (coeffsLt66_of_lt30 c ht)).1
  have t89 := x89_tight c ht
  omega

theorem x92_tight (c : Coeffs) (ht : CoeffsLt30 c) : x92 c = c.x48 := by
  obtain ⟨h38, h46, h47, h48, h49, h50, h51, h52, h53, h54, h55, h56, h57, h58, h59, h60⟩ :=
    (coeffsLt30_iff c).1 ht
  have s := (x92_spec c (coeffsLt66_of_lt30 c ht)).1
  have t87 := x87_tight c ht
  omega

theorem x93_tight (c : Coeffs) (ht : CoeffsLt30 c) : x93 c = 0 := by
  obtain ⟨h38, h46, h47, h48, h49, h50, h51, h52, h53, h54, h55, h56, h57, h58, h59, h60⟩ :=
    (coeffsLt30_iff c).1 ht
  have s := (x93_spec c (coeffsLt66_of_lt30 c ht)).1
  have t92 := x92_tight c ht
  omega

theorem x94_tight (c : Coeffs) (ht : CoeffsLt30 c) : x94 c = c.x48 := by
  obtain ⟨h38, h46, h47, h48, h49, h50, h51, h52, h53, h54, h55, h56, h57, h58, h59, h60⟩ :=
    (coeffsLt30_iff c).1 ht
  have s := (x94_spec c (coeffsLt66_of_lt30 c ht)).1
  have t92 := x92_tight c ht
  omega

theorem x95_tight (c : Coeffs) (ht : CoeffsLt30 c) : x95 c = c.x56 := by
  obtain ⟨h38, h46, h47, h48, h49, h50, h51, h52, h53, h54, h55, h56, h57, h58, h59, h60⟩ :=
    (coeffsLt30_iff c).1 ht
  have s := (x95_spec c (coeffsLt66_of_lt30 c ht)).1
  have t90 := x90_tight c ht
  omega

theorem x96_tight (c : Coeffs) (ht : CoeffsLt30 c) : x96 c = 0 := by
  obtain ⟨h38, h46, h47, h48, h49, h50, h51, h52, h53, h54, h55, h56, h57, h58, h59, h60⟩ :=
    (coeffsLt30_iff c).1 ht
  have s := (x96_spec c (coeffsLt66_of_lt30 c ht)).1
  have t95 := x95_tight c ht
  omega

theorem x97_tight (c : Coeffs) (ht : CoeffsLt30 c) : x97 c = c.x56 := by
  obtain ⟨h38, h46, h47, h48, h49, h50, h51, h52, h53, h54, h55, h56, h57, h58, h59, h60⟩ :=
    (coeffsLt30_iff c).1 ht
  have s := (x97_spec c (coeffsLt66_of_lt30 c ht)).1
  have t95 := x95_tight c ht
  omega

theorem x98_tight (c : Coeffs) (ht : CoeffsLt30 c) : x98 c = c.x47 := by
  obtain ⟨h38, h46, h47, h48, h49, h50, h51, h52, h53, h54, h55, h56, h57, h58, h59, h60⟩ :=
    (coeffsLt30_iff c).1 ht
  have s := (x98_spec c (coeffsLt66_of_lt30 c ht)).1
  have t93 := x93_tight c ht
  omega

theorem x99_tight (c : Coeffs) (ht : CoeffsLt30 c) : x99 c = 0 := by
  obtain ⟨h38, h46, h47, h48, h49, h50, h51, h52, h53, h54, h55, h56, h57, h58, h59, h60⟩ :=
    (coeffsLt30_iff c).1 ht
  have s := (x99_spec c (coeffsLt66_of_lt30 c ht)).1
  have t98 := x98_tight c ht
  omega

theorem x100_tight (c : Coeffs) (ht : CoeffsLt30 c) : x100 c = c.x47 := by
  obtain ⟨h38, h46, h47, h48, h49, h50, h51, h52, h53, h54, h55, h56, h57, h58, h59, h60⟩ :=
    (coeffsLt30_iff c).1 ht
  have s := (x100_spec c (coeffsLt66_of_lt30 c ht)).1
  have t98 := x98_tight c ht
  omega

theorem x101_tight (c : Coeffs) (ht : CoeffsLt30 c) : x101 c = c.x55 := by
  obtain ⟨h38, h46, h47, h48, h49, h50, h51, h52, h53, h54, h55, h56, h57, h58, h59, h60⟩ :=
    (coeffsLt30_iff c).1 ht
  have s := (x101_spec c (coeffsLt66_of_lt30 c ht)).1
  have t96 := x96_tight c ht
  omega

theorem x102_tight (c : Coeffs) (ht : CoeffsLt30 c) : x102 c = 0 := by
  obtain ⟨h38, h46, h47, h48, h49, h50, h51, h52, h53, h54, h55, h56, h57, h58, h59, h60⟩ :=
    (coeffsLt30_iff c).1 ht
  have s := (x102_spec c (coeffsLt66_of_lt30 c ht)).1
  have t101 := x101_tight c ht
  omega

theorem x103_tight (c : Coeffs) (ht : CoeffsLt30 c) : x103 c = c.x55 := by
  obtain ⟨h38, h46, h47, h48, h49, h50, h51, h52, h53, h54, h55, h56, h57, h58, h59, h60⟩ :=
    (coeffsLt30_iff c).1 ht
  have s := (x103_spec c (coeffsLt66_of_lt30 c ht)).1
  have t101 := x101_tight c ht
  omega

theorem x104_tight (c : Coeffs) (ht : CoeffsLt30 c) : x104 c = c.x46 := by
  obtain ⟨h38, h46, h47, h48, h49, h50, h51, h52, h53, h54, h55, h56, h57, h58, h59, h60⟩ :=
    (coeffsLt30_iff c).1 ht
  have s := (x104_spec c (coeffsLt66_of_lt30 c ht)).1
  have t99 := x99_tight c ht
  omega

theorem x105_tight (c : Coeffs) (ht : CoeffsLt30 c) : x105 c = 0 := by
  obtain ⟨h38, h46, h47, h48, h49, h50, h51, h52, h53, h54, h55, h56, h57, h58, h59, h60⟩ :=
    (coeffsLt30_iff c).1 ht
  have s := (x105_spec c (coeffsLt66_of_lt30 c ht)).1
  have t104 := x104_tight c ht
  omega

theorem x106_tight (c : Coeffs) (ht : CoeffsLt30 c) : x106 c = c.x46 := by
  obtain ⟨h38, h46, h47, h48, h49, h50, h51, h52, h53, h54, h55, h56, h57, h58, h59, h60⟩ :=
    (coeffsLt30_iff c).1 ht
  have s := (x106_spec c (coeffsLt66_of_lt30 c ht)).1
  have t104 := x104_tight c ht
  omega

theorem x107_tight (c : Coeffs) (ht : CoeffsLt30 c) : x107 c = c.x54 := by
  obtain ⟨h38, h46, h47, h48, h49, h50, h51, h52, h53, h54, h55, h56, h57, h58, h59, h60⟩ :=
    (coeffsLt30_iff c).1 ht
  have s := (x107_spec c (coeffsLt66_of_lt30 c ht)).1
  have t102 := x102_tight c ht
  omega

theorem x108_tight (c : Coeffs) (ht : CoeffsLt30 c) : x108 c = 0 := by
  obtain ⟨h38, h46, h47, h48, h49, h50, h51, h52, h53, h54, h55, h56, h57, h58, h59, h60⟩ :=
    (coeffsLt30_iff c).1 ht
  have s := (x108_spec c (coeffsLt66_of_lt30 c ht)).1
  have t107 := x107_tight c ht
  omega

theorem x109_tight (c : Coeffs) (ht : CoeffsLt30 c) : x109 c = c.x54 := by
  obtain ⟨h38, h46, h47, h48, h49, h50, h51, h52, h53, h54, h55, h56, h57, h58, h59, h60⟩ :=
    (coeffsLt30_iff c).1 ht
  have s := (x109_spec c (coeffsLt66_of_lt30 c ht)).1
  have t107 := x107_tight c ht
  omega

theorem x110_tight (c : Coeffs) (ht : CoeffsLt30 c) : x110 c = c.x38 := by
  obtain ⟨h38, h46, h47, h48, h49, h50, h51, h52, h53, h54, h55, h56, h57, h58, h59, h60⟩ :=
    (coeffsLt30_iff c).1 ht
  have s := (x110_spec c (coeffsLt66_of_lt30 c ht)).1
  have t105 := x105_tight c ht
  have t67 := x67_tight c ht
  omega

theorem x111_tight (c : Coeffs) (ht : CoeffsLt30 c) : x111 c = 0 := by
  obtain ⟨h38, h46, h47, h48, h49, h50, h51, h52, h53, h54, h55, h56, h57, h58, h59, h60⟩ :=
    (coeffsLt30_iff c).1 ht
  have s := (x111_spec c (coeffsLt66_of_lt30 c ht)).1
  have t110 := x110_tight c ht
  omega

theorem x112_tight (c : Coeffs) (ht : CoeffsLt30 c) : x112 c = c.x38 := by
  obtain ⟨h38, h46, h47, h48, h49, h50, h51, h52, h53, h54, h55, h56, h57, h58, h59, h60⟩ :=
    (coeffsLt30_iff c).1 ht
  have s := (x112_spec c (coeffsLt66_of_lt30 c ht)).1
  have t110 := x110_tight c ht
  omega

theorem x113_tight (c : Coeffs) (ht : CoeffsLt30 c) : x113 c = c.x53 := by
  obtain ⟨h38, h46, h47, h48, h49, h50, h51, h52, h53, h54, h55, h56, h57, h58, h59, h60⟩ :=
    (coeffsLt30_iff c).1 ht
  have s := (x113_spec c (coeffsLt66_of_lt30 c ht)).1
  have t108 := x108_tight c ht
  have t62 := x62_tight c ht
  omega

theorem x114_tight (c : Coeffs) (ht : CoeffsLt30 c) : x114 c = 0 := by
  obtain ⟨h38, h46, h47, h48, h49, h50, h51, h52, h53, h54, h55, h56, h57, h58, h59, h60⟩ :=
    (coeffsLt30_iff c).1 ht
  have s := (x114_spec c (coeffsLt66_of_lt30 c ht)).1
  have t113 := x113_tight c ht
  omega

theorem x115_tight (c : Coeffs) (ht : CoeffsLt30 c) : x115 c = c.x53 := by
  obtain ⟨h38, h46, h47, h48, h49, h50, h51, h52, h53, h54, h55, h56, h57, h58, h59, h60⟩ :=
    (coeffsLt30_iff c).1 ht
  have s := (x115_spec c (coeffsLt66_of_lt30 c ht)).1
  have t113 := x113_tight c ht
  omega

theorem x116_tight (c : Coeffs) (ht : CoeffsLt30 c) : x116 c = c.x38 := by
  obtain ⟨h38, h46, h47, h48, h49, h50, h51, h52, h53, h54, h55, h56, h57, h58, h59, h60⟩ :=
    (coeffsLt30_iff c).1 ht
  have s := (x116_spec c (coeffsLt66_of_lt30 c ht)).1
  have t111 := x111_tight c ht
  have t112 := x112_tight c ht
  omega

theorem x117_tight (c : Coeffs) (ht : CoeffsLt30 c) : x117 c = 0 := by
  obtain ⟨h38, h46, h47, h48, h49, h50, h51, h52, h53, h54, h55, h56, h57, h58, h59, h60⟩ :=
    (coeffsLt30_iff c).1 ht
  have s := (x117_spec c (coeffsLt66_of_lt30 c ht)).1
  have t116 := x116_tight c ht
  omega

theorem x118_tight (c : Coeffs) (ht : CoeffsLt30 c) : x118 c = c.x38 := by
  obtain ⟨h38, h46, h47, h48, h49, h50, h51, h52, h53, h54, h55, h56, h57, h58, h59, h60⟩ :=
    (coeffsLt30_iff c).1 ht
  have s := (x118_spec c (coeffsLt66_of_lt30 c ht)).1
  have t116 := x116_tight c ht
  omega

theorem x119_tight (c : Coeffs) (ht : CoeffsLt30 c) : x119 c = c.x52 := by
  obtain ⟨h38, h46, h47, h48, h49, h50, h51, h52, h53, h54, h55, h56, h57, h58, h59, h60⟩ :=
    (coeffsLt30_iff c).1 ht
  have s := (x119_spec c (coeffsLt66_of_lt30 c ht)).1
  have t114 := x114_tight c ht
  have t70 := x70_tight c ht
  have t117 := x117_tight c ht
  omega

theorem x120_tight (c : Coeffs) (ht : CoeffsLt30 c) : x120 c = 0 := by
  obtain ⟨h38, h46, h47, h48, h49, h50, h51, h52, h53, h54, h55, h56, h57, h58, h59, h60⟩ :=
    (coeffsLt30_iff c).1 ht
  have s := (x120_spec c (coeffsLt66_of_lt30 c ht)).1
  have t119 := x119_tight c ht
  omega

theorem x121_tight (c : Coeffs) (ht : CoeffsLt30 c) : x121 c = c.x52 := by
  obtain ⟨h38, h46, h47, h48, h49, h50, h51, h52, h53, h54, h55, h56, h57, h58, h59, h60⟩ :=
    (coeffsLt30_iff c).1 ht
  have s := (x121_spec c (coeffsLt66_of_lt30 c ht)).1
  have t119 := x119_tight c ht
  omega

theorem x122_tight (c : Coeffs) (ht : CoeffsLt30 c) : x122 c = c.x60 := by
  obtain ⟨h38, h46, h47, h48, h49, h50, h51, h52, h53, h54, h55, h56, h57, h58, h59, h60⟩ :=
    (coeffsLt30_iff c).1 ht
  have s := (x122_spec c (coeffsLt66_of_lt30 c ht)).1
  have t73 := x73_tight c ht
  have t117 := x117_tight c ht
  omega

theorem x123_tight (c : Coeffs) (ht : CoeffsLt30 c) : x123 c = 0 := by
  obtain ⟨h38, h46, h47, h48, h49, h50, h51, h52, h53, h54, h55, h56, h57, h58, h59, h60⟩ :=
    (coeffsLt30_iff c).1 ht
  have s := (x123_spec c (coeffsLt66_of_lt30 c ht)).1
  have t122 := x122_tight c ht
  omega

theorem x124_tight (c : Coeffs) (ht : CoeffsLt30 c) : x124 c = c.x60 := by
  obtain ⟨h38, h46, h47, h48, h49, h50, h51, h52, h53, h54, h55, h56, h57, h58, h59, h60⟩ :=
    (coeffsLt30_iff c).1 ht
  have s := (x124_spec c (coeffsLt66_of_lt30 c ht)).1
  have t122 := x122_tight c ht
  omega

theorem carryOut_tight (c : Coeffs) (ht : CoeffsLt30 c) : carryOut c = c.toList := by
  obtain ⟨h38, h46, h47, h48, h49, h50, h51, h52, h53, h54, h55, h56, h57, h58, h59, h60⟩ :=
    (coeffsLt30_iff c).1 ht
  have e6 : u32 (x120 c + x76 c) = c.x51 := by
    rw [x120_tight c ht, x76_tight c ht]
    unfold u32
    omega
  have e14 : u32 (x123 c + x79 c) = c.x59 := by
    rw [x123_tight c ht, x79_tight c ht]
    unfold u32
    omega
  simp only [carryOut, Coeffs.toList, e6, e14, x118_tight c ht, x106_tight c ht, x100_tight c ht,
    x94_tight c ht, x88_tight c ht, x82_tight c ht, x121_tight c ht, x115_tight c ht,
    x109_tight c ht, x103_tight c ht, x97_tight c ht, x91_tight c ht, x85_tight c ht,
    x124_tight c ht]

theorem S_eq_single (a : Args) (m : Nat) :
    S a m = ∑ i in Finset.range 16,
      if i ≤ m ∧ m - i < 16 then limb a i * limb a (m - i) else 0 := by
  unfold S
  refine Finset.sum_congr rfl (fun i _ => ?_)
  by_cases hc : i ≤ m ∧ m - i < 16
  · rw [if_pos hc]
    have : ∀ j, (i + j = m) = (m - i = j) := by
      intro j
      apply propext
      omega
    simp only [this]
    rw [Finset.sum_ite_eq]
    rw [if_pos (Finset.mem_range.2 hc.2)]
  · rw [if_neg hc]
    refine Finset.sum_eq_zero (fun j hj => ?_)
    have hj16 := Finset.mem_range.1 hj
    rw [if_neg]
    omega

theorem S_0 (a : Args) : S a 0 = a.x2 * a.x2 := by
  rw [S_eq_single]
  simp only [Finset.sum_range_succ, Finset.sum_range_zero]
  simp [limb]

theorem S_1 (a : Args) : S a 1 = a.x2 * a.x4 + a.x4 * a.x2 := by
  rw [S_eq_single]
  simp only [Finset.sum_range_succ, Finset.sum_range_zero]
  simp [limb]

theorem S_2 (a : Args) : S a 2 = a.x2 * a.x6 + a.x4 * a.x4 + a.x6 * a.x2 := by
  rw [S_eq_single]
  simp only [Finset.sum_range_succ, Finset.sum_range_zero]
  simp [limb]

theorem S_3 (a : Args) : S a 3 = a.x2 * a.x8 + a.x4 * a.x6 + a.x6 * a.x4 + a.x8 * a.x2 := by
  rw [S_eq_single]
  simp only [Finset.sum_range_succ, Finset.sum_range_zero]
  simp [limb]

theorem S_4 (a : Args) : S a 4 = a.x2 * a.x10 + a.x4 * a.x8 + a.x6 * a.x6 + a.x8 * a.x4 + a.x10 * a.x2 := by
  rw [S_eq_single]
  simp only [Finset.sum_range_succ, Finset.sum_range_zero]
  simp [limb]

theorem S_5 (a : Args) : S a 5 = a.x2 * a.x12 + a.x4 * a.x10 + a.x6 * a.x8 + a.x8 * a.x6 + a.x10 * a.x4 + a.x12 * a.x2 := by
  rw [S_eq_single]
  simp only [Finset.sum_range_succ, Finset.sum_range_zero]
  simp [limb]

theorem S_6 (a : Args) : S a 6 = a.x2 * a.x14 + a.x4 * a.x12 + a.x6 * a.x10 + a.x8 * a.x8 + a.x10 * a.x6 + a.x12 * a.x4 + a.x14 * a.x2 := by
  rw [S_eq_single]
  simp only [Finset.sum_range_succ, Finset.sum_range_zero]
  simp [limb]

theorem S_7 (a : Args) : S a 7 = a.x2 * a.x16 + a.x4 * a.x14 + a.x6 * a.x12 + a.x8 * a.x10 + a.x10 * a.x8 + a.x12 * a.x6 + a.x14 * a.x4 + a.x16 * a.x2 := by
  rw [S_eq_single]
  simp only [Finset.sum_range_succ, Finset.sum_range_zero]
  simp [limb]

theorem S_8 (a : Args) : S a 8 = a.x2 * a.x18 + a.x4 * a.x16 + a.x6 * a.x14 + a.x8 * a.x12 + a.x10 * a.x10 + a.x12 * a.x8 + a.x14 * a.x6 + a.x16 * a.x4 + a.x18 * a.x2 := by
  rw [S_eq_single]
  simp only [Finset.sum_range_succ, Finset.sum_range_zero]
  simp [limb]

theorem S_9 (a : Args) : S a 9 = a.x2 * a.x20 + a.x4 * a.x18 + a.x6 * a.x16 + a.x8 * a.x14 + a.x10 * a.x12 + a.x12 * a.x10 + a.x14 * a.x8 + a.x16 * a.x6 + a.x18 * a.x4 + a.x20 * a.x2 := by
  rw [S_eq_single]
  simp only [Finset.sum_range_succ, Finset.sum_range_zero]
  simp [limb]

theorem S_10 (a : Args) : S a 10 = a.x2 * a.x22 + a.x4 * a.x20 + a.x6 * a.x18 + a.x8 * a.x16 + a.x10 * a.x14 + a.x12 * a.x12 + a.x14 * a.x10 + a.x16 * a.x8 + a.x18 * a.x6 + a.x20 * a.x4 + a.x22 * a.x2 := by
  rw [S_eq_single]
  simp only [Finset.sum_range_succ, Finset.sum_range_zero]
  simp [limb]

theorem S_11 (a : Args) : S a 11 = a.x2 * a.x24 + a.x4 * a.x22 + a.x6 * a.x20 + a.x8 * a.x18 + a.x10 * a.x16 + a.x12 * a.x14 + a.x14 * a.x12 + a.x16 * a.x10 + a.x18 * a.x8 + a.x20 * a.x6 + a.x22 * a.x4 + a.x24 * a.x2 := by
  rw [S_eq_single]
  simp only [Finset.sum_range_succ, Finset.sum_range_zero]
  simp [limb]

theorem S_12 (a : Args) : S a 12 = a.x2 * a.x26 + a.x4 * a.x24 + a.x6 * a.x22 + a.x8 * a.x20 + a.x10 * a.x18 + a.x12 * a.x16 + a.x14 * a.x14 + a.x16 * a.x12 + a.x18 * a.x10 + a.x20 * a.x8 + a.x22 * a.x6 + a.x24 * a.x4 + a.x26 * a.x2 := by
  rw [S_eq_single]
  simp only [Finset.sum_range_succ, Finset.sum_range_zero]
  simp [limb]

theorem S_13 (a : Args) : S a 13 = a.x2 * a.x28 + a.x4 * a.x26 + a.x6 * a.x24 + a.x8 * a.x22 + a.x10 * a.x20 + a.x12 * a.x18 + a.x14 * a.x16 + a.x16 * a.x14 + a.x18 * a.x12 + a.x20 * a.x10 + a.x22 * a.x8 + a.x24 * a.x6 + a.x26 * a.x4 + a.x28 * a.x2 := by
  rw [S_eq_single]
  simp only [Finset.sum_range_succ, Finset.sum_range_zero]
  simp [limb]

theorem S_14 (a : Args) : S a 14 = a.x2 * a.x30 + a.x4 * a.x28 + a.x6 * a.x26 + a.x8 * a.x24 + a.x10 * a.x22 + a.x12 * a.x20 + a.x14 * a.x18 + a.x16 * a.x16 + a.x18 * a.x14 + a.x20 * a.x12 + a.x22 * a.x10 + a.x24 * a.x8 + a.x26 * a.x6 + a.x28 * a.x4 + a.x30 * a.x2 := by
  rw [S_eq_single]
  simp only [Finset.sum_range_succ, Finset.sum_range_zero]
  simp [limb]

theorem S_15 (a : Args) : S a 15 = a.x2 * a.x29 + a.x4 * a.x30 + a.x6 * a.x28 + a.x8 * a.x26 + a.x10 * a.x24 + a.x12 * a.x22 + a.x14 * a.x20 + a.x16 * a.x18 + a.x18 * a.x16 + a.x20 * a.x14 + a.x22 * a.x12 + a.x24 * a.x10 + a.x26 * a.x8 + a.x28 * a.x6 + a.x30 * a.x4 + a.x29 * a.x2 := by
  rw [S_eq_single]
  simp only [Finset.sum_range_succ, Finset.sum_range_zero]
  simp [limb]

theorem S_16 (a : Args) : S a 16 = a.x4 * a.x29 + a.x6 * a.x30 + a.x8 * a.x28 + a.x10 * a.x26 + a.x12 * a.x24 + a.x14 * a.x22 + a.x16 * a.x20 + a.x18 * a.x18 + a.x20 * a.x16 + a.x22 * a.x14 + a.x24 * a.x12 + a.x26 * a.x10 + a.x28 * a.x8 + a.x30 * a.x6 + a.x29 * a.x4 := by
  rw [S_eq_single]
  simp only [Finset.sum_range_succ, Finset.sum_range_zero]
  simp [limb]

theorem S_17 (a : Args) : S a 17 = a.x6 * a.x29 + a.x8 * a.x30 + a.x10 * a.x28 + a.x12 * a.x26 + a.x14 * a.x24 + a.x16 * a.x22 + a.x18 * a.x20 + a.x20 * a.x18 + a.x22 * a.x16 + a.x24 * a.x14 + a.x26 * a.x12 + a.x28 * a.x10 + a.x30 * a.x8 + a.x29 * a.x6 := by
  rw [S_eq_single]
  simp only [Finset.sum_range_succ, Finset.sum_range_zero]
  simp [limb]

theorem S_18 (a : Args) : S a 18 = a.x8 * a.x29 + a.x10 * a.x30 + a.x12 * a.x28 + a.x14 * a.x26 + a.x16 * a.x24 + a.x18 * a.x22 + a.x20 * a.x20 + a.x22 * a.x18 + a.x24 * a.x16 + a.x26 * a.x14 + a.x28 * a.x12 + a.x30 * a.x10 + a.x29 * a.x8 := by
  rw [S_eq_single]
  simp only [Finset.sum_range_succ, Finset.sum_range_zero]
  simp [limb]

theorem S_19 (a : Args) : S a 19 = a.x10 * a.x29 + a.x12 * a.x30 + a.x14 * a.x28 + a.x16 * a.x26 + a.x18 * a.x24 + a.x20 * a.x22 + a.x22 * a.x20 + a.x24 * a.x18 + a.x26 * a.x16 + a.x28 * a.x14 + a.x30 * a.x12 + a.x29 * a.x10 := by
  rw [S_eq_single]
  simp only [Finset.sum_range_succ, Finset.sum_range_zero]
  simp [limb]

theorem S_20 (a : Args) : S a 20 = a.x12 * a.x29 + a.x14 * a.x30 + a.x16 * a.x28 + a.x18 * a.x26 + a.x20 * a.x24 + a.x22 * a.x22 + a.x24 * a.x20 + a.x26 * a.x18 + a.x28 * a.x16 + a.x30 * a.x14 + a.x29 * a.x12 := by
  rw [S_eq_single]
  simp only [Finset.sum_range_succ, Finset.sum_range_zero]
  simp [limb]

theorem S_21 (a : Args) : S a 21 = a.x14 * a.x29 + a.x16 * a.x30 + a.x18 * a.x28 + a.x20 * a.x26 + a.x22 * a.x24 + a.x24 * a.x22 + a.x26 * a.x20 + a.x28 * a.x18 + a.x30 * a.x16 + a.x29 * a.x14 := by
  rw [S_eq_single]
  simp only [Finset.sum_range_succ, Finset.sum_range_zero]
  simp [limb]

theorem S_22 (a : Args) : S a 22 = a.x16 * a.x29 + a.x18 * a.x30 + a.x20 * a.x28 + a.x22 * a.x26 + a.x24 * a.x24 + a.x26 * a.x22 + a.x28 * a.x20 + a.x30 * a.x18 + a.x29 * a.x16 := by
  rw [S_eq_single]
  simp only [Finset.sum_range_succ, Finset.sum_range_zero]
  simp [limb]

theorem S_23 (a : Args) : S a 23 = a.x18 * a.x29 + a.x20 * a.x30 + a.x22 * a.x28 + a.x24 * a.x26 + a.x26 * a.x24 + a.x28 * a.x22 + a.x30 * a.x20 + a.x29 * a.x18 := by
  rw [S_eq_single]
  simp only [Finset.sum_range_succ, Finset.sum_range_zero]
  simp [limb]

theorem S_24 (a : Args) : S a 24 = a.x20 * a.x29 + a.x22 * a.x30 + a.x24 * a.x28 + a.x26 * a.x26 + a.x28 * a.x24 + a.x30 * a.x22 + a.x29 * a.x20 := by
  rw [S_eq_single]
  simp only [Finset.sum_range_succ, Finset.sum_range_zero]
  simp [limb]

theorem S_25 (a : Args) : S a 25 = a.x22 * a.x29 + a.x24 * a.x30 + a.x26 * a.x28 + a.x28 * a.x26 + a.x30 * a.x24 + a.x29 * a.x22 := by
  rw [S_eq_single]
  simp only [Finset.sum_range_succ, Finset.sum_range_zero]
  simp [limb]

theorem S_26 (a : Args) : S a 26 = a.x24 * a.x29 + a.x26 * a.x30 + a.x28 * a.x28 + a.x30 * a.x26 + a.x29 * a.x24 := by
  rw [S_eq_single]
  simp only [Finset.sum_range_succ, Finset.sum_range_zero]
  simp [limb]

theorem S_27 (a : Args) : S a 27 = a.x26 * a.x29 + a.x28 * a.x30 + a.x30 * a.x28 + a.x29 * a.x26 := by
  rw [S_eq_single]
  simp only [Finset.sum_range_succ, Finset.sum_range_zero]
  simp [limb]

theorem S_28 (a : Args) : S a 28 = a.x28 * a.x29 + a.x30 * a.x30 + a.x29 * a.x28 := by
  rw [S_eq_single]
  simp only [Finset.sum_range_succ, Finset.sum_range_zero]
  simp [limb]

theorem S_29 (a : Args) : S a 29 = a.x30 * a.x29 + a.x29 * a.x30 := by
  rw [S_eq_single]
  simp only [Finset.sum_range_succ, Finset.sum_range_zero]
  simp [limb]

theorem S_30 (a : Args) : S a 30 = a.x29 * a.x29 := by
  rw [S_eq_single]
  simp only [Finset.sum_range_succ, Finset.sum_range_zero]
  simp [limb]

theorem u64_add_of_le {x y : Int} (hx : 0 ≤ x ∧ x ≤ 2 ^ 30) (hy : 0 ≤ y ∧ y ≤ 2 ^ 30) :
    u64 (x + y) = x + y := by
  unfold u64
  omega

theorem mul_bounds {x y : Int} (hx : 0 ≤ x ∧ x ≤ 2 ^ 30) (hy : 0 ≤ y ∧ y ≤ 2 ^ 30) :
    0 ≤ x * y ∧ x * y ≤ 2 ^ 60 := by
  constructor
  · exact Int.mul_nonneg hx.1 hy.1
  · calc x * y ≤ 2 ^ 30 * 2 ^ 30 := mul_le_mul hx.2 hy.2 hy.1 (by norm_num)
      _ = 2 ^ 60 := by norm_num

theorem u64_mul_of_le {x y : Int} (hx : 0 ≤ x ∧ x ≤ 2 ^ 30) (hy : 0 ≤ y ∧ y ≤ 2 ^ 30) :
    u64 (x * y) = x * y := by
  have := mul_bounds hx hy
  unfold u64
  omega

theorem limbsLe30_iff (a : Args) : LimbsLe30 a ↔
    ((0 ≤ a.x2 ∧ a.x2 ≤ 2 ^ 30) ∧ (0 ≤ a.x4 ∧ a.x4 ≤ 2 ^ 30) ∧ (0 ≤ a.x6 ∧ a.x6 ≤ 2 ^ 30) ∧
    (0 ≤ a.x8 ∧ a.x8 ≤ 2 ^ 30) ∧ (0 ≤ a.x10 ∧ a.x10 ≤ 2 ^ 30) ∧ (0 ≤ a.x12 ∧ a.x12 ≤ 2 ^ 30) ∧
    (0 ≤ a.x14 ∧ a.x14 ≤ 2 ^ 30) ∧ (0 ≤ a.x16 ∧ a.x16 ≤ 2 ^ 30) ∧ (0 ≤ a.x18 ∧ a.x18 ≤ 2 ^ 30) ∧
    (0 ≤ a.x20 ∧ a.x20 ≤ 2 ^ 30) ∧ (0 ≤ a.x22 ∧ a.x22 ≤ 2 ^ 30) ∧ (0 ≤ a.x24 ∧ a.x24 ≤ 2 ^ 30) ∧
    (0 ≤ a.x26 ∧ a.x26 ≤ 2 ^ 30) ∧ (0 ≤ a.x28 ∧ a.x28 ≤ 2 ^ 30) ∧ (0 ≤ a.x30 ∧ a.x30 ≤ 2 ^ 30) ∧
    (0 ≤ a.x29 ∧ a.x29 ≤ 2 ^ 30)) := by
  simp only [LimbsLe30, limbs, List.forall_mem_cons, List.mem_singleton, forall_eq,
    List.not_mem_nil, false_imp_iff, implies_true, and_true]

theorem limbsLe30_of_lt (a : Args) (h : LimbsLt30 a) : LimbsLe30 a :=
  fun x hx => ⟨(h x hx).1, le_of_lt (h x hx).2⟩

theorem bd_mul {x y : Int} (hx : 0 ≤ x ∧ x ≤ 2 ^ 30) (hy : 0 ≤ y ∧ y ≤ 2 ^ 30) :
    0 ≤ x * y ∧ x * y ≤ 1 * 2 ^ 60 := by
  have b := mul_bounds hx hy
  exact ⟨b.1, by rw [one_mul]; exact b.2⟩

theorem bd_add {x y m n : Int} (hx : 0 ≤ x ∧ x ≤ m * 2 ^ 60) (hy : 0 ≤ y ∧ y ≤ n * 2 ^ 60) :
    0 ≤ x + y ∧ x + y ≤ (m + n) * 2 ^ 60 := by
  constructor
  · exact add_nonneg hx.1 hy.1
  · rw [add_mul]
    exact add_le_add hx.2 hy.2

theorem limb_bounds (a : Args) (h : LimbsLe30 a) (i : Nat) :
    0 ≤ limb a i ∧ limb a i ≤ 2 ^ 30 := by
  obtain ⟨h2, h4, h6, h8, h10, h12, h14, h16, h18, h20, h22, h24, h26, h28, h30, h29⟩ :=
    (limbsLe30_iff a).1 h
  unfold limb
  split <;> first | assumption | norm_num

theorem S_bounds (a : Args) (h : LimbsLe30 a) (m : Nat) :
    0 ≤ S a m ∧ S a m ≤ pairBound m := by
  rw [S_eq_single]
  constructor
  · refine Finset.sum_nonneg (fun i _ => ?_)
    split_ifs
    · exact (mul_bounds (limb_bounds a h i) (limb_bounds a h (m - i))).1
    · exact le_rfl
  · unfold pairBound
    refine Finset.sum_le_sum (fun i _ => ?_)
    split_ifs
    · exact (mul_bounds (limb_bounds a h i) (limb_bounds a h (m - i))).2
    · exact le_rfl

theorem pairBound_0 : pairBound 0 = 1 * 2 ^ 60 := by decide

theorem S_0_bounds (a : Args) (h : LimbsLe30 a) : 0 ≤ S a 0 ∧ S a 0 ≤ 1 * 2 ^ 60 :=
  pairBound_0 ▸ S_bounds a h 0

theorem pairBound_1 : pairBound 1 = 2 * 2 ^ 60 := by decide

theorem S_1_bounds (a : Args) (h : LimbsLe30 a) : 0 ≤ S a 1 ∧ S a 1 ≤ 2 * 2 ^ 60 :=
  pairBound_1 ▸ S_bounds a h 1

theorem pairBound_2 : pairBound 2 = 3 * 2 ^ 60 := by decide

theorem S_2_bounds (a : Args) (h : LimbsLe30 a) : 0 ≤ S a 2 ∧ S a 2 ≤ 3 * 2 ^ 60 :=
  pairBound_2 ▸ S_bounds a h 2

theorem pairBound_3 : pairBound 3 = 4 * 2 ^ 60 := by decide

theorem S_3_bounds (a : Args) (h : LimbsLe30 a) : 0 ≤ S a 3 ∧ S a 3 ≤ 4 * 2 ^ 60 :=
  pairBound_3 ▸ S_bounds a h 3

theorem pairBound_4 : pairBound 4 = 5 * 2 ^ 60 := by decide

theorem S_4_bounds (a : Args) (h : LimbsLe30 a) : 0 ≤ S a 4 ∧ S a 4 ≤ 5 * 2 ^ 60 :=
  pairBound_4 ▸ S_bounds a h 4

theorem pairBound_5 : pairBound 5 = 6 * 2 ^ 60 := by decide

theorem S_5_bounds (a : Args) (h : LimbsLe30 a) : 0 ≤ S a 5 ∧ S a 5 ≤ 6 * 2 ^ 60 :=
  pairBound_5 ▸ S_bounds a h 5

theorem pairBound_6 : pairBound 6 = 7 * 2 ^ 60 := by decide

theorem S_6_bounds (a : Args) (h : LimbsLe30 a) : 0 ≤ S a 6 ∧ S a 6 ≤ 7 * 2 ^ 60 :=
  pairBound_6 ▸ S_bounds a h 6

theorem pairBound_7 : pairBound 7 = 8 * 2 ^ 60 := by decide

theorem S_7_bounds (a : Args) (h : LimbsLe30 a) : 0 ≤ S a 7 ∧ S a 7 ≤ 8 * 2 ^ 60 :=
  pairBound_7 ▸ S_bounds a h 7

theorem pairBound_8 : pairBound 8 = 9 * 2 ^ 60 := by decide

theorem S_8_bounds (a : Args) (h : LimbsLe30 a) : 0 ≤ S a 8 ∧ S a 8 ≤ 9 * 2 ^ 60 :=
  pairBound_8 ▸ S_bounds a h 8

theorem pairBound_9 : pairBound 9 = 10 * 2 ^ 60 := by decide

theorem S_9_bounds (a : Args) (h : LimbsLe30 a) : 0 ≤ S a 9 ∧ S a 9 ≤ 10 * 2 ^ 60 :=
  pairBound_9 ▸ S_bounds a h 9

theorem pairBound_10 : pairBound 10 = 11 * 2 ^ 60 := by decide

theorem S_10_bounds (a : Args) (h : LimbsLe30 a) : 0 ≤ S a 10 ∧ S a 10 ≤ 11 * 2 ^ 60 :=
  pairBound_10 ▸ S_bounds a h 10

theorem pairBound_11 : pairBound 11 = 12 * 2 ^ 60 := by decide

theorem S_11_bounds (a : Args) (h : LimbsLe30 a) : 0 ≤ S a 11 ∧ S a 11 ≤ 12 * 2 ^ 60 :=
  pairBound_11 ▸ S_bounds a h 11

theorem pairBound_12 : pairBound 12 = 13 * 2 ^ 60 := by decide

theorem S_12_bounds (a : Args) (h : LimbsLe30 a) : 0 ≤ S a 12 ∧ S a 12 ≤ 13 * 2 ^ 60 :=
  pairBound_12 ▸ S_bounds a h 12

theorem pairBound_13 : pairBound 13 = 14 * 2 ^ 60 := by decide

theorem S_13_bounds (a : Args) (h : LimbsLe30 a) : 0 ≤ S a 13 ∧ S a 13 ≤ 14 * 2 ^ 60 :=
  pairBound_13 ▸ S_bounds a h 13

theorem pairBound_14 : pairBound 14 = 15 * 2 ^ 60 := by decide

theorem S_14_bounds (a : Args) (h : LimbsLe30 a) : 0 ≤ S a 14 ∧ S a 14 ≤ 15 * 2 ^ 60 :=
  pairBound_14 ▸ S_bounds a h 14

theorem pairBound_15 : pairBound 15 = 16 * 2 ^ 60 := by decide

theorem S_15_bounds (a : Args) (h : LimbsLe30 a) : 0 ≤ S a 15 ∧ S a 15 ≤ 16 * 2 ^ 60 :=
  pairBound_15 ▸ S_bounds a h 15

theorem pairBound_16 : pairBound 16 = 15 * 2 ^ 60 := by decide

theorem S_16_bounds (a : Args) (h : LimbsLe30 a) : 0 ≤ S a 16 ∧ S a 16 ≤ 15 * 2 ^ 60 :=
  pairBound_16 ▸ S_bounds a h 16

theorem pairBound_17 : pairBound 17 = 14 * 2 ^ 60 := by decide

theorem S_17_bounds (a : Args) (h : LimbsLe30 a) : 0 ≤ S a 17 ∧ S a 17 ≤ 14 * 2 ^ 60 :=
  pairBound_17 ▸ S_bounds a h 17

theorem pairBound_18 : pairBound 18 = 13 * 2 ^ 60 := by decide

theorem S_18_bounds (a : Args) (h : LimbsLe30 a) : 0 ≤ S a 18 ∧ S a 18 ≤ 13 * 2 ^ 60 :=
  pairBound_18 ▸ S_bounds a h 18

theorem pairBound_19 : pairBound 19 = 12 * 2 ^ 60 := by decide

theorem S_19_bounds (a : Args) (h : LimbsLe30 a) : 0 ≤ S a 19 ∧ S a 19 ≤ 12 * 2 ^ 60 :=
  pairBound_19 ▸ S_bounds a h 19

theorem pairBound_20 : pairBound 20 = 11 * 2 ^ 60 := by decide

theorem S_20_bounds (a : Args) (h : LimbsLe30 a) : 0 ≤ S a 20 ∧ S a 20 ≤ 11 * 2 ^ 60 :=
  pairBound_20 ▸ S_bounds a h 20

theorem pairBound_21 : pairBound 21 = 10 * 2 ^ 60 := by decide

theorem S_21_bounds (a : Args) (h : LimbsLe30 a) : 0 ≤ S a 21 ∧ S a 21 ≤ 10 * 2 ^ 60 :=
  pairBound_21 ▸ S_bounds a h 21

theorem pairBound_22 : pairBound 22 = 9 * 2 ^ 60 := by decide

theorem S_22_bounds (a : Args) (h : LimbsLe30 a) : 0 ≤ S a 22 ∧ S a 22 ≤ 9 * 2 ^ 60 :=
  pairBound_22 ▸ S_bounds a h 22

theorem pairBound_23 : pairBound 23 = 8 * 2 ^ 60 := by decide

theorem S_23_bounds (a : Args) (h : LimbsLe30 a) : 0 ≤ S a 23 ∧ S a 23 ≤ 8 * 2 ^ 60 :=
  pairBound_23 ▸ S_bounds a h 23

theorem pairBound_24 : pairBound 24 = 7 * 2 ^ 60 := by decide

theorem S_24_bounds (a : Args) (h : LimbsLe30 a) : 0 ≤ S a 24 ∧ S a 24 ≤ 7 * 2 ^ 60 :=
  pairBound_24 ▸ S_bounds a h 24

theorem pairBound_25 : pairBound 25 = 6 * 2 ^ 60 := by decide

theorem S_25_bounds (a : Args) (h : LimbsLe30 a) : 0 ≤ S a 25 ∧ S a 25 ≤ 6 * 2 ^ 60 :=
  pairBound_25 ▸ S_bounds a h 25

theorem pairBound_26 : pairBound 26 = 5 * 2 ^ 60 := by decide

theorem S_26_bounds (a : Args) (h : LimbsLe30 a) : 0 ≤ S a 26 ∧ S a 26 ≤ 5 * 2 ^ 60 :=
  pairBound_26 ▸ S_bounds a h 26

theorem pairBound_27 : pairBound 27 = 4 * 2 ^ 60 := by decide

theorem S_27_bounds (a : Args) (h : LimbsLe30 a) : 0 ≤ S a 27 ∧ S a 27 ≤ 4 * 2 ^ 60 :=
  pairBound_27 ▸ S_bounds a h 27

theorem pairBound_28 : pairBound 28 = 3 * 2 ^ 60 := by decide

theorem S_28_bounds (a : Args) (h : LimbsLe30 a) : 0 ≤ S a 28 ∧ S a 28 ≤ 3 * 2 ^ 60 :=
  pairBound_28 ▸ S_bounds a h 28

theorem pairBound_29 : pairBound 29 = 2 * 2 ^ 60 := by decide

theorem S_29_bounds (a : Args) (h : LimbsLe30 a) : 0 ≤ S a 29 ∧ S a 29 ≤ 2 * 2 ^ 60 :=
  pairBound_29 ▸ S_bounds a h 29

theorem pairBound_30 : pairBound 30 = 1 * 2 ^ 60 := by decide

theorem S_30_bounds (a : Args) (h : LimbsLe30 a) : 0 ≤ S a 30 ∧ S a 30 ≤ 1 * 2 ^ 60 :=
  pairBound_30 ▸ S_bounds a h 30

theorem x31_eq_alt (a : Args) (h : LimbsLe30 a) :
    x31 a = ((a.x16 * a.x29 + a.x29 * a.x16) + a.x29 * a.x29) := by
  obtain ⟨h2, h4, h6, h8, h10, h12, h14, h16, h18, h20, h22, h24, h26, h28, h30, h29⟩ :=
    (limbsLe30_iff a).1 h
  simp only [x31, idWithAlt, u64_add_of_le, u64_mul_of_le, h2, h4, h6, h8, h10, h12, h14, h16, h18, h20, h22, h24, h26, h28, h30, h29, and_self]
  ring

theorem x31_bounds (a : Args) (h : LimbsLe30 a) : 0 ≤ x31 a ∧ x31 a ≤ 3 * 2 ^ 60 := by
  obtain ⟨h2, h4, h6, h8, h10, h12, h14, h16, h18, h20, h22, h24, h26, h28, h30, h29⟩ :=
    (limbsLe30_iff a).1 h
  rw [x31_eq_alt a h]
  have b := (bd_add (bd_add (bd_mul h16 h29) (bd_mul h29 h16)) (bd_mul h29 h29))
  exact ⟨b.1, le_trans b.2 (by norm_num)⟩

theorem x32_eq_alt (a : Args) (h : LimbsLe30 a) :
    x32 a = (((a.x14 * a.x29 + a.x16 * a.x30) + (a.x30 * a.x16 + a.x29 * a.x14)) + (a.x30 * a.x29 + a.x29 * a.x30)) := by
  obtain ⟨h2, h4, h6, h8, h10, h12, h14, h16, h18, h20, h22, h24, h26, h28, h30, h29⟩ :=
    (limbsLe30_iff a).1 h
  simp only [x32, idWithAlt, u64_add_of_le, u64_mul_of_le, h2, h4, h6, h8, h10, h12, h14, h16, h18, h20, h22, h24, h26, h28, h30, h29, and_self]
  ring

theorem x32_bounds (a : Args) (h : LimbsLe30 a) : 0 ≤ x32 a ∧ x32 a ≤ 6 * 2 ^ 60 := by
  obtain ⟨h2, h4, h6, h8, h10, h12, h14, h16, h18, h20, h22, h24, h26, h28, h30, h29⟩ :=
    (limbsLe30_iff a).1 h
  rw [x32_eq_alt a h]
  have b := (bd_add (bd_add (bd_add (bd_mul h14 h29) (bd_mul h16 h30)) (bd_add (bd_mul h30 h16) (bd_mul h29 h14))) (bd_add (bd_mul h30 h29) (bd_mul h29 h30)))
  exact ⟨b.1, le_trans b.2 (by norm_num)⟩

theorem x33_eq_alt (a : Args) (h : LimbsLe30 a) :
    x33 a = (((a.x12 * a.x29 + (a.x14 * a.x30 + a.x16 * a.x28)) + (a.x28 * a.x16 + (a.x30 * a.x14 + a.x29 * a.x12))) + (a.x28 * a.x29 + (a.x30 * a.x30 + a.x29 * a.x28))) := by
  obtain ⟨h2, h4, h6, h8, h10, h12, h14, h16, h18, h20, h22, h24, h26, h28, h30, h29⟩ :=
    (limbsLe30_iff a).1 h
  simp only [x33, idWithAlt, u64_add_of_le, u64_mul_of_le, h2, h4, h6, h8, h10, h12, h14, h16, h18, h20, h22, h24, h26, h28, h30, h29, and_self]
  ring

theorem x33_bounds (a : Args) (h : LimbsLe30 a) : 0 ≤ x33 a ∧ x33 a ≤ 9 * 2 ^ 60 := by
  obtain ⟨h2, h4, h6, h8, h10, h12, h14, h16, h18, h20, h22, h24, h26, h28, h30, h29⟩ :=
    (limbsLe30_iff a).1 h
  rw [x33_eq_alt a h]
  have b := (bd_add (bd_add (bd_add (bd_mul h12 h29) (bd_add (bd_mul h14 h30) (bd_mul h16 h28))) (bd_add (bd_mul h28 h16) (bd_add (bd_mul h30 h14) (bd_mul h29 h12)))) (bd_add (bd_mul h28 h29) (bd_add (bd_mul h30 h30) (bd_mul h29 h28))))
  exact ⟨b.1, le_trans b.2 (by norm_num)⟩

theorem x34_eq_alt (a : Args) (h : LimbsLe30 a) :
    x34 a = (((a.x10 * a.x29 + (a.x12 * a.x30 + (a.x14 * a.x28 + a.x16 * a.x26))) + (a.x26 * a.x16 + (a.x28 * a.x14 + (a.x30 * a.x12 + a.x29 * a.x10)))) + (a.x26 * a.x29 + (a.x28 * a.x30 + (a.x30 * a.x28 + a.x29 * a.x26)))) := by
  obtain ⟨h2, h4, h6, h8, h10, h12, h14, h16, h18, h20, h22, h24, h26, h28, h30, h29⟩ :=
    (limbsLe30_iff a).1 h
  simp only [x34, idWithAlt, u64_add_of_le, u64_mul_of_le, h2, h4, h6, h8, h10, h12, h14, h16, h18, h20, h22, h24, h26, h28, h30, h29, and_self]
  ring

theorem x34_bounds (a : Args) (h : LimbsLe30 a) : 0 ≤ x34 a ∧ x34 a ≤ 12 * 2 ^ 60 := by
  obtain ⟨h2, h4, h6, h8, h10, h12, h14, h16, h18, h20, h22, h24, h26, h28, h30, h29⟩ :=
    (limbsLe30_iff a).1 h
  rw [x34_eq_alt a h]
  have b := (bd_add (bd_add (bd_add (bd_mul h10 h29) (bd_add (bd_mul h12 h30) (bd_add (bd_mul h14 h28) (bd_mul h16 h26)))) (bd_add (bd_mul h26 h16) (bd_add (bd_mul h28 h14) (bd_add (bd_mul h30 h12) (bd_mul h29 h10))))) (bd_add (bd_mul h26 h29) (bd_add (bd_mul h28 h30) (bd_add (bd_mul h30 h28) (bd_mul h29 h26)))))
  exact ⟨b.1, le_trans b.2 (by norm_num)⟩

theorem x35_eq_alt (a : Args) (h : LimbsLe30 a) :
    x35 a = (((a.x8 * a.x29 + (a.x10 * a.x30 + (a.x12 * a.x28 + (a.x14 * a.x26 + a.x16 * a.x24)))) + (a.x24 * a.x16 + (a.x26 * a.x14 + (a.x28 * a.x12 + (a.x30 * a.x10 + a.x29 * a.x8))))) + (a.x24 * a.x29 + (a.x26 * a.x30 + (a.x28 * a.x28 + (a.x30 * a.x26 + a.x29 * a.x24))))) := by
  obtain ⟨h2, h4, h6, h8, h10, h12, h14, h16, h18, h20, h22, h24, h26, h28, h30, h29⟩ :=
    (limbsLe30_iff a).1 h
  simp only [x35, idWithAlt, u64_add_of_le, u64_mul_of_le, h2, h4, h6, h8, h10, h12, h14, h16, h18, h20, h22, h24, h26, h28, h30, h29, and_self]
  ring

theorem x35_bounds (a : Args) (h : LimbsLe30 a) : 0 ≤ x35 a ∧ x35 a ≤ 15 * 2 ^ 60 := by
  obtain ⟨h2, h4, h6, h8, h10, h12, h14, h16, h18, h20, h22, h24, h26, h28, h30, h29⟩ :=
    (limbsLe30_iff a).1 h
  rw [x35_eq_alt a h]
  have b := (bd_add (bd_add (bd_add (bd_mul h8 h29) (bd_add (bd_mul h10 h30) (bd_add (bd_mul h12 h28) (bd_add (bd_mul h14 h26) (bd_mul h16 h24))))) (bd_add (bd_mul h24 h16) (bd_add (bd_mul h26 h14) (bd_add (bd_mul h28 h12) (bd_add (bd_mul h30 h10) (bd_mul h29 h8)))))) (bd_add (bd_mul h24 h29) (bd_add (bd_mul h26 h30) (bd_add (bd_mul h28 h28) (bd_add (bd_mul h30 h26) (bd_mul h29 h24))))))
  exact ⟨b.1, le_trans b.2 (by norm_num)⟩

theorem x36_eq_alt (a : Args) (h : LimbsLe30 a) :
    x36 a = (((a.x6 * a.x29 + (a.x8 * a.x30 + (a.x10 * a.x28 + (a.x12 * a.x26 + (a.x14 * a.x24 + a.x16 * a.x22))))) + (a.x22 * a.x16 + (a.x24 * a.x14 + (a.x26 * a.x12 + (a.x28 * a.x10 + (a.x30 * a.x8 + a.x29 * a.x6)))))) + (a.x22 * a.x29 + (a.x24 * a.x30 + (a.x26 * a.x28 + (a.x28 * a.x26 + (a.x30 * a.x24 + a.x29 * a.x22)))))) := by
  obtain ⟨h2, h4, h6, h8, h10, h12, h14, h16, h18, h20, h22, h24, h26, h28, h30, h29⟩ :=
    (limbsLe30_iff a).1 h
  simp only [x36, idWithAlt, u64_add_of_le, u64_mul_of_le, h2, h4, h6, h8, h10, h12, h14, h16, h18, h20, h22, h24, h26, h28, h30, h29, and_self]
  ring

theorem x36_bounds (a : Args) (h : LimbsLe30 a) : 0 ≤ x36 a ∧ x36 a ≤ 18 * 2 ^ 60 := by
  obtain ⟨h2, h4, h6, h8, h10, h12, h14, h16, h18, h20, h22, h24, h26, h28, h30, h29⟩ :=
    (limbsLe30_iff a).1 h
  rw [x36_eq_alt a h]
  have b := (bd_add (bd_add (bd_add (bd_mul h6 h29) (bd_add (bd_mul h8 h30) (bd_add (bd_mul h10 h28) (bd_add (bd_mul h12 h26) (bd_add (bd_mul h14 h24) (bd_mul h16 h22)))))) (bd_add (bd_mul h22 h16) (bd_add (bd_mul h24 h14) (bd_add (bd_mul h26 h12) (bd_add (bd_mul h28 h10) (bd_add (bd_mul h30 h8) (bd_mul h29 h6))))))) (bd_add (bd_mul h22 h29) (bd_add (bd_mul h24 h30) (bd_add (bd_mul h26 h28) (bd_add (bd_mul h28 h26) (bd_add (bd_mul h30 h24) (bd_mul h29 h22)))))))
  exact ⟨b.1, le_trans b.2 (by norm_num)⟩

theorem x37_eq_alt (a : Args) (h : LimbsLe30 a) :
    x37 a = (((a.x4 * a.x29 + (a.x6 * a.x30 + (a.x8 * a.x28 + (a.x10 * a.x26 + (a.x12 * a.x24 + (a.x14 * a.x22 + a.x16 * a.x20)))))) + (a.x20 * a.x16 + (a.x22 * a.x14 + (a.x24 * a.x12 + (a.x26 * a.x10 + (a.x28 * a.x8 + (a.x30 * a.x6 + a.x29 * a.x4))))))) + (a.x20 * a.x29 + (a.x22 * a.x30 + (a.x24 * a.x28 + (a.x26 * a.x26 + (a.x28 * a.x24 + (a.x30 * a.x22 + a.x29 * a.x20))))))) := by
  obtain ⟨h2, h4, h6, h8, h10, h12, h14, h16, h18, h20, h22, h24, h26, h28, h30, h29⟩ :=
    (limbsLe30_iff a).1 h
  simp only [x37, idWithAlt, u64_add_of_le, u64_mul_of_le, h2, h4, h6, h8, h10, h12, h14, h16, h18, h20, h22, h24, h26, h28, h30, h29, and_self]
  ring

theorem x37_bounds (a : Args) (h : LimbsLe30 a) : 0 ≤ x37 a ∧ x37 a ≤ 21 * 2 ^ 60 := by
  obtain ⟨h2, h4, h6, h8, h10, h12, h14, h16, h18, h20, h22, h24, h26, h28, h30, h29⟩ :=
    (limbsLe30_iff a).1 h
  rw [x37_eq_alt a h]
  have b := (bd_add (bd_add (bd_add (bd_mul h4 h29) (bd_add (bd_mul h6 h30) (bd_add (bd_mul h8 h28) (bd_add (bd_mul h10 h26) (bd_add (bd_mul h12 h24) (bd_add (bd_mul h14 h22) (bd_mul h16 h20))))))) (bd_add (bd_mul h20 h16) (bd_add (bd_mul h22 h14) (bd_add (bd_mul h24 h12) (bd_add (bd_mul h26 h10) (bd_add (bd_mul h28 h8) (bd_add (bd_mul h30 h6) (bd_mul h29 h4)))))))) (bd_add (bd_mul h20 h29) (bd_add (bd_mul h22 h30) (bd_add (bd_mul h24 h28) (bd_add (bd_mul h26 h26) (bd_add (bd_mul h28 h24) (bd_add (bd_mul h30 h22) (bd_mul h29 h20))))))))
  exact ⟨b.1, le_trans b.2 (by norm_num)⟩

theorem x38_eq_alt (a : Args) (h : LimbsLe30 a) :
    x38 a = (((a.x2 * a.x29 + (a.x4 * a.x30 + (a.x6 * a.x28 + (a.x8 * a.x26 + (a.x10 * a.x24 + (a.x12 * a.x22 + (a.x14 * a.x20 + a.x16 * a.x18))))))) + (a.x18 * a.x16 + (a.x20 * a.x14 + (a.x22 * a.x12 + (a.x24 * a.x10 + (a.x26 * a.x8 + (a.x28 * a.x6 + (a.x30 * a.x4 + a.x29 * a.x2)))))))) + (a.x18 * a.x29 + (a.x20 * a.x30 + (a.x22 * a.x28 + (a.x24 * a.x26 + (a.x26 * a.x24 + (a.x28 * a.x22 + (a.x30 * a.x20 + a.x29 * a.x18)))))))) := by
  obtain ⟨h2, h4, h6, h8, h10, h12, h14, h16, h18, h20, h22, h24, h26, h28, h30, h29⟩ :=
    (limbsLe30_iff a).1 h
  simp only [x38, idWithAlt, u64_add_of_le, u64_mul_of_le, h2, h4, h6, h8, h10, h12, h14, h16, h18, h20, h22, h24, h26, h28, h30, h29, and_self]
  ring

theorem x38_bounds (a : Args) (h : LimbsLe30 a) : 0 ≤ x38 a ∧ x38 a ≤ 24 * 2 ^ 60 := by
  obtain ⟨h2, h4, h6, h8, h10, h12, h14, h16, h18, h20, h22, h24, h26, h28, h30, h29⟩ :=
    (limbsLe30_iff a).1 h
  rw [x38_eq_alt a h]
  have b := (bd_add (bd_add (bd_add (bd_mul h2 h29) (bd_add (bd_mul h4 h30) (bd_add (bd_mul h6 h28) (bd_add (bd_mul h8 h26) (bd_add (bd_mul h10 h24) (bd_add (bd_mul h12 h22) (bd_add (bd_mul h14 h20) (bd_mul h16 h18)))))))) (bd_add (bd_mul h18 h16) (bd_add (bd_mul h20 h14) (bd_add (bd_mul h22 h12) (bd_add (bd_mul h24 h10) (bd_add (bd_mul h26 h8) (bd_add (bd_mul h28 h6) (bd_add (bd_mul h30 h4) (bd_mul h29 h2))))))))) (bd_add (bd_mul h18 h29) (bd_add (bd_mul h20 h30) (bd_add (bd_mul h22 h28) (bd_add (bd_mul h24 h26) (bd_add (bd_mul h26 h24) (bd_add (bd_mul h28 h22) (bd_add (bd_mul h30 h20) (bd_mul h29 h18)))))))))
  exact ⟨b.1, le_trans b.2 (by norm_num)⟩

theorem x39_eq_alt (a : Args) (h : LimbsLe30 a) :
    x39 a = (((a.x2 * a.x30 + (a.x4 * a.x28 + (a.x6 * a.x26 + (a.x8 * a.x24 + (a.x10 * a.x22 + (a.x12 * a.x20 + a.x14 * a.x18)))))) + (a.x18 * a.x14 + (a.x20 * a.x12 + (a.x22 * a.x10 + (a.x24 * a.x8 + (a.x26 * a.x6 + (a.x28 * a.x4 + a.x30 * a.x2))))))) + (a.x18 * a.x30 + (a.x20 * a.x28 + (a.x22 * a.x26 + (a.x24 * a.x24 + (a.x26 * a.x22 + (a.x28 * a.x20 + a.x30 * a.x18))))))) := by
  obtain ⟨h2, h4, h6, h8, h10, h12, h14, h16, h18, h20, h22, h24, h26, h28, h30, h29⟩ :=
    (limbsLe30_iff a).1 h
  simp only [x39, idWithAlt, u64_add_of_le, u64_mul_of_le, h2, h4, h6, h8, h10, h12, h14, h16, h18, h20, h22, h24, h26, h28, h30, h29, and_self]
  ring

theorem x39_bounds (a : Args) (h : LimbsLe30 a) : 0 ≤ x39 a ∧ x39 a ≤ 21 * 2 ^ 60 := by
  obtain ⟨h2, h4, h6, h8, h10, h12, h14, h16, h18, h20, h22, h24, h26, h28, h30, h29⟩ :=
    (limbsLe30_iff a).1 h
  rw [x39_eq_alt a h]
  have b := (bd_add (bd_add (bd_add (bd_mul h2 h30) (bd_add (bd_mul h4 h28) (bd_add (bd_mul h6 h26) (bd_add (bd_mul h8 h24) (bd_add (bd_mul h10 h22) (bd_add (bd_mul h12 h20) (bd_mul h14 h18))))))) (bd_add (bd_mul h18 h14) (bd_add (bd_mul h20 h12) (bd_add (bd_mul h22 h10) (bd_add (bd_mul h24 h8) (bd_add (bd_mul h26 h6) (bd_add (bd_mul h28 h4) (bd_mul h30 h2)))))))) (bd_add (bd_mul h18 h30) (bd_add (bd_mul h20 h28) (bd_add (bd_mul h22 h26) (bd_add (bd_mul h24 h24) (bd_add (bd_mul h26 h22) (bd_add (bd_mul h28 h20) (bd_mul h30 h18))))))))
  exact ⟨b.1, le_trans b.2 (by norm_num)⟩

theorem x40_eq_alt (a : Args) (h : LimbsLe30 a) :
    x40 a = (((a.x2 * a.x28 + (a.x4 * a.x26 + (a.x6 * a.x24 + (a.x8 * a.x22 + (a.x10 * a.x20 + a.x12 * a.x18))))) + (a.x18 * a.x12 + (a.x20 * a.x10 + (a.x22 * a.x8 + (a.x24 * a.x6 + (a.x26 * a.x4 + a.x28 * a.x2)))))) + (a.x18 * a.x28 + (a.x20 * a.x26 + (a.x22 * a.x24 + (a.x24 * a.x22 + (a.x26 * a.x20 + a.x28 * a.x18)))))) := by
  obtain ⟨h2, h4, h6, h8, h10, h12, h14, h16, h18, h20, h22, h24, h26, h28, h30, h29⟩ :=
    (limbsLe30_iff a).1 h
  simp only [x40, idWithAlt, u64_add_of_le, u64_mul_of_le, h2, h4, h6, h8, h10, h12, h14, h16, h18, h20, h22, h24, h26, h28, h30, h29, and_self]
  ring

theorem x40_bounds (a : Args) (h : LimbsLe30 a) : 0 ≤ x40 a ∧ x40 a ≤ 18 * 2 ^ 60 := by
  obtain ⟨h2, h4, h6, h8, h10, h12, h14, h16, h18, h20, h22, h24, h26, h28, h30, h29⟩ :=
    (limbsLe30_iff a).1 h
  rw [x40_eq_alt a h]
  have b := (bd_add (bd_add (bd_add (bd_mul h2 h28) (bd_add (bd_mul h4 h26) (bd_add (bd_mul h6 h24) (bd_add (bd_mul h8 h22) (bd_add (bd_mul h10 h20) (bd_mul h12 h18)))))) (bd_add (bd_mul h18 h12) (bd_add (bd_mul h20 h10) (bd_add (bd_mul h22 h8) (bd_add (bd_mul h24 h6) (bd_add (bd_mul h26 h4) (bd_mul h28 h2))))))) (bd_add (bd_mul h18 h28) (bd_add (bd_mul h20 h26) (bd_add (bd_mul h22 h24) (bd_add (bd_mul h24 h22) (bd_add (bd_mul h26 h20) (bd_mul h28 h18)))))))
  exact ⟨b.1, le_trans b.2 (by norm_num)⟩

theorem x41_eq_alt (a : Args) (h : LimbsLe30 a) :
    x41 a = (((a.x2 * a.x26 + (a.x4 * a.x24 + (a.x6 * a.x22 + (a.x8 * a.x20 + a.x10 * a.x18)))) + (a.x18 * a.x10 + (a.x20 * a.x8 + (a.x22 * a.x6 + (a.x24 * a.x4 + a.x26 * a.x2))))) + (a.x18 * a.x26 + (a.x20 * a.x24 + (a.x22 * a.x22 + (a.x24 * a.x20 + a.x26 * a.x18))))) := by
  obtain ⟨h2, h4, h6, h8, h10, h12, h14, h16, h18, h20, h22, h24, h26, h28, h30, h29⟩ :=
    (limbsLe30_iff a).1 h
  simp only [x41, idWithAlt, u64_add_of_le, u64_mul_of_le, h2, h4, h6, h8, h10, h12, h14, h16, h18, h20, h22, h24, h26, h28, h30, h29, and_self]
  ring

theorem x41_bounds (a : Args) (h : LimbsLe30 a) : 0 ≤ x41 a ∧ x41 a ≤ 15 * 2 ^ 60 := by
  obtain ⟨h2, h4, h6, h8, h10, h12, h14, h16, h18, h20, h22, h24, h26, h28, h30, h29⟩ :=
    (limbsLe30_iff a).1 h
  rw [x41_eq_alt a h]
  have b := (bd_add (bd_add (bd_add (bd_mul h2 h26) (bd_add (bd_mul h4 h24) (bd_add (bd_mul h6 h22) (bd_add (bd_mul h8 h20) (bd_mul h10 h18))))) (bd_add (bd_mul h18 h10) (bd_add (bd_mul h20 h8) (bd_add (bd_mul h22 h6) (bd_add (bd_mul h24 h4) (bd_mul h26 h2)))))) (bd_add (bd_mul h18 h26) (bd_add (bd_mul h20 h24) (bd_add (bd_mul h22 h22) (bd_add (bd_mul h24 h20) (bd_mul h26 h18))))))
  exact ⟨b.1, le_trans b.2 (by norm_num)⟩

theorem x42_eq_alt (a : Args) (h : LimbsLe30 a) :
    x42 a = (((a.x2 * a.x24 + (a.x4 * a.x22 + (a.x6 * a.x20 + a.x8 * a.x18))) + (a.x18 * a.x8 + (a.x20 * a.x6 + (a.x22 * a.x4 + a.x24 * a.x2)))) + (a.x18 * a.x24 + (a.x20 * a.x22 + (a.x22 * a.x20 + a.x24 * a.x18)))) := by
  obtain ⟨h2, h4, h6, h8, h10, h12, h14, h16, h18, h20, h22, h24, h26, h28, h30, h29⟩ :=
    (limbsLe30_iff a).1 h
  simp only [x42, idWithAlt, u64_add_of_le, u64_mul_of_le, h2, h4, h6, h8, h10, h12, h14, h16, h18, h20, h22, h24, h26, h28, h30, h29, and_self]
  ring

theorem x42_bounds (a : Args) (h : LimbsLe30 a) : 0 ≤ x42 a ∧ x42 a ≤ 12 * 2 ^ 60 := by
  obtain ⟨h2, h4, h6, h8, h10, h12, h14, h16, h18, h20, h22, h24, h26, h28, h30, h29⟩ :=
    (limbsLe30_iff a).1 h
  rw [x42_eq_alt a h]
  have b := (bd_add (bd_add (bd_add (bd_mul h2 h24) (bd_add (bd_mul h4 h22) (bd_add (bd_mul h6 h20) (bd_mul h8 h18)))) (bd_add (bd_mul h18 h8) (bd_add (bd_mul h20 h6) (bd_add (bd_mul h22 h4) (bd_mul h24 h2))))) (bd_add (bd_mul h18 h24) (bd_add (bd_mul h20 h22) (bd_add (bd_mul h22 h20) (bd_mul h24 h18)))))
  exact ⟨b.1, le_trans b.2 (by norm_num)⟩

theorem x43_eq_alt (a : Args) (h : LimbsLe30 a) :
    x43 a = (((a.x2 * a.x22 + (a.x4 * a.x20 + a.x6 * a.x18)) + (a.x18 * a.x6 + (a.x20 * a.x4 + a.x22 * a.x2))) + (a.x18 * a.x22 + (a.x20 * a.x20 + a.x22 * a.x18))) := by
  obtain ⟨h2, h4, h6, h8, h10, h12, h14, h16, h18, h20, h22, h24, h26, h28, h30, h29⟩ :=
    (limbsLe30_iff a).1 h
  simp only [x43, idWithAlt, u64_add_of_le, u64_mul_of_le, h2, h4, h6, h8, h10, h12, h14, h16, h18, h20, h22, h24, h26, h28, h30, h29, and_self]
  ring

theorem x43_bounds (a : Args) (h : LimbsLe30 a) : 0 ≤ x43 a ∧ x43 a ≤ 9 * 2 ^ 60 := by
  obtain ⟨h2, h4, h6, h8, h10, h12, h14, h16, h18, h20, h22, h24, h26, h28, h30, h29⟩ :=
    (limbsLe30_iff a).1 h
  rw [x43_eq_alt a h]
  have b := (bd_add (bd_add (bd_add (bd_mul h2 h22) (bd_add (bd_mul h4 h20) (bd_mul h6 h18))) (bd_add (bd_mul h18 h6) (bd_add (bd_mul h20 h4) (bd_mul h22 h2)))) (bd_add (bd_mul h18 h22) (bd_add (bd_mul h20 h20) (bd_mul h22 h18))))
  exact ⟨b.1, le_trans b.2 (by norm_num)⟩

theorem x44_eq_alt (a : Args) (h : LimbsLe30 a) :
    x44 a = (((a.x2 * a.x20 + a.x4 * a.x18) + (a.x18 * a.x4 + a.x20 * a.x2)) + (a.x18 * a.x20 + a.x20 * a.x18)) := by
  obtain ⟨h2, h4, h6, h8, h10, h12, h14, h16, h18, h20, h22, h24, h26, h28, h30, h29⟩ :=
    (limbsLe30_iff a).1 h
  simp only [x44, idWithAlt, u64_add_of_le, u64_mul_of_le, h2, h4, h6, h8, h10, h12, h14, h16, h18, h20, h22, h24, h26, h28, h30, h29, and_self]
  ring

theorem x44_bounds (a : Args) (h : LimbsLe30 a) : 0 ≤ x44 a ∧ x44 a ≤ 6 * 2 ^ 60 := by
  obtain ⟨h2, h4, h6, h8, h10, h12, h14, h16, h18, h20, h22, h24, h26, h28, h30, h29⟩ :=
    (limbsLe30_iff a).1 h
  rw [x44_eq_alt a h]
  have b := (bd_add (bd_add (bd_add (bd_mul h2 h20) (bd_mul h4 h18)) (bd_add (bd_mul h18 h4) (bd_mul h20 h2))) (bd_add (bd_mul h18 h20) (bd_mul h20 h18)))
  exact ⟨b.1, le_trans b.2 (by norm_num)⟩

theorem x45_eq_alt (a : Args) (h : LimbsLe30 a) :
    x45 a = ((a.x2 * a.x18 + a.x18 * a.x2) + a.x18 * a.x18) := by
  obtain ⟨h2, h4, h6, h8, h10, h12, h14, h16, h18, h20, h22, h24, h26, h28, h30, h29⟩ :=
    (limbsLe30_iff a).1 h
  simp only [x45, idWithAlt, u64_add_of_le, u64_mul_of_le, h2, h4, h6, h8, h10, h12, h14, h16, h18, h20, h22, h24, h26, h28, h30, h29, and_self]
  ring

theorem x45_bounds (a : Args) (h : LimbsLe30 a) : 0 ≤ x45 a ∧ x45 a ≤ 3 * 2 ^ 60 := by
  obtain ⟨h2, h4, h6, h8, h10, h12, h14, h16, h18, h20, h22, h24, h26, h28, h30, h29⟩ :=
    (limbsLe30_iff a).1 h
  rw [x45_eq_alt a h]
  have b := (bd_add (bd_add (bd_mul h2 h18) (bd_mul h18 h2)) (bd_mul h18 h18))
  exact ⟨b.1, le_trans b.2 (by norm_num)⟩

theorem x60_eq_S (a : Args) (h : LimbsLe30 a) : x60 a = S a 0 + S a 16 + S a 24 := by
  obtain ⟨h2, h4, h6, h8, h10, h12, h14, h16, h18, h20, h22, h24, h26, h28, h30, h29⟩ :=
    (limbsLe30_iff a).1 h
  simp only [x60, x37, idWithAlt, u64_add_of_le, u64_mul_of_le, h2, h4, h6, h8, h10, h12, h14, h16, h18, h20, h22, h24, h26, h28, h30, h29, and_self]
  rw [S_0, S_16, S_24]
  ring

theorem x60_bounds (a : Args) (h : LimbsLe30 a) : 0 ≤ x60 a ∧ x60 a ≤ 23 * 2 ^ 60 := by
  rw [x60_eq_S a h]
  have b0 := S_0_bounds a h
  have b16 := S_16_bounds a h
  have b24 := S_24_bounds a h
  omega

theorem x59_eq_S (a : Args) (h : LimbsLe30 a) : x59 a = S a 1 + S a 17 + S a 25 := by
  obtain ⟨h2, h4, h6, h8, h10, h12, h14, h16, h18, h20, h22, h24, h26, h28, h30, h29⟩ :=
    (limbsLe30_iff a).1 h
  simp only [x59, x36, idWithAlt, u64_add_of_le, u64_mul_of_le, h2, h4, h6, h8, h10, h12, h14, h16, h18, h20, h22, h24, h26, h28, h30, h29, and_self]
  rw [S_1, S_17, S_25]
  ring

theorem x59_bounds (a : Args) (h : LimbsLe30 a) : 0 ≤ x59 a ∧ x59 a ≤ 22 * 2 ^ 60 := by
  rw [x59_eq_S a h]
  have b1 := S_1_bounds a h
  have b17 := S_17_bounds a h
  have b25 := S_25_bounds a h
  omega

theorem x58_eq_S (a : Args) (h : LimbsLe30 a) : x58 a = S a 2 + S a 18 + S a 26 := by
  obtain ⟨h2, h4, h6, h8, h10, h12, h14, h16, h18, h20, h22, h24, h26, h28, h30, h29⟩ :=
    (limbsLe30_iff a).1 h
  simp only [x58, x35, idWithAlt, u64_add_of_le, u64_mul_of_le, h2, h4, h6, h8, h10, h12, h14, h16, h18, h20, h22, h24, h26, h28, h30, h29, and_self]
  rw [S_2, S_18, S_26]
  ring

theorem x58_bounds (a : Args) (h : LimbsLe30 a) : 0 ≤ x58 a ∧ x58 a ≤ 21 * 2 ^ 60 := by
  rw [x58_eq_S a h]
  have b2 := S_2_bounds a h
  have b18 := S_18_bounds a h
  have b26 := S_26_bounds a h
  omega

theorem x57_eq_S (a : Args) (h : LimbsLe30 a) : x57 a = S a 3 + S a 19 + S a 27 := by
  obtain ⟨h2, h4, h6, h8, h10, h12, h14, h16, h18, h20, h22, h24, h26, h28, h30, h29⟩ :=
    (limbsLe30_iff a).1 h
  simp only [x57, x34, idWithAlt, u64_add_of_le, u64_mul_of_le, h2, h4, h6, h8, h10, h12, h14, h16, h18, h20, h22, h24, h26, h28, h30, h29, and_self]
  rw [S_3, S_19, S_27]
  ring

theorem x57_bounds (a : Args) (h : LimbsLe30 a) : 0 ≤ x57 a ∧ x57 a ≤ 20 * 2 ^ 60 := by
  rw [x57_eq_S a h]
  have b3 := S_3_bounds a h
  have b19 := S_19_bounds a h
  have b27 := S_27_bounds a h
  omega

theorem x56_eq_S (a : Args) (h : LimbsLe30 a) : x56 a = S a 4 + S a 20 + S a 28 := by
  obtain ⟨h2, h4, h6, h8, h10, h12, h14, h16, h18, h20, h22, h24, h26, h28, h30, h29⟩ :=
    (limbsLe30_iff a).1 h
  simp only [x56, x33, idWithAlt, u64_add_of_le, u64_mul_of_le, h2, h4, h6, h8, h10, h12, h14, h16, h18, h20, h22, h24, h26, h28, h30, h29, and_self]
  rw [S_4, S_20, S_28]
  ring

theorem x56_bounds (a : Args) (h : LimbsLe30 a) : 0 ≤ x56 a ∧ x56 a ≤ 19 * 2 ^ 60 := by
  rw [x56_eq_S a h]
  have b4 := S_4_bounds a h
  have b20 := S_20_bounds a h
  have b28 := S_28_bounds a h
  omega

theorem x55_eq_S (a : Args) (h : LimbsLe30 a) : x55 a = S a 5 + S a 21 + S a 29 := by
  obtain ⟨h2, h4, h6, h8, h10, h12, h14, h16, h18, h20, h22, h24, h26, h28, h30, h29⟩ :=
    (limbsLe30_iff a).1 h
  simp only [x55, x32, idWithAlt, u64_add_of_le, u64_mul_of_le, h2, h4, h6, h8, h10, h12, h14, h16, h18, h20, h22, h24, h26, h28, h30, h29, and_self]
  rw [S_5, S_21, S_29]
  ring

theorem x55_bounds (a : Args) (h : LimbsLe30 a) : 0 ≤ x55 a ∧ x55 a ≤ 18 * 2 ^ 60 := by
  rw [x55_eq_S a h]
  have b5 := S_5_bounds a h
  have b21 := S_21_bounds a h
  have b29 := S_29_bounds a h
  omega

theorem x54_eq_S (a : Args) (h : LimbsLe30 a) : x54 a = S a 6 + S a 22 + S a 30 := by
  obtain ⟨h2, h4, h6, h8, h10, h12, h14, h16, h18, h20, h22, h24, h26, h28, h30, h29⟩ :=
    (limbsLe30_iff a).1 h
  simp only [x54, x31, idWithAlt, u64_add_of_le, u64_mul_of_le, h2, h4, h6, h8, h10, h12, h14, h16, h18, h20, h22, h24, h26, h28, h30, h29, and_self]
  rw [S_6, S_22, S_30]
  ring

theorem x54_bounds (a : Args) (h : LimbsLe30 a) : 0 ≤ x54 a ∧ x54 a ≤ 17 * 2 ^ 60 := by
  rw [x54_eq_S a h]
  have b6 := S_6_bounds a h
  have b22 := S_22_bounds a h
  have b30 := S_30_bounds a h
  omega

theorem x53_eq_S (a : Args) (h : LimbsLe30 a) : x53 a = S a 7 + S a 23 := by
  obtain ⟨h2, h4, h6, h8, h10, h12, h14, h16, h18, h20, h22, h24, h26, h28, h30, h29⟩ :=
    (limbsLe30_iff a).1 h
  simp only [x53, idWithAlt, u64_add_of_le, u64_mul_of_le, h2, h4, h6, h8, h10, h12, h14, h16, h18, h20, h22, h24, h26, h28, h30, h29, and_self]
  rw [S_7, S_23]
  ring

theorem x53_bounds (a : Args) (h : LimbsLe30 a) : 0 ≤ x53 a ∧ x53 a ≤ 16 * 2 ^ 60 := by
  rw [x53_eq_S a h]
  have b7 := S_7_bounds a h
  have b23 := S_23_bounds a h
  omega

theorem x52_eq_S (a : Args) (h : LimbsLe30 a) : x52 a = S a 8 + S a 16 + 2 * S a 24 := by
  obtain ⟨h2, h4, h6, h8, h10, h12, h14, h16, h18, h20, h22, h24, h26, h28, h30, h29⟩ :=
    (limbsLe30_iff a).1 h
  simp only [x52, x37, x45, idWithAlt, u64_add_of_le, u64_mul_of_le, h2, h4, h6, h8, h10, h12, h14, h16, h18, h20, h22, h24, h26, h28, h30, h29, and_self]
  rw [S_8, S_16, S_24]
  ring

theorem x52_bounds (a : Args) (h : LimbsLe30 a) : 0 ≤ x52 a ∧ x52 a ≤ 38 * 2 ^ 60 := by
  rw [x52_eq_S a h]
  have b8 := S_8_bounds a h
  have b16 := S_16_bounds a h
  have b24 := S_24_bounds a h
  omega

theorem x51_eq_S (a : Args) (h : LimbsLe30 a) : x51 a = S a 9 + S a 17 + 2 * S a 25 := by
  obtain ⟨h2, h4, h6, h8, h10, h12, h14, h16, h18, h20, h22, h24, h26, h28, h30, h29⟩ :=
    (limbsLe30_iff a).1 h
  simp only [x51, x36, x44, idWithAlt, u64_add_of_le, u64_mul_of_le, h2, h4, h6, h8, h10, h12, h14, h16, h18, h20, h22, h24, h26, h28, h30, h29, and_self]
  rw [S_9, S_17, S_25]
  ring

theorem x51_bounds (a : Args) (h : LimbsLe30 a) : 0 ≤ x51 a ∧ x51 a ≤ 36 * 2 ^ 60 := by
  rw [x51_eq_S a h]
  have b9 := S_9_bounds a h
  have b17 := S_17_bounds a h
  have b25 := S_25_bounds a h
  omega

theorem x50_eq_S (a : Args) (h : LimbsLe30 a) : x50 a = S a 10 + S a 18 + 2 * S a 26 := by
  obtain ⟨h2, h4, h6, h8, h10, h12, h14, h16, h18, h20, h22, h24, h26, h28, h30, h29⟩ :=
    (limbsLe30_iff a).1 h
  simp only [x50, x35, x43, idWithAlt, u64_add_of_le, u64_mul_of_le, h2, h4, h6, h8, h10, h12, h14, h16, h18, h20, h22, h24, h26, h28, h30, h29, and_self]
  rw [S_10, S_18, S_26]
  ring

theorem x50_bounds (a : Args) (h : LimbsLe30 a) : 0 ≤ x50 a ∧ x50 a ≤ 34 * 2 ^ 60 := by
  rw [x50_eq_S a h]
  have b10 := S_10_bounds a h
  have b18 := S_18_bounds a h
  have b26 := S_26_bounds a h
  omega

theorem x49_eq_S (a : Args) (h : LimbsLe30 a) : x49 a = S a 11 + S a 19 + 2 * S a 27 := by
  obtain ⟨h2, h4, h6, h8, h10, h12, h14, h16, h18, h20, h22, h24, h26, h28, h30, h29⟩ :=
    (limbsLe30_iff a).1 h
  simp only [x49, x34, x42, idWithAlt, u64_add_of_le, u64_mul_of_le, h2, h4, h6, h8, h10, h12, h14, h16, h18, h20, h22, h24, h26, h28, h30, h29, and_self]
  rw [S_11, S_19, S_27]
  ring

theorem x49_bounds (a : Args) (h : LimbsLe30 a) : 0 ≤ x49 a ∧ x49 a ≤ 32 * 2 ^ 60 := by
  rw [x49_eq_S a h]
  have b11 := S_11_bounds a h
  have b19 := S_19_bounds a h
  have b27 := S_27_bounds a h
  omega

theorem x48_eq_S (a : Args) (h : LimbsLe30 a) : x48 a = S a 12 + S a 20 + 2 * S a 28 := by
  obtain ⟨h2, h4, h6, h8, h10, h12, h14, h16, h18, h20, h22, h24, h26, h28, h30, h29⟩ :=
    (limbsLe30_iff a).1 h
  simp only [x48, x33, x41, idWithAlt, u64_add_of_le, u64_mul_of_le, h2, h4, h6, h8, h10, h12, h14, h16, h18, h20, h22, h24, h26, h28, h30, h29, and_self]
  rw [S_12, S_20, S_28]
  ring

theorem x48_bounds (a : Args) (h : LimbsLe30 a) : 0 ≤ x48 a ∧ x48 a ≤ 30 * 2 ^ 60 := by
  rw [x48_eq_S a h]
  have b12 := S_12_bounds a h
  have b20 := S_20_bounds a h
  have b28 := S_28_bounds a h
  omega

theorem x47_eq_S (a : Args) (h : LimbsLe30 a) : x47 a = S a 13 + S a 21 + 2 * S a 29 := by
  obtain ⟨h2, h4, h6, h8, h10, h12, h14, h16, h18, h20, h22, h24, h26, h28, h30, h29⟩ :=
    (limbsLe30_iff a).1 h
  simp only [x47, x32, x40, idWithAlt, u64_add_of_le, u64_mul_of_le, h2, h4, h6, h8, h10, h12, h14, h16, h18, h20, h22, h24, h26, h28, h30, h29, and_self]
  rw [S_13, S_21, S_29]
  ring

theorem x47_bounds (a : Args) (h : LimbsLe30 a) : 0 ≤ x47 a ∧ x47 a ≤ 28 * 2 ^ 60 := by
  rw [x47_eq_S a h]
  have b13 := S_13_bounds a h
  have b21 := S_21_bounds a h
  have b29 := S_29_bounds a h
  omega

theorem x46_eq_S (a : Args) (h : LimbsLe30 a) : x46 a = S a 14 + S a 22 + 2 * S a 30 := by
  obtain ⟨h2, h4, h6, h8, h10, h12, h14, h16, h18, h20, h22, h24, h26, h28, h30, h29⟩ :=
    (limbsLe30_iff a).1 h
  simp only [x46, x31, x39, idWithAlt, u64_add_of_le, u64_mul_of_le, h2, h4, h6, h8, h10, h12, h14, h16, h18, h20, h22, h24, h26, h28, h30, h29, and_self]
  rw [S_14, S_22, S_30]
  ring

theorem x46_bounds (a : Args) (h : LimbsLe30 a) : 0 ≤ x46 a ∧ x46 a ≤ 26 * 2 ^ 60 := by
  rw [x46_eq_S a h]
  have b14 := S_14_bounds a h
  have b22 := S_22_bounds a h
  have b30 := S_30_bounds a h
  omega

theorem x38_eq_S (a : Args) (h : LimbsLe30 a) : x38 a = S a 15 + S a 23 := by
  obtain ⟨h2, h4, h6, h8, h10, h12, h14, h16, h18, h20, h22, h24, h26, h28, h30, h29⟩ :=
    (limbsLe30_iff a).1 h
  simp only [x38, idWithAlt, u64_add_of_le, u64_mul_of_le, h2, h4, h6, h8, h10, h12, h14, h16, h18, h20, h22, h24, h26, h28, h30, h29, and_self]
  rw [S_15, S_23]
  ring

theorem coeffs_lt66 (a : Args) (h : LimbsLe30 a) : CoeffsLt66 (coeffs a) := by
  rw [coeffsLt66_iff]
  have b38 := x38_bounds a h
  have b46 := x46_bounds a h
  have b47 := x47_bounds a h
  have b48 := x48_bounds a h
  have b49 := x49_bounds a h
  have b50 := x50_bounds a h
  have b51 := x51_bounds a h
  have b52 := x52_bounds a h
  have b53 := x53_bounds a h
  have b54 := x54_bounds a h
  have b55 := x55_bounds a h
  have b56 := x56_bounds a h
  have b57 := x57_bounds a h
  have b58 := x58_bounds a h
  have b59 := x59_bounds a h
  have b60 := x60_bounds a h
  simp only [coeffs]
  omega

theorem coeffs_value (a : Args) (h : LimbsLe30 a) :
    evalLimbs 30 (coeffs a).toList.reverse = value a ^ 2 - foldQuot a * p := by
  simp only [coeffs, Coeffs.toList, List.reverse, List.reverseAux, evalLimbs, value, limbs,
    foldQuot, p, x38_eq_S a h, x46_eq_S a h, x47_eq_S a h, x48_eq_S a h, x49_eq_S a h,
    x50_eq_S a h, x51_eq_S a h, x52_eq_S a h, x53_eq_S a h, x54_eq_S a h, x55_eq_S a h,
    x56_eq_S a h, x57_eq_S a h, x58_eq_S a h, x59_eq_S a h, x60_eq_S a h,
    S_0, S_1, S_2, S_3, S_4, S_5, S_6, S_7, S_8, S_9, S_10, S_11, S_12, S_13, S_14, S_15,
    S_16, S_17, S_18, S_19, S_20, S_21, S_22, S_23, S_24, S_25, S_26, S_27, S_28, S_29, S_30]
  ring

theorem fesquare_value (a : Args) (h : LimbsLe30 a) :
    outValue (fesquare a) =
      value a ^ 2 - (foldQuot a + x66 (coeffs a) + x117 (coeffs a)) * p := by
  unfold fesquare
  rw [carry_value _ (coeffs_lt66 a h), coeffs_value a h]
  ring

theorem fesquare_modEq (a : Args) (h : LimbsLe30 a) :
    outValue (fesquare a) % p = value a ^ 2 % p := by
  have e : value a ^ 2 - (foldQuot a + x66 (coeffs a) + x117 (coeffs a)) * p =
      value a ^ 2 + -(foldQuot a + x66 (coeffs a) + x117 (coeffs a)) * p := by
    ring
  rw [fesquare_value a h, e, Int.add_mul_emod_self]

theorem x65_acc (a : Args) (h : LimbsLe30 a) :
    0 ≤ x65 (coeffs a) ∧ x65 (coeffs a) < 2 ^ 66 := by
  have hc := coeffs_lt66 a h
  have s := x65_spec (coeffs a) hc
  have s63 := x63_spec (coeffs a) hc
  have s64 := x64_spec (coeffs a) hc
  omega

theorem x68_acc (a : Args) (h : LimbsLe30 a) :
    0 ≤ x68 (coeffs a) ∧ x68 (coeffs a) < 2 ^ 66 := by
  have hc := coeffs_lt66 a h
  have s := x68_spec (coeffs a) hc
  have s61 := x61_spec (coeffs a) hc
  have b52 := x52_bounds a h
  have e52 : (coeffs a).x52 = x52 a := rfl
  have s66 := x66_spec (coeffs a) hc
  omega

theorem x71_acc (a : Args) (h : LimbsLe30 a) :
    0 ≤ x71 (coeffs a) ∧ x71 (coeffs a) < 2 ^ 66 := by
  have hc := coeffs_lt66 a h
  have s := x71_spec (coeffs a) hc
  have b60 := x60_bounds a h
  have e60 : (coeffs a).x60 = x60 a := rfl
  have s66 := x66_spec (coeffs a) hc
  omega

theorem x74_acc (a : Args) (h : LimbsLe30 a) :
    0 ≤ x74 (coeffs a) ∧ x74 (coeffs a) < 2 ^ 66 := by
  have hc := coeffs_lt66 a h
  have s := x74_spec (coeffs a) hc
  have s69 := x69_spec (coeffs a) hc
  have b51 := x51_bounds a h
  have e51 : (coeffs a).x51 = x51 a := rfl
  omega

theorem x77_acc (a : Args) (h : LimbsLe30 a) :
    0 ≤ x77 (coeffs a) ∧ x77 (coeffs a) < 2 ^ 66 := by
  have hc := coeffs_lt66 a h
  have s := x77_spec (coeffs a) hc
  have s72 := x72_spec (coeffs a) hc
  have b59 := x59_bounds a h
  have e59 : (coeffs a).x59 = x59 a := rfl
  omega

theorem x80_acc (a : Args) (h : LimbsLe30 a) :
    0 ≤ x80 (coeffs a) ∧ x80 (coeffs a) < 2 ^ 66 := by
  have hc := coeffs_lt66 a h
  have s := x80_spec (coeffs a) hc
  have s75 := x75_spec (coeffs a) hc
  have b50 := x50_bounds a h
  have e50 : (coeffs a).x50 = x50 a := rfl
  omega

theorem x83_acc (a : Args) (h : LimbsLe30 a) :
    0 ≤ x83 (coeffs a) ∧ x83 (coeffs a) < 2 ^ 66 := by
  have hc := coeffs_lt66 a h
  have s := x83_spec (coeffs a) hc
  have s78 := x78_spec (coeffs a) hc
  have b58 := x58_bounds a h
  have e58 : (coeffs a).x58 = x58 a := rfl
  omega

theorem x86_acc (a : Args) (h : LimbsLe30 a) :
    0 ≤ x86 (coeffs a) ∧ x86 (coeffs a) < 2 ^ 66 := by
  have hc := coeffs_lt66 a h
  have s := x86_spec (coeffs a) hc
  have s81 := x81_spec (coeffs a) hc
  have b49 := x49_bounds a h
  have e49 : (coeffs a).x49 = x49 a := rfl
  omega

theorem x89_acc (a : Args) (h : LimbsLe30 a) :
    0 ≤ x89 (coeffs a) ∧ x89 (coeffs a) < 2 ^ 66 := by
  have hc := coeffs_lt66 a h
  have s := x89_spec (coeffs a) hc
  have s84 := x84_spec (coeffs a) hc
  have b57 := x57_bounds a h
  have e57 : (coeffs a).x57 = x57 a := rfl
  omega

theorem x92_acc (a : Args) (h : LimbsLe30 a) :
    0 ≤ x92 (coeffs a) ∧ x92 (coeffs a) < 2 ^ 66 := by
  have hc := coeffs_lt66 a h
  have s := x92_spec (coeffs a) hc
  have s87 := x87_spec (coeffs a) hc
  have b48 := x48_bounds a h
  have e48 : (coeffs a).x48 = x48 a := rfl
  omega

theorem x95_acc (a : Args) (h : LimbsLe30 a) :
    0 ≤ x95 (coeffs a) ∧ x95 (coeffs a) < 2 ^ 66 := by
  have hc := coeffs_lt66 a h
  have s := x95_spec (coeffs a) hc
  have s90 := x90_spec (coeffs a) hc
  have b56 := x56_bounds a h
  have e56 : (coeffs a).x56 = x56 a := rfl
  omega

theorem x98_acc (a : Args) (h : LimbsLe30 a) :
    0 ≤ x98 (coeffs a) ∧ x98 (coeffs a) < 2 ^ 66 := by
  have hc := coeffs_lt66 a h
  have s := x98_spec (coeffs a) hc
  have s93 := x93_spec (coeffs a) hc
  have b47 := x47_bounds a h
  have e47 : (coeffs a).x47 = x47 a := rfl
  omega

theorem x101_acc (a : Args) (h : LimbsLe30 a) :
    0 ≤ x101 (coeffs a) ∧ x101 (coeffs a) < 2 ^ 66 := by
  have hc := coeffs_lt66 a h
  have s := x101_spec (coeffs a) hc
  have s96 := x96_spec (coeffs a) hc
  have b55 := x55_bounds a h
  have e55 : (coeffs a).x55 = x55 a := rfl
  omega

theorem x104_acc (a : Args) (h : LimbsLe30 a) :
    0 ≤ x104 (coeffs a) ∧ x104 (coeffs a) < 2 ^ 66 := by
  have hc := coeffs_lt66 a h
  have s := x104_spec (coeffs a) hc
  have s99 := x99_spec (coeffs a) hc
  have b46 := x46_bounds a h
  have e46 : (coeffs a).x46 = x46 a := rfl
  omega

theorem x107_acc (a : Args) (h : LimbsLe30 a) :
    0 ≤ x107 (coeffs a) ∧ x107 (coeffs a) < 2 ^ 66 := by
  have hc := coeffs_lt66 a h
  have s := x107_spec (coeffs a) hc
  have s102 := x102_spec (coeffs a) hc
  have b54 := x54_bounds a h
  have e54 : (coeffs a).x54 = x54 a := rfl
  omega

theorem lt66_of_bd {x n : Int} (h : 0 ≤ x ∧ x ≤ n * 2 ^ 60) (hn : n ≤ 38) :
    0 ≤ x ∧ x < 2 ^ 66 := by
  refine ⟨h.1, lt_of_le_of_lt h.2 ?_⟩
  have : n * 2 ^ 60 ≤ 38 * 2 ^ 60 := mul_le_mul_of_nonneg_right hn (by norm_num)
  exact lt_of_le_of_lt this (by norm_num)

theorem accumulators_bounds (a : Args) (h : LimbsLe30 a) :
    ∀ v ∈ accumulators a, 0 ≤ v ∧ v < 2 ^ 66 := by
  simp only [accumulators, List.forall_mem_cons, List.mem_singleton, forall_eq,
    List.not_mem_nil, false_imp_iff, implies_true, and_true]
  exact ⟨lt66_of_bd (x31_bounds a h) (by norm_num),
    lt66_of_bd (x32_bounds a h) (by norm_num),
    lt66_of_bd (x33_bounds a h) (by norm_num),
    lt66_of_bd (x34_bounds a h) (by norm_num),
    lt66_of_bd (x35_bounds a h) (by norm_num),
    lt66_of_bd (x36_bounds a h) (by norm_num),
    lt66_of_bd (x37_bounds a h) (by norm_num),
    lt66_of_bd (x38_bounds a h) (by norm_num),
    lt66_of_bd (x39_bounds a h) (by norm_num),
    lt66_of_bd (x40_bounds a h) (by norm_num),
    lt66_of_bd (x41_bounds a h) (by norm_num),
    lt66_of_bd (x42_bounds a h) (by norm_num),
    lt66_of_bd (x43_bounds a h) (by norm_num),
    lt66_of_bd (x44_bounds a h) (by norm_num),
    lt66_of_bd (x45_bounds a h) (by norm_num),
    lt66_of_bd (x46_bounds a h) (by norm_num),
    lt66_of_bd (x47_bounds a h) (by norm_num),
    lt66_of_bd (x48_bounds a h) (by norm_num),
    lt66_of_bd (x49_bounds a h) (by norm_num),
    lt66_of_bd (x50_bounds a h) (by norm_num),
    lt66_of_bd (x51_bounds a h) (by norm_num),
    lt66_of_bd (x52_bounds a h) (by norm_num),
    lt66_of_bd (x53_bounds a h) (by norm_num),
    lt66_of_bd (x54_bounds a h) (by norm_num),
    lt66_of_bd (x55_bounds a h) (by norm_num),
    lt66_of_bd (x56_bounds a h) (by norm_num),
    lt66_of_bd (x57_bounds a h) (by norm_num),
    lt66_of_bd (x58_bounds a h) (by norm_num),
    lt66_of_bd (x59_bounds a h) (by norm_num),
    lt66_of_bd (x60_bounds a h) (by norm_num),
    x65_acc a h,
    x68_acc a h,
    x71_acc a h,
    x74_acc a h,
    x77_acc a h,
    x80_acc a h,
    x83_acc a h,
    x86_acc a h,
    x89_acc a h,
    x92_acc a h,
    x95_acc a h,
    x98_acc a h,
    x101_acc a h,
    x104_acc a h,
    x107_acc a h⟩

theorem S_31 (a : Args) : S a 31 = 0 := by
  rw [S_eq_single]
  simp only [Finset.sum_range_succ, Finset.sum_range_zero]
  simp [limb]

theorem carryOut_bounds (c : Coeffs) (h : CoeffsLt66 c) :
    (∀ x ∈ carryOut c, 0 ≤ x ∧ x ≤ 2 ^ 30) ∧
      0 ≤ outValue (carryOut c) ∧ outValue (carryOut c) < 2 ^ 480 + 2 ^ 271 := by
  have s118 := x118_spec c h
  have s106 := x106_spec c h
  have s100 := x100_spec c h
  have s94 := x94_spec c h
  have s88 := x88_spec c h
  have s82 := x82_spec c h
  have s120 := x120_spec c h
  have s76 := x76_spec c h
  have s121 := x121_spec c h
  have s115 := x115_spec c h
  have s109 := x109_spec c h
  have s103 := x103_spec c h
  have s97 := x97_spec c h
  have s91 := x91_spec c h
  have s85 := x85_spec c h
  have s123 := x123_spec c h
  have s79 := x79_spec c h
  have s124 := x124_spec c h
  replace s118 := s118.2
  replace s106 := s106.2
  replace s100 := s100.2
  replace s94 := s94.2
  replace s88 := s88.2
  replace s82 := s82.2
  replace s120 := s120.2
  replace s76 := s76.2
  replace s121 := s121.2
  replace s115 := s115.2
  replace s109 := s109.2
  replace s103 := s103.2
  replace s97 := s97.2
  replace s91 := s91.2
  replace s85 := s85.2
  replace s123 := s123.2
  replace s79 := s79.2
  replace s124 := s124.2
  simp only [outValue, carryOut, List.reverse, List.reverseAux, evalLimbs, out6_eq c h,
    out14_eq c h, List.forall_mem_cons, List.mem_singleton, forall_eq,
    List.not_mem_nil, false_imp_iff, implies_true, and_true]
  omega

theorem evalBE_eq_outValue (x0 x1 x2 x3 x4 x5 x6 x7 x8 x9 x10 x11 x12 x13 x14 x15 : Int) :
    evalBE 30 [x0, x1, x2, x3, x4, x5, x6, x7, x8, x9, x10, x11, x12, x13, x14, x15] =
      outValue [x0, x1, x2, x3, x4, x5, x6, x7, x8, x9, x10, x11, x12, x13, x14, x15] := by
  simp only [evalBE, outValue, List.foldl, List.reverse, List.reverseAux, evalLimbs]
  ring

theorem evalBE_params (a : Args) : evalBE 30 (params a) = value a := by
  rw [params, evalBE_eq_outValue]
  rfl

theorem coeffs_lowLimb (v : Int) (h0 : 0 ≤ v) (hv : v < 2 ^ 15) :
    coeffs (lowLimb v) = ⟨0, 0, 0, 0, 0, 0, 0, 0, 0, 0, 0, 0, 0, 0, 0, v * v⟩ := by
  have hb : 0 ≤ v * v ∧ v * v < 2 ^ 64 := by
    constructor
    · exact Int.mul_nonneg h0 h0
    · calc v * v ≤ 2 ^ 15 * 2 ^ 15 := mul_le_mul hv.le hv.le h0 (by norm_num)
        _ < 2 ^ 64 := by norm_num
  have e : u64 (v * v) = v * v := by
    unfold u64
    omega
  have e1 : u64 v = v := by
    unfold u64
    omega
  have e0 : u64 0 = 0 := rfl
  simp [coeffs, lowLimb, x31, x32, x33, x34, x35, x36, x37, x38, x39, x40, x41, x42, x43,
    x44, x45, x46, x47, x48, x49, x50, x51, x52, x53, x54, x55, x56, x57, x58, x59, x60,
    idWithAlt, e, e1, e0]

theorem S_eq_zero_of_gt (a : Args) (m : Nat) (hm : 30 < m) : S a m = 0 := by
  rw [S_eq_single]
  refine Finset.sum_eq_zero (fun i hi => ?_)
  have hi16 := Finset.mem_range.1 hi
  rw [if_neg]
  omega

theorem carryOut_strict (c : Coeffs) (h : CoeffsLt66 c) :
    ∀ i, i < 16 → i ≠ 6 → i ≠ 14 → (carryOut c).getD i 0 < 2 ^ 30 := by
  have s118 := (x118_spec c h).2.2
  have s106 := (x106_spec c h).2.2
  have s100 := (x100_spec c h).2.2
  have s94 := (x94_spec c h).2.2
  have s88 := (x88_spec c h).2.2
  have s82 := (x82_spec c h).2.2
  have s121 := (x121_spec c h).2.2
  have s115 := (x115_spec c h).2.2
  have s109 := (x109_spec c h).2.2
  have s103 := (x103_spec c h).2.2
  have s97 := (x97_spec c h).2.2
  have s91 := (x91_spec c h).2.2
  have s85 := (x85_spec c h).2.2
  have s124 := (x124_spec c h).2.2
  intro i hi h6 h14
  have e : (2 : Int) ^ 30 = 1073741823 + 1 := by norm_num
  rw [e]
  interval_cases i
  · exact Int.lt_add_one_of_le s118
  · exact Int.lt_add_one_of_le s106
  · exact Int.lt_add_one_of_le s100
  · exact Int.lt_add_one_of_le s94
  · exact Int.lt_add_one_of_le s88
  · exact Int.lt_add_one_of_le s82
  · exact absurd rfl h6
  · exact Int.lt_add_one_of_le s121
  · exact Int.lt_add_one_of_le s115
  · exact Int.lt_add_one_of_le s109
  · exact Int.lt_add_one_of_le s103
  · exact Int.lt_add_one_of_le s97
  · exact Int.lt_add_one_of_le s91
  · exact Int.lt_add_one_of_le s85
  · exact absurd rfl h14
  · exact Int.lt_add_one_of_le s124

theorem limbsLe30_ofOut (o : List Int) (hlen : o.length = 16)
    (h : ∀ x ∈ o, 0 ≤ x ∧ x ≤ 2 ^ 30) : LimbsLe30 (ofOut o) := by
  match o, hlen with
  | [o0, o1, o2, o3, o4, o5, o6, o7, o8, o9, o10, o11, o12, o13, o14, o15], _ =>
    simp only [List.forall_mem_cons, List.mem_singleton, forall_eq,
      List.not_mem_nil, false_imp_iff, implies_true, and_true] at h
    rw [limbsLe30_iff]
    simp only [ofOut, List.getD_cons_zero, List.getD_cons_succ]
    tauto

theorem value_ofOut (o : List Int) (hlen : o.length = 16) : value (ofOut o) = outValue o := by
  match o, hlen with
  | [o0, o1, o2, o3, o4, o5, o6, o7, o8, o9, o10, o11, o12, o13, o14, o15], _ =>
    rfl

theorem fesquare_length (a : Args) : (fesquare a).length = 16 := rfl

theorem carryOut_eq_unbounded (c : Coeffs) (h : CoeffsLt66 c) :
    carryOut c = Unbounded.carryOut c := by
  obtain ⟨h38, h46, h47, h48, h49, h50, h51, h52, h53, h54, h55, h56, h57, h58, h59, h60⟩ :=
    (coeffsLt66_iff c).1 h
  have e61 : x61 c = Unbounded.x61 c := by
    rw [(x61_spec c h).1, Unbounded.x61, shr30]
  have e62 : x62 c = Unbounded.x62 c := by
    rw [(x62_spec c h).1, Unbounded.x62, band30 _ h53.1]
  have e63 : x63 c = Unbounded.x63 c := by
    rw [(x63_spec c h).1, Unbounded.x63, shr30]
  have e64 : x64 c = Unbounded.x64 c := by
    rw [(x64_spec c h).1, Unbounded.x64, band30 _ h38.1]
  have e65 : x65 c = Unbounded.x65 c := by
    rw [(x65_spec c h).1, Unbounded.x65, ← e63, ← e64]
    norm_num
  have e66 : x66 c = Unbounded.x66 c := by
    rw [(x66_spec c h).1, Unbounded.x66, ← e65, shr30]
  have e67 : x67 c = Unbounded.x67 c := by
    rw [(x67_spec c h).1, Unbounded.x67, ← e65, band30 _ (x65_spec c h).2.1]
  have e68 : x68 c = Unbounded.x68 c := by
    rw [(x68_spec c h).1, Unbounded.x68, ← e61, ← e66]
  have e69 : x69 c = Unbounded.x69 c := by
    rw [(x69_spec c h).1, Unbounded.x69, ← e68, shr30]
  have e70 : x70 c = Unbounded.x70 c := by
    rw [(x70_spec c h).1, Unbounded.x70, ← e68, band30 _ (x68_spec c h).2.1]
  have e71 : x71 c = Unbounded.x71 c := by
    rw [(x71_spec c h).1, Unbounded.x71, ← e66]
  have e72 : x72 c = Unbounded.x72 c := by
    rw [(x72_spec c h).1, Unbounded.x72, ← e71, shr30]
  have e73 : x73 c = Unbounded.x73 c := by
    rw [(x73_spec c h).1, Unbounded.x73, ← e71, band30 _ (x71_spec c h).2.1]
  have e74 : x74 c = Unbounded.x74 c := by
    rw [(x74_spec c h).1, Unbounded.x74, ← e69]
  have e75 : x75 c = Unbounded.x75 c := by
    rw [(x75_spec c h).1, Unbounded.x75, ← e74, shr30]
  have e76 : x76 c = Unbounded.x76 c := by
    rw [(x76_spec c h).1, Unbounded.x76, ← e74, band30 _ (x74_spec c h).2.1]
  have e77 : x77 c = Unbounded.x77 c := by
    rw [(x77_spec c h).1, Unbounded.x77, ← e72]
  have e78 : x78 c = Unbounded.x78 c := by
    rw [(x78_spec c h).1, Unbounded.x78, ← e77, shr30]
  have e79 : x79 c = Unbounded.x79 c := by
    rw [(x79_spec c h).1, Unbounded.x79, ← e77, band30 _ (x77_spec c h).2.1]
  have e80 : x80 c = Unbounded.x80 c := by
    rw [(x80_spec c h).1, Unbounded.x80, ← e75]
  have e81 : x81 c = Unbounded.x81 c := by
    rw [(x81_spec c h).1, Unbounded.x81, ← e80, shr30]
  have e82 : x82 c = Unbounded.x82 c := by
    rw [(x82_spec c h).1, Unbounded.x82, ← e80, band30 _ (x80_spec c h).2.1]
  have e83 : x83 c = Unbounded.x83 c := by
    rw [(x83_spec c h).1, Unbounded.x83, ← e78]
  have e84 : x84 c = Unbounded.x84 c := by
    rw [(x84_spec c h).1, Unbounded.x84, ← e83, shr30]
  have e85 : x85 c = Unbounded.x85 c := by
    rw [(x85_spec c h).1, Unbounded.x85, ← e83, band30 _ (x83_spec c h).2.1]
  have e86 : x86 c = Unbounded.x86 c := by
    rw [(x86_spec c h).1, Unbounded.x86, ← e81]
  have e87 : x87 c = Unbounded.x87 c := by
    rw [(x87_spec c h).1, Unbounded.x87, ← e86, shr30]
  have e88 : x88 c = Unbounded.x88 c := by
    rw [(x88_spec c h).1, Unbounded.x88, ← e86, band30 _ (x86_spec c h).2.1]
  have e89 : x89 c = Unbounded.x89 c := by
    rw [(x89_spec c h).1, Unbounded.x89, ← e84]
  have e90 : x90 c = Unbounded.x90 c := by
    rw [(x90_spec c h).1, Unbounded.x90, ← e89, shr30]
  have e91 : x91 c = Unbounded.x91 c := by
    rw [(x91_spec c h).1, Unbounded.x91, ← e89, band30 _ (x89_spec c h).2.1]
  have e92 : x92 c = Unbounded.x92 c := by
    rw [(x92_spec c h).1, Unbounded.x92, ← e87]
  have e93 : x93 c = Unbounded.x93 c := by
    rw [(x93_spec c h).1, Unbounded.x93, ← e92, shr30]
  have e94 : x94 c = Unbounded.x94 c := by
    rw [(x94_spec c h).1, Unbounded.x94, ← e92, band30 _ (x92_spec c h).2.1]
  have e95 : x95 c = Unbounded.x95 c := by
    rw [(x95_spec c h).1, Unbounded.x95, ← e90]
  have e96 : x96 c = Unbounded.x96 c := by
    rw [(x96_spec c h).1, Unbounded.x96, ← e95, shr30]
  have e97 : x97 c = Unbounded.x97 c := by
    rw [(x97_spec c h).1, Unbounded.x97, ← e95, band30 _ (x95_spec c h).2.1]
  have e98 : x98 c = Unbounded.x98 c := by
    rw [(x98_spec c h).1, Unbounded.x98, ← e93]
  have e99 : x99 c = Unbounded.x99 c := by
    rw [(x99_spec c h).1, Unbounded.x99, ← e98, shr30]
  have e100 : x100 c = Unbounded.x100 c := by
    rw [(x100_spec c h).1, Unbounded.x100, ← e98, band30 _ (x98_spec c h).2.1]
  have e101 : x101 c = Unbounded.x101 c := by
    rw [(x101_spec c h).1, Unbounded.x101, ← e96]
  have e102 : x102 c = Unbounded.x102 c := by
    rw [(x102_spec c h).1, Unbounded.x102, ← e101, shr30]
  have e103 : x103 c = Unbounded.x103 c := by
    rw [(x103_spec c h).1, Unbounded.x103, ← e101, band30 _ (x101_spec c h).2.1]
  have e104 : x104 c = Unbounded.x104 c := by
    rw [(x104_spec c h).1, Unbounded.x104, ← e99]
  have e105 : x105 c = Unbounded.x105 c := by
    rw [(x105_spec c h).1, Unbounded.x105, ← e104, shr30]
  have e106 : x106 c = Unbounded.x106 c := by
    rw [(x106_spec c h).1, Unbounded.x106, ← e104, band30 _ (x104_spec c h).2.1]
  have e107 : x107 c = Unbounded.x107 c := by
    rw [(x107_spec c h).1, Unbounded.x107, ← e102]
  have e108 : x108 c = Unbounded.x108 c := by
    rw [(x108_spec c h).1, Unbounded.x108, ← e107, shr30]
  have e109 : x109 c = Unbounded.x109 c := by
    rw [(x109_spec c h).1, Unbounded.x109, ← e107, band30 _ (x107_spec c h).2.1]
  have e110 : x110 c = Unbounded.x110 c := by
    rw [(x110_spec c h).1, Unbounded.x110, ← e105, ← e67]
  have e111 : x111 c = Unbounded.x111 c := by
    rw [(x111_spec c h).1, Unbounded.x111, ← e110, shr30]
  have e112 : x112 c = Unbounded.x112 c := by
    rw [(x112_spec c h).1, Unbounded.x112, ← e110, band30 _ (x110_spec c h).2.1]
  have e113 : x113 c = Unbounded.x113 c := by
    rw [(x113_spec c h).1, Unbounded.x113, ← e108, ← e62]
  have e114 : x114 c = Unbounded.x114 c := by
    rw [(x114_spec c h).1, Unbounded.x114, ← e113, shr30]
  have e115 : x115 c = Unbounded.x115 c := by
    rw [(x115_spec c h).1, Unbounded.x115, ← e113, band30 _ (x113_spec c h).2.1]
  have e116 : x116 c = Unbounded.x116 c := by
    rw [(x116_spec c h).1, Unbounded.x116, ← e111, ← e112]
    norm_num
  have e117 : x117 c = Unbounded.x117 c := by
    rw [(x117_spec c h).1, Unbounded.x117, ← e116, shr30]
  have e118 : x118 c = Unbounded.x118 c := by
    rw [(x118_spec c h).1, Unbounded.x118, ← e116, band30 _ (x116_spec c h).2.1]
  have e119 : x119 c = Unbounded.x119 c := by
    rw [(x119_spec c h).1, Unbounded.x119, ← e114, ← e70, ← e117]
  have e120 : x120 c = Unbounded.x120 c := by
    rw [(x120_spec c h).1, Unbounded.x120, ← e119, shr30]
  have e121 : x121 c = Unbounded.x121 c := by
    rw [(x121_spec c h).1, Unbounded.x121, ← e119, band30 _ (x119_spec c h).2.1]
  have e122 : x122 c = Unbounded.x122 c := by
    rw [(x122_spec c h).1, Unbounded.x122, ← e73, ← e117]
  have e123 : x123 c = Unbounded.x123 c := by
    rw [(x123_spec c h).1, Unbounded.x123, ← e122, shr30]
  have e124 : x124 c = Unbounded.x124 c := by
    rw [(x124_spec c h).1, Unbounded.x124, ← e122, band30 _ (x122_spec c h).2.1]
  rw [carryOut, Unbounded.carryOut, out6_eq c h, out14_eq c h, e118, e106, e100, e94, e88, e82, e120, e76, e121, e115, e109, e103, e97, e91, e85, e123, e79, e124]

theorem coeffs_eq_unbounded (a : Args) (h : LimbsLe30 a) : coeffs a = Unbounded.coeffs a := by
  obtain ⟨h2, h4, h6, h8, h10, h12, h14, h16, h18, h20, h22, h24, h26, h28, h30, h29⟩ :=
    (limbsLe30_iff a).1 h
  simp only [coeffs, Unbounded.coeffs, x31, x32, x33, x34, x35, x36, x37, x38, x39, x40, x41, x42, x43, x44, x45, x46, x47, x48, x49, x50, x51, x52, x53, x54, x55, x56, x57, x58, x59, x60,
    Unbounded.x31, Unbounded.x32, Unbounded.x33, Unbounded.x34, Unbounded.x35, Unbounded.x36, Unbounded.x37, Unbounded.x38, Unbounded.x39, Unbounded.x40, Unbounded.x41, Unbounded.x42, Unbounded.x43, Unbounded.x44, Unbounded.x45, Unbounded.x46, Unbounded.x47, Unbounded.x48, Unbounded.x49, Unbounded.x50, Unbounded.x51, Unbounded.x52, Unbounded.x53, Unbounded.x54, Unbounded.x55, Unbounded.x56, Unbounded.x57, Unbounded.x58, Unbounded.x59, Unbounded.x60,
    idWithAlt, u64_add_of_le, u64_mul_of_le, h2, h4, h6, h8, h10, h12, h14, h16, h18, h20, h22, h24, h26, h28, h30, h29, and_self]

theorem fesquare_eq_unbounded (a : Args) (h : LimbsLe30 a) :
    fesquare a = Unbounded.fesquare a := by
  rw [fesquare, Unbounded.fesquare, carryOut_eq_unbounded _ (coeffs_lt66 a h),
    coeffs_eq_unbounded a h]

theorem assigned_in_range (c : Coeffs) (h : CoeffsLt66 c) :
    (∀ v ∈ assigned64 c, 0 ≤ v ∧ v < 2 ^ 64) ∧ (∀ v ∈ assigned32 c, 0 ≤ v ∧ v < 2 ^ 32) := by
  obtain ⟨h38, h46, h47, h48, h49, h50, h51, h52, h53, h54, h55, h56, h57, h58, h59, h60⟩ :=
    (coeffsLt66_iff c).1 h
  simp only [assigned64, assigned32, List.forall_mem_cons, List.mem_singleton, forall_eq,
    List.not_mem_nil, false_imp_iff, implies_true, and_true]
  refine ⟨⟨?_, ?_, ?_, ?_, ?_, ?_, ?_, ?_, ?_, ?_, ?_, ?_, ?_, ?_, ?_, ?_, ?_, ?_, ?_, ?_, ?_⟩, ⟨?_, ?_, ?_, ?_, ?_, ?_, ?_, ?_, ?_, ?_, ?_, ?_, ?_, ?_, ?_, ?_, ?_, ?_, ?_, ?_, ?_, ?_, ?_, ?_, ?_, ?_, ?_, ?_, ?_, ?_, ?_, ?_⟩⟩
  · rw [shr30]
    omega
  · rw [shr30]
    omega
  · have s65 := x65_spec c h
    rw [shr30]
    omega
  · have s68 := x68_spec c h
    rw [shr30]
    omega
  · have s71 := x71_spec c h
    rw [shr30]
    omega
  · have s74 := x74_spec c h
    rw [shr30]
    omega
  · have s77 := x77_spec c h
    rw [shr30]
    omega
  · have s80 := x80_spec c h
    rw [shr30]
    omega
  · have s83 := x83_spec c h
    rw [shr30]
    omega
  · have s86 := x86_spec c h
    rw [shr30]
    omega
  · have s89 := x89_spec c h
    rw [shr30]
    omega
  · have s92 := x92_spec c h
    rw [shr30]
    omega
  · have s95 := x95_spec c h
    rw [shr30]
    omega
  · have s98 := x98_spec c h
    rw [shr30]
    omega
  · have s101 := x101_spec c h
    rw [shr30]
    omega
  · have s104 := x104_spec c h
    rw [shr30]
    omega
  · have s107 := x107_spec c h
    rw [shr30]
    omega
  · have s105 := x105_spec c h
    have s67 := x67_spec c h
    omega
  · have s108 := x108_spec c h
    have s62 := x62_spec c h
    omega
  · have s111 := x111_spec c h
    omega
  · have s111 := x111_spec c h
    have s112 := x112_spec c h
    simp only [u64]
    omega
  · rw [band30 _ h53.1]
    omega
  · rw [band30 _ h38.1]
    omega
  · have s65 := x65_spec c h
    rw [band30 _ (x65_spec c h).2.1]
    omega
  · have s68 := x68_spec c h
    rw [band30 _ (x68_spec c h).2.1]
    omega
  · have s71 := x71_spec c h
    rw [band30 _ (x71_spec c h).2.1]
    omega
  · have s74 := x74_spec c h
    rw [band30 _ (x74_spec c h).2.1]
    omega
  · have s77 := x77_spec c h
    rw [band30 _ (x77_spec c h).2.1]
    omega
  · have s80 := x80_spec c h
    rw [band30 _ (x80_spec c h).2.1]
    omega
  · have s83 := x83_spec c h
    rw [band30 _ (x83_spec c h).2.1]
    omega
  · have s86 := x86_spec c h
    rw [band30 _ (x86_spec c h).2.1]
    omega
  · have s89 := x89_spec c h
    rw [band30 _ (x89_spec c h).2.1]
    omega
  · have s92 := x92_spec c h
    rw [band30 _ (x92_spec c h).2.1]
    omega
  · have s95 := x95_spec c h
    rw [band30 _ (x95_spec c h).2.1]
    omega
  · have s98 := x98_spec c h
    rw [band30 _ (x98_spec c h).2.1]
    omega
  · have s101 := x101_spec c h
    rw [band30 _ (x101_spec c h).2.1]
    omega
  · have s104 := x104_spec c h
    rw [band30 _ (x104_spec c h).2.1]
    omega
  · have s107 := x107_spec c h
    rw [band30 _ (x107_spec c h).2.1]
    omega
  · have s110 := x110_spec c h
    rw [shr30]
    omega
  · have s110 := x110_spec c h
    rw [band30 _ (u32_nonneg _)]
    unfold u32
    omega
  · have s113 := x113_spec c h
    rw [shr30]
    omega
  · have s113 := x113_spec c h
    rw [band30 _ (u32_nonneg _)]
    unfold u32
    omega
  · have s116 := x116_spec c h
    rw [shr30]
    omega
  · have s116 := x116_spec c h
    rw [band30 _ (u32_nonneg _)]
    unfold u32
    omega
  · have s114 := x114_spec c h
    have s70 := x70_spec c h
    omega
  · have s114 := x114_spec c h
    have s70 := x70_spec c h
    have s117 := x117_spec c h
    simp only [u32]
    omega
  · have s119 := x119_spec c h
    rw [shr30]
    omega
  · have s119 := x119_spec c h
    rw [band30 _ (x119_spec c h).2.1]
    omega
  · have s73 := x73_spec c h
    have s117 := x117_spec c h
    omega
  · have s122 := x122_spec c h
    rw [shr30]
    omega
  · have s122 := x122_spec c h
    rw [band30 _ (x122_spec c h).2.1]
    omega
  · have s120 := x120_spec c h
    have s76 := x76_spec c h
    omega
  · have s123 := x123_spec c h
    have s79 := x79_spec c h
    omega

theorem inputs_in_range (a : Args) (h : LimbsLe30 a) (i j : Nat) :
    (0 ≤ limb a i + limb a j ∧ limb a i + limb a j < 2 ^ 64) ∧
      (0 ≤ limb a i * limb a j ∧ limb a i * limb a j < 2 ^ 64) := by
  have hi := limb_bounds a h i
  have hj := limb_bounds a h j
  have hm := mul_bounds hi hj
  omega

/-- Claim C1: squaring is correct modulo `p = 2^480 - 2^240 - 1`.  With the
parameters read as limbs 15 down to 0 (`x29` is limb 15, ..., `x2` limb 0), the
output read as `out[15-i] = limb i`, each limb `i` weighted `2^(30*i)`, and the
`ℤ`-typed intermediates unbounded: for every input whose limbs are all below `2^30`,
the value of the output is congruent to the square of the value of the input. -/
theorem fesquare_sq_modEq (a : Args) (h : LimbsLt30 a) :
    outValue (fesquare a) % p = value a ^ 2 % p :=
  fesquare_modEq a (limbsLe30_of_lt a h)

/-- Witness of claim C1 at the input `sample`. -/
theorem fesquare_sq_modEq_witness :
    LimbsLt30 sample ∧ outValue (fesquare sample) % p = value sample ^ 2 % p :=
  ⟨by decide, fesquare_sq_modEq sample (by decide)⟩

/-- Counterexample to claim C4 as stated: on the tight input `nearMax` the limbs
`out[6]` and `out[14]` are `2^30`, so not every output limb is below `2^30`; on the
tight input of value `2^241 - 1` every output limb is below `2^30` and the output
represents `p + 5`, which is not in `[0, p)`. -/
theorem fesquare_output_not_tight :
    (Tight nearMax ∧ (fesquare nearMax).getD 6 0 = 2 ^ 30 ∧
      (fesquare nearMax).getD 14 0 = 2 ^ 30 ∧
      ¬ ((∀ x ∈ fesquare nearMax, x < 2 ^ 30) ∧
        (0 ≤ outValue (fesquare nearMax) ∧ outValue (fesquare nearMax) < p))) ∧
    (Tight twoPow241Pred ∧ (∀ x ∈ fesquare twoPow241Pred, x < 2 ^ 30) ∧
      outValue (fesquare twoPow241Pred) = p + 5 ∧
      ¬ ((∀ x ∈ fesquare twoPow241Pred, x < 2 ^ 30) ∧
        (0 ≤ outValue (fesquare twoPow241Pred) ∧ outValue (fesquare twoPow241Pred) < p))) := by
  decide

/-- Claim C4, amended: for every tight-form input, every one of the sixteen output
limbs is a non-negative integer of at most `2^30`, and the value they represent lies
in `[0, 2 * p)`. -/
theorem fesquare_output_bounds (a : Args) (h : Tight a) :
    (∀ x ∈ fesquare a, 0 ≤ x ∧ x ≤ 2 ^ 30) ∧
      0 ≤ outValue (fesquare a) ∧ outValue (fesquare a) < 2 * p := by
  have hb := carryOut_bounds (coeffs a) (coeffs_lt66 a (limbsLe30_of_lt a h.1))
  refine ⟨hb.1, hb.2.1, lt_trans hb.2.2 ?_⟩
  unfold p
  norm_num

/-- Witness of the amended claim C4 at the input `sample`. -/
theorem fesquare_output_bounds_witness :
    Tight sample ∧
      ((∀ x ∈ fesquare sample, 0 ≤ x ∧ x ≤ 2 ^ 30) ∧
        0 ≤ outValue (fesquare sample) ∧ outValue (fesquare sample) < 2 * p) :=
  ⟨by decide, fesquare_output_bounds sample (by decide)⟩

/-- Counterexample to claim C5 as stated: on the tight input `nearMax` the coefficient
sum `x52` is `43811017080570904626`, above `2^64 - 1`. -/
theorem fesquare_accumulator_exceeds_u64 :
    Tight nearMax ∧ x52 nearMax ∈ accumulators nearMax ∧
      x52 nearMax = 43811017080570904626 ∧ ¬ (x52 nearMax ≤ 2 ^ 64 - 1) := by
  decide

/-- Claim C5, amended: for every tight-form input, every accumulator value computed
inside `fesquare` (the coefficient sums `x31, ..., x60` and the carry sums
`x65, ..., x107`, all of type `ℤ`) is a non-negative integer below `2^66`. -/
theorem fesquare_accumulators_lt (a : Args) (h : Tight a) :
    ∀ v ∈ accumulators a, 0 ≤ v ∧ v < 2 ^ 66 :=
  accumulators_bounds a (limbsLe30_of_lt a h.1)

/-- Witness of the amended claim C5 at the input `nearMax`. -/
theorem fesquare_accumulators_lt_witness :
    Tight nearMax ∧ ∀ v ∈ accumulators nearMax, 0 ≤ v ∧ v < 2 ^ 66 :=
  ⟨by decide, fesquare_accumulators_lt nearMax (by decide)⟩

/-- Counterexample to claim C6 as stated: on the tight input of value `2^30` the
output read with `out[0]` as the least significant limb represents `2^390`, which
is not congruent to `(2^30)^2` modulo `p`. -/
theorem fesquare_not_little_limb_order :
    Tight limbOne ∧ value limbOne = 2 ^ 30 ∧ evalLimbs 30 (fesquare limbOne) = 2 ^ 390 ∧
      ¬ (evalLimbs 30 (fesquare limbOne) % p = value limbOne ^ 2 % p) := by
  decide

/-- Claim C6, amended: the output array of `fesquare` is in the limb order of its
parameters, most significant limb first (`out[0]` is limb 15, `out[15]` limb 0).
For every tight-form input, the sum of `out[i] * 2^(30*(15-i))` is congruent modulo
`p` to the square of the number that the parameters represent in declaration
order, most significant first. -/
theorem fesquare_big_limb_order (a : Args) (h : Tight a) :
    evalBE 30 (fesquare a) % p = evalBE 30 (params a) ^ 2 % p := by
  have e : evalBE 30 (fesquare a) = outValue (fesquare a) := by
    unfold fesquare carryOut
    exact evalBE_eq_outValue _ _ _ _ _ _ _ _ _ _ _ _ _ _ _ _
  rw [e, evalBE_params]
  exact fesquare_modEq a (limbsLe30_of_lt a h.1)

/-- Witness of the amended claim C6 at the input `limbOne`. -/
theorem fesquare_big_limb_order_witness :
    Tight limbOne ∧ evalBE 30 (fesquare limbOne) % p = evalBE 30 (params limbOne) ^ 2 % p :=
  ⟨by decide, fesquare_big_limb_order limbOne (by decide)⟩

/-- Claim C8: for every `v < 2^15`, the input whose least significant limb `x2` is
`v` and whose other fifteen limbs are `0` produces the output whose least
significant limb `out[15]` is `v^2` and whose other fifteen limbs are `0`. -/
theorem fesquare_lowLimb (v : Int) (h0 : 0 ≤ v) (hv : v < 2 ^ 15) :
    fesquare (lowLimb v) = [0, 0, 0, 0, 0, 0, 0, 0, 0, 0, 0, 0, 0, 0, 0, v ^ 2] := by
  have hb : 0 ≤ v * v ∧ v * v < 2 ^ 30 := by
    constructor
    · exact Int.mul_nonneg h0 h0
    · have h1 : v ≤ 2 ^ 15 - 1 := by omega
      calc v * v ≤ (2 ^ 15 - 1) * (2 ^ 15 - 1) := mul_le_mul h1 h1 h0 (by norm_num)
        _ < 2 ^ 30 := by norm_num
  have ht : CoeffsLt30 ⟨0, 0, 0, 0, 0, 0, 0, 0, 0, 0, 0, 0, 0, 0, 0, v * v⟩ := by
    rw [coeffsLt30_iff]
    simp only [le_refl, true_and]
    refine ⟨?_, ?_, ?_, ?_, ?_, ?_, ?_, ?_, ?_, ?_, ?_, ?_, ?_, ?_, ?_, hb⟩ <;> norm_num
  unfold fesquare
  rw [coeffs_lowLimb v h0 (by omega), carryOut_tight _ ht]
  simp only [Coeffs.toList, pow_two]

/-- Witness of claim C8: squaring `3` gives `9`. -/
theorem fesquare_lowLimb_witness :
    (0 : Int) ≤ 3 ∧ (3 : Int) < 2 ^ 15 ∧
      fesquare (lowLimb 3) = [0, 0, 0, 0, 0, 0, 0, 0, 0, 0, 0, 0, 0, 0, 0, 3 ^ 2] :=
  ⟨by decide, by decide, fesquare_lowLimb 3 (by decide) (by decide)⟩

/-- Claim C10: the sixteen pre-carry coefficients are the schoolbook square folded by
`2^480 = 2^240 + 1`.  With `S_m` the sum of `a_i * a_j` over `0 ≤ i, j ≤ 15` with
`i + j = m` (which is `0` for `m > 30`) and
`(c_0, ..., c_15) = (x60, x59, ..., x46, x38)`: for every input with limbs below
`2^30` and each `k` in `0..7`, `c_k = S_k + S_(16+k) + S_(24+k)` and
`c_(8+k) = S_(8+k) + S_(16+k) + 2 * S_(24+k)`. -/
theorem coeffs_eq_folded_schoolbook (a : Args) (h : LimbsLt30 a) (k : Nat) (hk : k < 8) :
    (coeffs a).nth k = S a k + S a (16 + k) + S a (24 + k) ∧
      (coeffs a).nth (8 + k) = S a (8 + k) + S a (16 + k) + 2 * S a (24 + k) ∧
      ∀ m, 30 < m → S a m = 0 := by
  have h' := limbsLe30_of_lt a h
  refine ⟨?_, ?_, fun m hm => S_eq_zero_of_gt a m hm⟩
  · interval_cases k
    · exact x60_eq_S a h'
    · exact x59_eq_S a h'
    · exact x58_eq_S a h'
    · exact x57_eq_S a h'
    · exact x56_eq_S a h'
    · exact x55_eq_S a h'
    · exact x54_eq_S a h'
    · show x53 a = S a 7 + S a 23 + S a 31
      rw [S_31, add_zero]
      exact x53_eq_S a h'
  · interval_cases k
    · exact x52_eq_S a h'
    · exact x51_eq_S a h'
    · exact x50_eq_S a h'
    · exact x49_eq_S a h'
    · exact x48_eq_S a h'
    · exact x47_eq_S a h'
    · exact x46_eq_S a h'
    · show x38 a = S a 15 + S a 23 + 2 * S a 31
      rw [S_31, mul_zero, add_zero]
      exact x38_eq_S a h'

/-- Witness of claim C10 at the input `sample` and `k = 7`. -/
theorem coeffs_eq_folded_schoolbook_witness :
    LimbsLt30 sample ∧ 7 < 8 ∧
      ((coeffs sample).nth 7 = S sample 7 + S sample (16 + 7) + S sample (24 + 7) ∧
        (coeffs sample).nth (8 + 7) =
          S sample (8 + 7) + S sample (16 + 7) + 2 * S sample (24 + 7) ∧
        ∀ m, 30 < m → S sample m = 0) :=
  ⟨by decide, by decide, coeffs_eq_folded_schoolbook sample (by decide) 7 (by decide)⟩

/-- Claim C11: the carry chain discards no carry and preserves the value modulo `p`.
Taking lines 50-129 as a function of the coefficients
`(c_0, ..., c_15) = (x60, x59, ..., x46, x38)`: for all non-negative integer
coefficients below `2^66`, the sum of `out[15-i] * 2^(30*i)` is the sum of
`c_i * 2^(30*i)` minus `(x66 + x117) * (2^480 - 2^240 - 1)`, where `x66` and `x117`
are the two carries taken out of limb 15. -/
theorem carry_chain_value (c : Coeffs) (h : CoeffsLt66 c) :
    outValue (carryOut c) = evalLimbs 30 c.toList.reverse - (x66 c + x117 c) * p ∧
      outValue (carryOut c) % p = evalLimbs 30 c.toList.reverse % p := by
  have hv := carry_value c h
  refine ⟨hv, ?_⟩
  have e : evalLimbs 30 c.toList.reverse - (x66 c + x117 c) * p =
      evalLimbs 30 c.toList.reverse + -(x66 c + x117 c) * p := by
    ring
  rw [hv, e, Int.add_mul_emod_self]

/-- Witness of claim C11 at the coefficient vector `wideCoeffs`. -/
theorem carry_chain_value_witness :
    CoeffsLt66 wideCoeffs ∧
      (outValue (carryOut wideCoeffs) =
          evalLimbs 30 wideCoeffs.toList.reverse - (x66 wideCoeffs + x117 wideCoeffs) * p ∧
        outValue (carryOut wideCoeffs) % p = evalLimbs 30 wideCoeffs.toList.reverse % p) :=
  ⟨by decide, carry_chain_value wideCoeffs (by decide)⟩

/-- Claim C14: normalization is idempotent on tight input.  Taking the carry chain
(lines 50-129) as a function of the coefficients
`(c_0, ..., c_15) = (x60, x59, ..., x46, x38)`: for every coefficient vector with
all `c_i` non-negative and below `2^30`, the output is the same vector unchanged,
`out[15-i] = c_i` for every `i`. -/
theorem carry_chain_idempotent (c : Coeffs) (h : CoeffsLt30 c) :
    carryOut c = c.toList ∧ ∀ i, i < 16 → (carryOut c).getD (15 - i) 0 = c.nth i := by
  have e := carryOut_tight c h
  refine ⟨e, fun i hi => ?_⟩
  rw [e]
  interval_cases i <;> rfl

/-- Witness of claim C14 at the coefficient vector `tightCoeffs`. -/
theorem carry_chain_idempotent_witness :
    CoeffsLt30 tightCoeffs ∧
      (carryOut tightCoeffs = tightCoeffs.toList ∧
        ∀ i, i < 16 → (carryOut tightCoeffs).getD (15 - i) 0 = tightCoeffs.nth i) :=
  ⟨by decide, carry_chain_idempotent tightCoeffs (by decide)⟩

/-- Claim C15: output bound of `fesquare`.  For every input whose sixteen limbs are
each at most `2^30`, every output limb is at most `2^30`, and every output limb
other than `out[6]` and `out[14]` is strictly below `2^30`; so the limb vectors
with all limbs at most `2^30` are closed under `fesquare`. -/
theorem fesquare_closed_le30 (a : Args) (h : LimbsLe30 a) :
    (∀ x ∈ fesquare a, 0 ≤ x ∧ x ≤ 2 ^ 30) ∧
      (∀ i, i < 16 → i ≠ 6 → i ≠ 14 → (fesquare a).getD i 0 < 2 ^ 30) ∧
      LimbsLe30 (ofOut (fesquare a)) := by
  have hc := coeffs_lt66 a h
  have hb := (carryOut_bounds (coeffs a) hc).1
  exact ⟨hb, carryOut_strict (coeffs a) hc, limbsLe30_ofOut _ (fesquare_length a) hb⟩

/-- Witness of claim C15 at the input whose limbs are all `2^30`. -/
theorem fesquare_closed_le30_witness :
    LimbsLe30 allPow30 ∧
      ((∀ x ∈ fesquare allPow30, 0 ≤ x ∧ x ≤ 2 ^ 30) ∧
        (∀ i, i < 16 → i ≠ 6 → i ≠ 14 → (fesquare allPow30).getD i 0 < 2 ^ 30) ∧
        LimbsLe30 (ofOut (fesquare allPow30))) :=
  ⟨by decide, fesquare_closed_le30 allPow30 (by decide)⟩

/-- Claim C16: `fesquare` can be iterated on its own output.  For every input `a`
with limbs below `2^30`, feeding the sixteen output limbs of `fesquare a` back as
the limb parameters in the same order (`out[0]` as `x29`, ..., `out[15]` as `x2`)
yields an output whose value is congruent to `value(a)^4` modulo
`2^480 - 2^240 - 1`. -/
theorem fesquare_twice (a : Args) (h : LimbsLt30 a) :
    outValue (fesquare (ofOut (fesquare a))) % p = value a ^ 4 % p := by
  have h' := limbsLe30_of_lt a h
  have h1 : outValue (fesquare a) % p = value a ^ 2 % p := fesquare_modEq a h'
  have hb := (carryOut_bounds (coeffs a) (coeffs_lt66 a h')).1
  have h2 := fesquare_modEq (ofOut (fesquare a)) (limbsLe30_ofOut _ (fesquare_length a) hb)
  rw [value_ofOut _ (fesquare_length a)] at h2
  have h3 : outValue (fesquare a) ^ 2 % p = (value a ^ 2) ^ 2 % p := by
    rw [pow_two, pow_two (value a ^ 2), Int.mul_emod, h1, ← Int.mul_emod]
  have e : (value a ^ 2) ^ 2 = value a ^ 4 := by ring
  rw [h2, h3, e]

/-- Witness of claim C16 at the input `sample`. -/
theorem fesquare_twice_witness :
    LimbsLt30 sample ∧
      outValue (fesquare (ofOut (fesquare sample))) % p = value sample ^ 4 % p :=
  ⟨by decide, fesquare_twice sample (by decide)⟩

/-- Claim C12: the two alternatives of every `IdWithAlt` pair of `fesquare`
(`x31, ..., x45`) produce the same total.  For every input with limbs below `2^30`,
the first expression (the sum of `(a_i + b_i) * (a_j + b_j)` minus the sum of
`a_i * a_j`) is a non-negative integer equal to the second expression (the sum of
`a_i * b_j + b_i * a_j + b_i * b_j`). -/
theorem idWithAlt_alternatives_agree (a : Args) (h : LimbsLt30 a) :
    ∀ pr ∈ altPairs a, 0 ≤ pr.1 ∧ pr.1 = pr.2 := by
  have h' := limbsLe30_of_lt a h
  obtain ⟨h2, h4, h6, h8, h10, h12, h14, h16, h18, h20, h22, h24, h26, h28, h30, h29⟩ :=
    (limbsLe30_iff a).1 h'
  simp only [altPairs, List.forall_mem_cons, List.mem_singleton, forall_eq,
    List.not_mem_nil, false_imp_iff, implies_true, and_true]
  refine ⟨?_, ?_, ?_, ?_, ?_, ?_, ?_, ?_, ?_, ?_, ?_, ?_, ?_, ?_, ?_⟩
  · refine ⟨(x31_bounds a h').1, ?_⟩
    rw [x31_eq_alt a h']
    simp only [x31Alt, u64_mul_of_le, h2, h4, h6, h8, h10, h12, h14, h16, h18, h20, h22, h24, h26, h28, h30, h29, and_self]
  · refine ⟨(x32_bounds a h').1, ?_⟩
    rw [x32_eq_alt a h']
    simp only [x32Alt, u64_mul_of_le, h2, h4, h6, h8, h10, h12, h14, h16, h18, h20, h22, h24, h26, h28, h30, h29, and_self]
  · refine ⟨(x33_bounds a h').1, ?_⟩
    rw [x33_eq_alt a h']
    simp only [x33Alt, u64_mul_of_le, h2, h4, h6, h8, h10, h12, h14, h16, h18, h20, h22, h24, h26, h28, h30, h29, and_self]
  · refine ⟨(x34_bounds a h').1, ?_⟩
    rw [x34_eq_alt a h']
    simp only [x34Alt, u64_mul_of_le, h2, h4, h6, h8, h10, h12, h14, h16, h18, h20, h22, h24, h26, h28, h30, h29, and_self]
  · refine ⟨(x35_bounds a h').1, ?_⟩
    rw [x35_eq_alt a h']
    simp only [x35Alt, u64_mul_of_le, h2, h4, h6, h8, h10, h12, h14, h16, h18, h20, h22, h24, h26, h28, h30, h29, and_self]
  · refine ⟨(x36_bounds a h').1, ?_⟩
    rw [x36_eq_alt a h']
    simp only [x36Alt, u64_mul_of_le, h2, h4, h6, h8, h10, h12, h14, h16, h18, h20, h22, h24, h26, h28, h30, h29, and_self]
  · refine ⟨(x37_bounds a h').1, ?_⟩
    rw [x37_eq_alt a h']
    simp only [x37Alt, u64_mul_of_le, h2, h4, h6, h8, h10, h12, h14, h16, h18, h20, h22, h24, h26, h28, h30, h29, and_self]
  · refine ⟨(x38_bounds a h').1, ?_⟩
    rw [x38_eq_alt a h']
    simp only [x38Alt, u64_mul_of_le, h2, h4, h6, h8, h10, h12, h14, h16, h18, h20, h22, h24, h26, h28, h30, h29, and_self]
  · refine ⟨(x39_bounds a h').1, ?_⟩
    rw [x39_eq_alt a h']
    simp only [x39Alt, u64_mul_of_le, h2, h4, h6, h8, h10, h12, h14, h16, h18, h20, h22, h24, h26, h28, h30, h29, and_self]
  · refine ⟨(x40_bounds a h').1, ?_⟩
    rw [x40_eq_alt a h']
    simp only [x40Alt, u64_mul_of_le, h2, h4, h6, h8, h10, h12, h14, h16, h18, h20, h22, h24, h26, h28, h30, h29, and_self]
  · refine ⟨(x41_bounds a h').1, ?_⟩
    rw [x41_eq_alt a h']
    simp only [x41Alt, u64_mul_of_le, h2, h4, h6, h8, h10, h12, h14, h16, h18, h20, h22, h24, h26, h28, h30, h29, and_self]
  · refine ⟨(x42_bounds a h').1, ?_⟩
    rw [x42_eq_alt a h']
    simp only [x42Alt, u64_mul_of_le, h2, h4, h6, h8, h10, h12, h14, h16, h18, h20, h22, h24, h26, h28, h30, h29, and_self]
  · refine ⟨(x43_bounds a h').1, ?_⟩
    rw [x43_eq_alt a h']
    simp only [x43Alt, u64_mul_of_le, h2, h4, h6, h8, h10, h12, h14, h16, h18, h20, h22, h24, h26, h28, h30, h29, and_self]
  · refine ⟨(x44_bounds a h').1, ?_⟩
    rw [x44_eq_alt a h']
    simp only [x44Alt, u64_mul_of_le, h2, h4, h6, h8, h10, h12, h14, h16, h18, h20, h22, h24, h26, h28, h30, h29, and_self]
  · refine ⟨(x45_bounds a h').1, ?_⟩
    rw [x45_eq_alt a h']
    simp only [x45Alt, u64_mul_of_le, h2, h4, h6, h8, h10, h12, h14, h16, h18, h20, h22, h24, h26, h28, h30, h29, and_self]

/-- Witness of claim C12 at the input `sample`. -/
theorem idWithAlt_alternatives_agree_witness :
    LimbsLt30 sample ∧ ∀ pr ∈ altPairs sample, 0 ≤ pr.1 ∧ pr.1 = pr.2 :=
  ⟨by decide, idWithAlt_alternatives_agree sample (by decide)⟩

/-- Counterexample to claim C13 as stated: on the tight input `nearMax` the value
`x110 = 27917287424` that `x112` casts to `uint32_t` is not below `2^32`, and the
cast changes it. -/
theorem fesquare_uint32_cast_truncates :
    Tight nearMax ∧ x110 (coeffs nearMax) = 27917287424 ∧
      ¬ (x110 (coeffs nearMax) < 2 ^ 32) ∧
      u32 (x110 (coeffs nearMax)) ≠ x110 (coeffs nearMax) := by
  decide

/-- Claim C13, amended: on every input with limbs below `2^30`, every `uint64_t` sum
or product of two inputs is below `2^64`, every value stored in a `uint64_t`
variable or produced by a `uint64_t` operation is below `2^64`, and every value
stored in a `uint32_t` variable or produced by a `uint32_t` operation is below
`2^32` (the operands `x110`, `x113`, `x116` of the casts inside `x112`, `x115`,
`x118` excepted, whose bits 32 and above the mask `& 0x3fffffff` discards); and
the kernel computed with wrap-around at the declared widths equals the kernel
computed over unbounded integers. -/
theorem fesquare_no_overflow (a : Args) (h : LimbsLt30 a) :
    (∀ i j, (0 ≤ limb a i + limb a j ∧ limb a i + limb a j < 2 ^ 64) ∧
      (0 ≤ limb a i * limb a j ∧ limb a i * limb a j < 2 ^ 64)) ∧
    (∀ v ∈ assigned64 (coeffs a), 0 ≤ v ∧ v < 2 ^ 64) ∧
    (∀ v ∈ assigned32 (coeffs a), 0 ≤ v ∧ v < 2 ^ 32) ∧
    fesquare a = Unbounded.fesquare a := by
  have h' := limbsLe30_of_lt a h
  have hr := assigned_in_range (coeffs a) (coeffs_lt66 a h')
  exact ⟨fun i j => inputs_in_range a h' i j, hr.1, hr.2, fesquare_eq_unbounded a h'⟩

/-- Witness of the amended claim C13 at the input `nearMax`. -/
theorem fesquare_no_overflow_witness :
    LimbsLt30 nearMax ∧
      ((∀ i j, (0 ≤ limb nearMax i + limb nearMax j ∧ limb nearMax i + limb nearMax j < 2 ^ 64) ∧
        (0 ≤ limb nearMax i * limb nearMax j ∧ limb nearMax i * limb nearMax j < 2 ^ 64)) ∧
      (∀ v ∈ assigned64 (coeffs nearMax), 0 ≤ v ∧ v < 2 ^ 64) ∧
      (∀ v ∈ assigned32 (coeffs nearMax), 0 ≤ v ∧ v < 2 ^ 32) ∧
      fesquare nearMax = Unbounded.fesquare nearMax) :=
  ⟨by decide, fesquare_no_overflow nearMax (by decide)⟩

end Fesquare

end FiatCrypto
